import Mathlib

/-!
# Theatre management backend: entity integrity layer

A shallow embedding of the Go service layer (`src/business`), the mappers
(`src/mappers`), the models and DTOs, the repository interfaces
(`src/interfaces`) and the handlers (`src/controllers`), followed by the
properties proved about them.

Conventions of the embedding:

* `uuid.UUID` is a natural number, `uuid.Nil` is `0`;
* `time.Time` is an integer instant, the zero time is `0`;
* a `float64` value that comes from a JSON body or from a column is a number
  and is carried as a rational, `Float64` (no rounding is modelled); a `float64`
  value that comes from a query string through `strconv.ParseFloat` may also
  be an infinity or NaN and is carried as `float64`, compared as Go compares;
* Go `int` is `Int` (the code compares and copies these values, it never does
  arithmetic on them);
* a nullable pointer `*T` is `Option T`;
* a Go model struct is split into its stored columns (a `...Row` structure)
  and its association fields, because the association fields make the five
  models mutually recursive;
* a result pair `(*T, error)` is `Except _ T`, a bare `error` is `Option _`.
-/

set_option autoImplicit false

/-! ## Basic types -/

abbrev UUID := Nat

/-- The constant `uuid.Nil`. -/
def uuid.Nil : UUID := 0

abbrev Time := Int

/-- The zero value of `time.Time`. -/
def Time.zero : Time := 0

/-- The method `time.Time.Before`. -/
def Time.Before (t u : Time) : Bool := decide (t < u)

abbrev Float64 := ℚ

/-- A value of Go's `float64` as `strconv.ParseFloat` hands it on from a query
string: a number, an infinity, or NaN. -/
inductive float64 where
  | num (x : ℚ)
  | posInf
  | negInf
  | NaN
  deriving DecidableEq

namespace float64

/-- The comparison `a < b` of Go: false as soon as one side is NaN. -/
def less : float64 → float64 → Bool
  | num x, num y => decide (x < y)
  | num _, posInf => true
  | negInf, num _ => true
  | negInf, posInf => true
  | _, _ => false

/-- The comparison `a <= b` of Go: false as soon as one side is NaN. -/
def lessEq : float64 → float64 → Bool
  | num x, num y => decide (x ≤ y)
  | num _, posInf => true
  | negInf, num _ => true
  | negInf, posInf => true
  | posInf, posInf => true
  | negInf, negInf => true
  | _, _ => false

/-- The negation `-a` of Go. -/
def neg : float64 → float64
  | num x => num (-x)
  | posInf => negInf
  | negInf => posInf
  | NaN => NaN

instance instLT : LT float64 := ⟨fun a b => less a b = true⟩

instance instLE : LE float64 := ⟨fun a b => lessEq a b = true⟩

instance instNeg : Neg float64 := ⟨neg⟩

instance instOfNat (n : Nat) : OfNat float64 n := ⟨num n⟩

instance decLT (a b : float64) : Decidable (a < b) :=
  inferInstanceAs (Decidable (less a b = true))

instance decLE (a b : float64) : Decidable (a ≤ b) :=
  inferInstanceAs (Decidable (lessEq a b = true))

end float64

/-! ## Constants (`src/constants/constants.go`) -/

namespace constants

def StatusOK : String := "OK"

def ErrorInvalidUUID : String := "Invalid UUID format"
def ErrorInvalidInput : String := "Invalid input data"
def ErrorLocationNotFound : String := "Location not found"
def ErrorTheatreNotFound : String := "Theatre not found"
def ErrorShowNotFound : String := "Show not found"
def ErrorTheatreTypeNotFound : String := "Theatre type not found"
def ErrorShowTypeNotFound : String := "Show type not found"
def ErrorDatabaseConnection : String := "Database connection error"
def ErrorDuplicateEntry : String := "Duplicate entry"
def ErrorValidationFailed : String := "Validation failed"
def ErrorInternalServerError : String := "Internal Server Error"

def MessageLocationCreated : String := "Location created successfully"
def MessageLocationUpdated : String := "Location updated successfully"
def MessageTheatreCreated : String := "Theatre created successfully"
def MessageTheatreUpdated : String := "Theatre updated successfully"
def MessageShowCreated : String := "Show created successfully"
def MessageShowUpdated : String := "Show updated successfully"
def MessageTheatreTypeCreated : String := "Theatre type created successfully"
def MessageTheatreTypeUpdated : String := "Theatre type updated successfully"
def MessageShowTypeCreated : String := "Show type created successfully"
def MessageShowTypeUpdated : String := "Show type updated successfully"

def DefaultLimit : Int := 20
def DefaultOffset : Int := 0
def MaxLimit : Int := 100
def DefaultRadius : float64 := 50

end constants

/-! ## Errors -/

/-- An error value coming out of the storage layer: the sentinel
`gorm.ErrRecordNotFound`, or any other failure (connection, constraint
violation, ...) with its message. -/
inductive StorageError where
  | ErrRecordNotFound
  | other (msg : String)
  deriving DecidableEq

/-- The method `Error()` of a storage error. -/
def StorageError.Error : StorageError → String
  | .ErrRecordNotFound => "record not found"
  | .other msg => msg

/-- The sentinel `gorm.ErrRecordNotFound`. -/
def gorm.ErrRecordNotFound : StorageError := .ErrRecordNotFound

/-- The call `errors.Is(err, target)` on storage errors. -/
def errors.Is (err target : StorageError) : Bool := decide (err = target)

/-- An error value returned by a service: either a storage error handed on
as it is (`return nil, err`), or a value made by `errors.New` in the service.
A value made by `errors.New` is a fresh one, never identical to an error that
came from elsewhere, whatever its text. -/
inductive GoError where
  | passed (err : StorageError)
  | New (msg : String)
  deriving DecidableEq

/-- The method `Error()` of a service error. -/
def GoError.Error : GoError → String
  | .passed err => err.Error
  | .New msg => msg

/-! ## Models (`src/models`) -/

/-- Columns of `models.Location`. -/
structure LocationRow where
  ID : UUID
  Name : String
  City : String
  State : String
  Country : String
  Latitude : Option Float64
  Longitude : Option Float64
  PostalCode : String
  Address : String
  Description : String
  IsActive : Bool
  CreatedAt : Time
  UpdatedAt : Time
  DeletedAt : Option Time
  deriving DecidableEq

/-- Columns of `models.TheatreType`. -/
structure TheatreTypeRow where
  ID : UUID
  Name : String
  Description : String
  IsActive : Bool
  CreatedAt : Time
  UpdatedAt : Time
  DeletedAt : Option Time
  deriving DecidableEq

/-- Columns of `models.ShowType`. -/
structure ShowTypeRow where
  ID : UUID
  Name : String
  Description : String
  IsActive : Bool
  CreatedAt : Time
  UpdatedAt : Time
  DeletedAt : Option Time
  deriving DecidableEq

/-- Columns of `models.Theatre`, foreign keys included. -/
structure TheatreRow where
  ID : UUID
  Name : String
  Description : String
  Capacity : Int
  Address : String
  Phone : String
  Email : String
  Website : String
  ImageURL : String
  IsFeatured : Bool
  IsActive : Bool
  CreatedAt : Time
  UpdatedAt : Time
  DeletedAt : Option Time
  LocationID : UUID
  TheatreTypeID : UUID
  deriving DecidableEq

/-- Columns of `models.Show`, foreign keys included. -/
structure ShowRow where
  ID : UUID
  Title : String
  Description : String
  Director : String
  Cast : String
  Duration : Int
  StartDate : Option Time
  EndDate : Option Time
  Price : Float64
  ImageURL : String
  TrailerURL : String
  IsFeatured : Bool
  IsActive : Bool
  CreatedAt : Time
  UpdatedAt : Time
  DeletedAt : Option Time
  TheatreID : UUID
  ShowTypeID : UUID
  deriving DecidableEq

mutual
/-- The model `models.Location`: its columns and the `Theatres` association. -/
inductive Location where
  | mk (row : LocationRow) (Theatres : List Theatre)
/-- The model `models.TheatreType`: its columns and the `Theatres` association. -/
inductive TheatreType where
  | mk (row : TheatreTypeRow) (Theatres : List Theatre)
/-- The model `models.ShowType`: its columns and the `Shows` association. -/
inductive ShowType where
  | mk (row : ShowTypeRow) (Shows : List Show)
/-- The model `models.Theatre`: its columns and the `Location`, `TheatreType`
and `Shows` associations. -/
inductive Theatre where
  | mk (row : TheatreRow) (Location : Location) (TheatreType : TheatreType) (Shows : List Show)
/-- The model `models.Show`: its columns and the `Theatre` and `ShowType`
associations. -/
inductive Show where
  | mk (row : ShowRow) (Theatre : Theatre) (ShowType : ShowType)
end

def Location.row : Location → LocationRow
  | .mk row _ => row

def Location.Theatres : Location → List Theatre
  | .mk _ theatres => theatres

def TheatreType.row : TheatreType → TheatreTypeRow
  | .mk row _ => row

def TheatreType.Theatres : TheatreType → List Theatre
  | .mk _ theatres => theatres

def ShowType.row : ShowType → ShowTypeRow
  | .mk row _ => row

def ShowType.Shows : ShowType → List Show
  | .mk _ shows => shows

def Theatre.row : Theatre → TheatreRow
  | .mk row _ _ _ => row

def Theatre.Location : Theatre → Location
  | .mk _ location _ _ => location

def Theatre.TheatreType : Theatre → TheatreType
  | .mk _ _ theatreType _ => theatreType

def Theatre.Shows : Theatre → List Show
  | .mk _ _ _ shows => shows

def Show.row : Show → ShowRow
  | .mk row _ _ => row

def Show.Theatre : Show → Theatre
  | .mk _ theatre _ => theatre

def Show.ShowType : Show → ShowType
  | .mk _ _ showType => showType

/-- Zero value of the columns of a location. -/
def LocationRow.zero : LocationRow :=
  { ID := uuid.Nil, Name := "", City := "", State := "", Country := "", Latitude := none,
    Longitude := none, PostalCode := "", Address := "", Description := "", IsActive := false,
    CreatedAt := Time.zero, UpdatedAt := Time.zero, DeletedAt := none }

/-- Zero value of the columns of a theatre type. -/
def TheatreTypeRow.zero : TheatreTypeRow :=
  { ID := uuid.Nil, Name := "", Description := "", IsActive := false,
    CreatedAt := Time.zero, UpdatedAt := Time.zero, DeletedAt := none }

/-- Zero value of the columns of a show type. -/
def ShowTypeRow.zero : ShowTypeRow :=
  { ID := uuid.Nil, Name := "", Description := "", IsActive := false,
    CreatedAt := Time.zero, UpdatedAt := Time.zero, DeletedAt := none }

/-- Zero value of the columns of a theatre. -/
def TheatreRow.zero : TheatreRow :=
  { ID := uuid.Nil, Name := "", Description := "", Capacity := 0, Address := "", Phone := "",
    Email := "", Website := "", ImageURL := "", IsFeatured := false, IsActive := false,
    CreatedAt := Time.zero, UpdatedAt := Time.zero, DeletedAt := none,
    LocationID := uuid.Nil, TheatreTypeID := uuid.Nil }

/-- Zero value of the columns of a show. -/
def ShowRow.zero : ShowRow :=
  { ID := uuid.Nil, Title := "", Description := "", Director := "", Cast := "", Duration := 0,
    StartDate := none, EndDate := none, Price := 0, ImageURL := "", TrailerURL := "",
    IsFeatured := false, IsActive := false, CreatedAt := Time.zero, UpdatedAt := Time.zero,
    DeletedAt := none, TheatreID := uuid.Nil, ShowTypeID := uuid.Nil }

/-- The zero value `models.Location{}`. -/
def Location.zero : Location := .mk LocationRow.zero []

/-- The zero value `models.TheatreType{}`. -/
def TheatreType.zero : TheatreType := .mk TheatreTypeRow.zero []

/-- The zero value `models.ShowType{}`. -/
def ShowType.zero : ShowType := .mk ShowTypeRow.zero []

/-- The zero value `models.Theatre{}`. -/
def Theatre.zero : Theatre := .mk TheatreRow.zero Location.zero TheatreType.zero []

/-- The zero value `models.Show{}`. -/
def Show.zero : Show := .mk ShowRow.zero Theatre.zero ShowType.zero

/-- The hook `(*Location).BeforeCreate`; `fresh` is what `uuid.New()` returns. -/
def Location.BeforeCreate (l : Location) (fresh : UUID) : Location :=
  if l.row.ID = uuid.Nil then .mk { l.row with ID := fresh } l.Theatres else l

/-- The hook `(*TheatreType).BeforeCreate`; `fresh` is what `uuid.New()` returns. -/
def TheatreType.BeforeCreate (tt : TheatreType) (fresh : UUID) : TheatreType :=
  if tt.row.ID = uuid.Nil then .mk { tt.row with ID := fresh } tt.Theatres else tt

/-- The hook `(*ShowType).BeforeCreate`; `fresh` is what `uuid.New()` returns. -/
def ShowType.BeforeCreate (st : ShowType) (fresh : UUID) : ShowType :=
  if st.row.ID = uuid.Nil then .mk { st.row with ID := fresh } st.Shows else st

/-- The hook `(*Theatre).BeforeCreate`; `fresh` is what `uuid.New()` returns. -/
def Theatre.BeforeCreate (t : Theatre) (fresh : UUID) : Theatre :=
  if t.row.ID = uuid.Nil then .mk { t.row with ID := fresh } t.Location t.TheatreType t.Shows else t

/-- The hook `(*Show).BeforeCreate`; `fresh` is what `uuid.New()` returns. -/
def Show.BeforeCreate (s : Show) (fresh : UUID) : Show :=
  if s.row.ID = uuid.Nil then .mk { s.row with ID := fresh } s.Theatre s.ShowType else s

/-! ## DTOs (`src/dto`) -/

structure LocationBase where
  Name : String
  City : String
  State : String
  Country : String
  Latitude : Option Float64
  Longitude : Option Float64
  PostalCode : String
  Address : String
  Description : String
  IsActive : Option Bool
  deriving DecidableEq

structure LocationSummary where
  ID : UUID
  Name : String
  City : String
  State : String
  Country : String
  Latitude : Option Float64
  Longitude : Option Float64
  IsActive : Bool
  deriving DecidableEq

structure TheatreTypeBase where
  Name : String
  Description : String
  IsActive : Option Bool
  deriving DecidableEq

structure TheatreTypeSummary where
  ID : UUID
  Name : String
  Description : String
  IsActive : Bool
  deriving DecidableEq

structure ShowTypeBase where
  Name : String
  Description : String
  IsActive : Option Bool
  deriving DecidableEq

structure ShowTypeSummary where
  ID : UUID
  Name : String
  Description : String
  IsActive : Bool
  deriving DecidableEq

structure TheatreBase where
  Name : String
  Description : String
  Capacity : Option Int
  Address : String
  Phone : String
  Email : String
  Website : String
  ImageURL : String
  IsFeatured : Option Bool
  IsActive : Option Bool
  LocationID : UUID
  TheatreTypeID : UUID
  deriving DecidableEq

structure TheatreSummary where
  ID : UUID
  Name : String
  Description : String
  Capacity : Int
  ImageURL : String
  IsFeatured : Bool
  IsActive : Bool
  LocationID : UUID
  TheatreTypeID : UUID
  Location : LocationSummary
  TheatreType : TheatreTypeSummary
  deriving DecidableEq

structure ShowBase where
  Title : String
  Description : String
  Director : String
  Cast : String
  Duration : Option Int
  StartDate : Option Time
  EndDate : Option Time
  Price : Option Float64
  ImageURL : String
  TrailerURL : String
  IsFeatured : Option Bool
  IsActive : Option Bool
  TheatreID : UUID
  ShowTypeID : UUID
  deriving DecidableEq

structure ShowSummary where
  ID : UUID
  Title : String
  Description : String
  Director : String
  Duration : Int
  StartDate : Option Time
  EndDate : Option Time
  Price : Float64
  ImageURL : String
  IsFeatured : Bool
  IsActive : Bool
  TheatreID : UUID
  ShowTypeID : UUID
  Theatre : TheatreSummary
  ShowType : ShowTypeSummary
  deriving DecidableEq

structure LocationDetails where
  ID : UUID
  Name : String
  City : String
  State : String
  Country : String
  Latitude : Option Float64
  Longitude : Option Float64
  PostalCode : String
  Address : String
  Description : String
  IsActive : Bool
  CreatedAt : Time
  UpdatedAt : Time
  Theatres : List TheatreSummary
  deriving DecidableEq

structure TheatreTypeDetails where
  ID : UUID
  Name : String
  Description : String
  IsActive : Bool
  CreatedAt : Time
  UpdatedAt : Time
  Theatres : List TheatreSummary
  deriving DecidableEq

structure ShowTypeDetails where
  ID : UUID
  Name : String
  Description : String
  IsActive : Bool
  CreatedAt : Time
  UpdatedAt : Time
  Shows : List ShowSummary
  deriving DecidableEq

structure TheatreDetails where
  ID : UUID
  Name : String
  Description : String
  Capacity : Int
  Address : String
  Phone : String
  Email : String
  Website : String
  ImageURL : String
  IsFeatured : Bool
  IsActive : Bool
  CreatedAt : Time
  UpdatedAt : Time
  LocationID : UUID
  TheatreTypeID : UUID
  Location : LocationSummary
  TheatreType : TheatreTypeSummary
  Shows : List ShowSummary
  deriving DecidableEq

structure ShowDetails where
  ID : UUID
  Title : String
  Description : String
  Director : String
  Cast : String
  Duration : Int
  StartDate : Option Time
  EndDate : Option Time
  Price : Float64
  ImageURL : String
  TrailerURL : String
  IsFeatured : Bool
  IsActive : Bool
  CreatedAt : Time
  UpdatedAt : Time
  TheatreID : UUID
  ShowTypeID : UUID
  Theatre : TheatreSummary
  ShowType : ShowTypeSummary
  deriving DecidableEq

/-- The zero value `dto.LocationSummary{}`. -/
def LocationSummary.zero : LocationSummary :=
  { ID := uuid.Nil, Name := "", City := "", State := "", Country := "", Latitude := none,
    Longitude := none, IsActive := false }

/-- The zero value `dto.TheatreTypeSummary{}`. -/
def TheatreTypeSummary.zero : TheatreTypeSummary :=
  { ID := uuid.Nil, Name := "", Description := "", IsActive := false }

/-- The zero value `dto.ShowTypeSummary{}`. -/
def ShowTypeSummary.zero : ShowTypeSummary :=
  { ID := uuid.Nil, Name := "", Description := "", IsActive := false }

/-- The zero value `dto.TheatreSummary{}`. -/
def TheatreSummary.zero : TheatreSummary :=
  { ID := uuid.Nil, Name := "", Description := "", Capacity := 0, ImageURL := "",
    IsFeatured := false, IsActive := false, LocationID := uuid.Nil, TheatreTypeID := uuid.Nil,
    Location := LocationSummary.zero, TheatreType := TheatreTypeSummary.zero }

/-! ## Mappers (`src/mappers`)

A mapper method that mutates the model behind its pointer argument
(`UpdateModel`) returns the model after the call. -/

/-- `LocationMapper.ToModel`. -/
def LocationMapper.ToModel (locationDTO : LocationBase) : Location :=
  let row : LocationRow :=
    { LocationRow.zero with
      Name := locationDTO.Name
      City := locationDTO.City
      State := locationDTO.State
      Country := locationDTO.Country
      Latitude := locationDTO.Latitude
      Longitude := locationDTO.Longitude
      PostalCode := locationDTO.PostalCode
      Address := locationDTO.Address
      Description := locationDTO.Description
      IsActive := true }
  let row := match locationDTO.IsActive with
    | some isActive => { row with IsActive := isActive }
    | none => row
  .mk row []

/-- `LocationMapper.ToSummaryDTO`. -/
def LocationMapper.ToSummaryDTO (location : Location) : LocationSummary :=
  { ID := location.row.ID
    Name := location.row.Name
    City := location.row.City
    State := location.row.State
    Country := location.row.Country
    Latitude := location.row.Latitude
    Longitude := location.row.Longitude
    IsActive := location.row.IsActive }

/-- `LocationMapper.ToSummaryDTOs`. -/
def LocationMapper.ToSummaryDTOs (locations : List Location) : List LocationSummary :=
  locations.map LocationMapper.ToSummaryDTO

/-- `LocationMapper.UpdateModel`. -/
def LocationMapper.UpdateModel (location : Location) (locationDTO : LocationBase) : Location :=
  let row : LocationRow :=
    { location.row with
      Name := locationDTO.Name
      City := locationDTO.City
      State := locationDTO.State
      Country := locationDTO.Country
      Latitude := locationDTO.Latitude
      Longitude := locationDTO.Longitude
      PostalCode := locationDTO.PostalCode
      Address := locationDTO.Address
      Description := locationDTO.Description }
  let row := match locationDTO.IsActive with
    | some isActive => { row with IsActive := isActive }
    | none => row
  .mk row location.Theatres

/-- `TheatreTypeMapper.ToModel`. -/
def TheatreTypeMapper.ToModel (theatreTypeDTO : TheatreTypeBase) : TheatreType :=
  let row : TheatreTypeRow :=
    { TheatreTypeRow.zero with
      Name := theatreTypeDTO.Name
      Description := theatreTypeDTO.Description
      IsActive := true }
  let row := match theatreTypeDTO.IsActive with
    | some isActive => { row with IsActive := isActive }
    | none => row
  .mk row []

/-- `TheatreTypeMapper.ToSummaryDTO`. -/
def TheatreTypeMapper.ToSummaryDTO (theatreType : TheatreType) : TheatreTypeSummary :=
  { ID := theatreType.row.ID
    Name := theatreType.row.Name
    Description := theatreType.row.Description
    IsActive := theatreType.row.IsActive }

/-- `TheatreTypeMapper.ToSummaryDTOs`. -/
def TheatreTypeMapper.ToSummaryDTOs (theatreTypes : List TheatreType) : List TheatreTypeSummary :=
  theatreTypes.map TheatreTypeMapper.ToSummaryDTO

/-- `TheatreTypeMapper.UpdateModel`. -/
def TheatreTypeMapper.UpdateModel (theatreType : TheatreType) (theatreTypeDTO : TheatreTypeBase) :
    TheatreType :=
  let row : TheatreTypeRow :=
    { theatreType.row with
      Name := theatreTypeDTO.Name
      Description := theatreTypeDTO.Description }
  let row := match theatreTypeDTO.IsActive with
    | some isActive => { row with IsActive := isActive }
    | none => row
  .mk row theatreType.Theatres

/-- `ShowTypeMapper.ToModel`. -/
def ShowTypeMapper.ToModel (showTypeDTO : ShowTypeBase) : ShowType :=
  let row : ShowTypeRow :=
    { ShowTypeRow.zero with
      Name := showTypeDTO.Name
      Description := showTypeDTO.Description
      IsActive := true }
  let row := match showTypeDTO.IsActive with
    | some isActive => { row with IsActive := isActive }
    | none => row
  .mk row []

/-- `ShowTypeMapper.ToSummaryDTO`. -/
def ShowTypeMapper.ToSummaryDTO (showType : ShowType) : ShowTypeSummary :=
  { ID := showType.row.ID
    Name := showType.row.Name
    Description := showType.row.Description
    IsActive := showType.row.IsActive }

/-- `ShowTypeMapper.ToSummaryDTOs`. -/
def ShowTypeMapper.ToSummaryDTOs (showTypes : List ShowType) : List ShowTypeSummary :=
  showTypes.map ShowTypeMapper.ToSummaryDTO

/-- `ShowTypeMapper.UpdateModel`. -/
def ShowTypeMapper.UpdateModel (showType : ShowType) (showTypeDTO : ShowTypeBase) : ShowType :=
  let row : ShowTypeRow :=
    { showType.row with
      Name := showTypeDTO.Name
      Description := showTypeDTO.Description }
  let row := match showTypeDTO.IsActive with
    | some isActive => { row with IsActive := isActive }
    | none => row
  .mk row showType.Shows

/-- `TheatreMapper.ToModel`. -/
def TheatreMapper.ToModel (theatreDTO : TheatreBase) : Theatre :=
  let row : TheatreRow :=
    { TheatreRow.zero with
      Name := theatreDTO.Name
      Description := theatreDTO.Description
      Address := theatreDTO.Address
      Phone := theatreDTO.Phone
      Email := theatreDTO.Email
      Website := theatreDTO.Website
      ImageURL := theatreDTO.ImageURL
      LocationID := theatreDTO.LocationID
      TheatreTypeID := theatreDTO.TheatreTypeID
      IsFeatured := false
      IsActive := true }
  let row := match theatreDTO.Capacity with
    | some capacity => { row with Capacity := capacity }
    | none => row
  let row := match theatreDTO.IsFeatured with
    | some isFeatured => { row with IsFeatured := isFeatured }
    | none => row
  let row := match theatreDTO.IsActive with
    | some isActive => { row with IsActive := isActive }
    | none => row
  .mk row Location.zero TheatreType.zero []

/-- `TheatreMapper.ToSummaryDTO`. The two tests "if loaded" compare an ID with
itself, as the source does. -/
def TheatreMapper.ToSummaryDTO (theatre : Theatre) : TheatreSummary :=
  let theatreDTO : TheatreSummary :=
    { ID := theatre.row.ID
      Name := theatre.row.Name
      Description := theatre.row.Description
      Capacity := theatre.row.Capacity
      ImageURL := theatre.row.ImageURL
      IsFeatured := theatre.row.IsFeatured
      IsActive := theatre.row.IsActive
      LocationID := theatre.row.LocationID
      TheatreTypeID := theatre.row.TheatreTypeID
      Location := LocationSummary.zero
      TheatreType := TheatreTypeSummary.zero }
  let theatreDTO :=
    if theatre.Location.row.ID ≠ theatre.Location.row.ID then
      { theatreDTO with Location := LocationMapper.ToSummaryDTO theatre.Location }
    else theatreDTO
  let theatreDTO :=
    if theatre.TheatreType.row.ID ≠ theatre.TheatreType.row.ID then
      { theatreDTO with TheatreType := TheatreTypeMapper.ToSummaryDTO theatre.TheatreType }
    else theatreDTO
  theatreDTO

/-- `TheatreMapper.ToSummaryDTOs`. -/
def TheatreMapper.ToSummaryDTOs (theatres : List Theatre) : List TheatreSummary :=
  theatres.map TheatreMapper.ToSummaryDTO

/-- `TheatreMapper.UpdateModel`. -/
def TheatreMapper.UpdateModel (theatre : Theatre) (theatreDTO : TheatreBase) : Theatre :=
  let row : TheatreRow :=
    { theatre.row with
      Name := theatreDTO.Name
      Description := theatreDTO.Description
      Address := theatreDTO.Address
      Phone := theatreDTO.Phone
      Email := theatreDTO.Email
      Website := theatreDTO.Website
      ImageURL := theatreDTO.ImageURL
      LocationID := theatreDTO.LocationID
      TheatreTypeID := theatreDTO.TheatreTypeID }
  let row := match theatreDTO.Capacity with
    | some capacity => { row with Capacity := capacity }
    | none => row
  let row := match theatreDTO.IsFeatured with
    | some isFeatured => { row with IsFeatured := isFeatured }
    | none => row
  let row := match theatreDTO.IsActive with
    | some isActive => { row with IsActive := isActive }
    | none => row
  .mk row theatre.Location theatre.TheatreType theatre.Shows

/-- `ShowMapper.ToModel`. -/
def ShowMapper.ToModel (showDTO : ShowBase) : Show :=
  let row : ShowRow :=
    { ShowRow.zero with
      Title := showDTO.Title
      Description := showDTO.Description
      Director := showDTO.Director
      Cast := showDTO.Cast
      StartDate := showDTO.StartDate
      EndDate := showDTO.EndDate
      ImageURL := showDTO.ImageURL
      TrailerURL := showDTO.TrailerURL
      TheatreID := showDTO.TheatreID
      ShowTypeID := showDTO.ShowTypeID
      IsFeatured := false
      IsActive := true }
  let row := match showDTO.Duration with
    | some duration => { row with Duration := duration }
    | none => row
  let row := match showDTO.Price with
    | some price => { row with Price := price }
    | none => row
  let row := match showDTO.IsFeatured with
    | some isFeatured => { row with IsFeatured := isFeatured }
    | none => row
  let row := match showDTO.IsActive with
    | some isActive => { row with IsActive := isActive }
    | none => row
  .mk row Theatre.zero ShowType.zero

/-- `ShowMapper.ToSummaryDTO`. The two tests "if loaded" compare an ID with
itself, as the source does. -/
def ShowMapper.ToSummaryDTO (theShow : Show) : ShowSummary :=
  let showDTO : ShowSummary :=
    { ID := theShow.row.ID
      Title := theShow.row.Title
      Description := theShow.row.Description
      Director := theShow.row.Director
      Duration := theShow.row.Duration
      StartDate := theShow.row.StartDate
      EndDate := theShow.row.EndDate
      Price := theShow.row.Price
      ImageURL := theShow.row.ImageURL
      IsFeatured := theShow.row.IsFeatured
      IsActive := theShow.row.IsActive
      TheatreID := theShow.row.TheatreID
      ShowTypeID := theShow.row.ShowTypeID
      Theatre := TheatreSummary.zero
      ShowType := ShowTypeSummary.zero }
  let showDTO :=
    if theShow.Theatre.row.ID ≠ theShow.Theatre.row.ID then
      { showDTO with Theatre := TheatreMapper.ToSummaryDTO theShow.Theatre }
    else showDTO
  let showDTO :=
    if theShow.ShowType.row.ID ≠ theShow.ShowType.row.ID then
      { showDTO with ShowType := ShowTypeMapper.ToSummaryDTO theShow.ShowType }
    else showDTO
  showDTO

/-- `ShowMapper.ToSummaryDTOs`. -/
def ShowMapper.ToSummaryDTOs (shows : List Show) : List ShowSummary :=
  shows.map ShowMapper.ToSummaryDTO

/-- `ShowMapper.UpdateModel`. -/
def ShowMapper.UpdateModel (theShow : Show) (showDTO : ShowBase) : Show :=
  let row : ShowRow :=
    { theShow.row with
      Title := showDTO.Title
      Description := showDTO.Description
      Director := showDTO.Director
      Cast := showDTO.Cast
      StartDate := showDTO.StartDate
      EndDate := showDTO.EndDate
      ImageURL := showDTO.ImageURL
      TrailerURL := showDTO.TrailerURL
      TheatreID := showDTO.TheatreID
      ShowTypeID := showDTO.ShowTypeID }
  let row := match showDTO.Duration with
    | some duration => { row with Duration := duration }
    | none => row
  let row := match showDTO.Price with
    | some price => { row with Price := price }
    | none => row
  let row := match showDTO.IsFeatured with
    | some isFeatured => { row with IsFeatured := isFeatured }
    | none => row
  let row := match showDTO.IsActive with
    | some isActive => { row with IsActive := isActive }
    | none => row
  .mk row theShow.Theatre theShow.ShowType

/-- `LocationMapper.ToDetailsDTO`. -/
def LocationMapper.ToDetailsDTO (location : Location) : LocationDetails :=
  let locationDTO : LocationDetails :=
    { ID := location.row.ID
      Name := location.row.Name
      City := location.row.City
      State := location.row.State
      Country := location.row.Country
      Latitude := location.row.Latitude
      Longitude := location.row.Longitude
      PostalCode := location.row.PostalCode
      Address := location.row.Address
      Description := location.row.Description
      IsActive := location.row.IsActive
      CreatedAt := location.row.CreatedAt
      UpdatedAt := location.row.UpdatedAt
      Theatres := [] }
  if location.Theatres.length > 0 then
    { locationDTO with Theatres := location.Theatres.map TheatreMapper.ToSummaryDTO }
  else locationDTO

/-- `TheatreTypeMapper.ToDetailsDTO`. -/
def TheatreTypeMapper.ToDetailsDTO (theatreType : TheatreType) : TheatreTypeDetails :=
  let theatreTypeDTO : TheatreTypeDetails :=
    { ID := theatreType.row.ID
      Name := theatreType.row.Name
      Description := theatreType.row.Description
      IsActive := theatreType.row.IsActive
      CreatedAt := theatreType.row.CreatedAt
      UpdatedAt := theatreType.row.UpdatedAt
      Theatres := [] }
  if theatreType.Theatres.length > 0 then
    { theatreTypeDTO with Theatres := theatreType.Theatres.map TheatreMapper.ToSummaryDTO }
  else theatreTypeDTO

/-- `ShowTypeMapper.ToDetailsDTO`. -/
def ShowTypeMapper.ToDetailsDTO (showType : ShowType) : ShowTypeDetails :=
  let showTypeDTO : ShowTypeDetails :=
    { ID := showType.row.ID
      Name := showType.row.Name
      Description := showType.row.Description
      IsActive := showType.row.IsActive
      CreatedAt := showType.row.CreatedAt
      UpdatedAt := showType.row.UpdatedAt
      Shows := [] }
  if showType.Shows.length > 0 then
    { showTypeDTO with Shows := showType.Shows.map ShowMapper.ToSummaryDTO }
  else showTypeDTO

/-- `TheatreMapper.ToDetailsDTO`. The two tests "if loaded" compare an ID with
itself, as the source does. -/
def TheatreMapper.ToDetailsDTO (theatre : Theatre) : TheatreDetails :=
  let theatreDTO : TheatreDetails :=
    { ID := theatre.row.ID
      Name := theatre.row.Name
      Description := theatre.row.Description
      Capacity := theatre.row.Capacity
      Address := theatre.row.Address
      Phone := theatre.row.Phone
      Email := theatre.row.Email
      Website := theatre.row.Website
      ImageURL := theatre.row.ImageURL
      IsFeatured := theatre.row.IsFeatured
      IsActive := theatre.row.IsActive
      CreatedAt := theatre.row.CreatedAt
      UpdatedAt := theatre.row.UpdatedAt
      LocationID := theatre.row.LocationID
      TheatreTypeID := theatre.row.TheatreTypeID
      Location := LocationSummary.zero
      TheatreType := TheatreTypeSummary.zero
      Shows := [] }
  let theatreDTO :=
    if theatre.Location.row.ID ≠ theatre.Location.row.ID then
      { theatreDTO with Location := LocationMapper.ToSummaryDTO theatre.Location }
    else theatreDTO
  let theatreDTO :=
    if theatre.TheatreType.row.ID ≠ theatre.TheatreType.row.ID then
      { theatreDTO with TheatreType := TheatreTypeMapper.ToSummaryDTO theatre.TheatreType }
    else theatreDTO
  let theatreDTO :=
    if theatre.Shows.length > 0 then
      { theatreDTO with Shows := theatre.Shows.map ShowMapper.ToSummaryDTO }
    else theatreDTO
  theatreDTO

/-- `ShowMapper.ToDetailsDTO`. The two tests "if loaded" compare an ID with
itself, as the source does. -/
def ShowMapper.ToDetailsDTO (theShow : Show) : ShowDetails :=
  let showDTO : ShowDetails :=
    { ID := theShow.row.ID
      Title := theShow.row.Title
      Description := theShow.row.Description
      Director := theShow.row.Director
      Cast := theShow.row.Cast
      Duration := theShow.row.Duration
      StartDate := theShow.row.StartDate
      EndDate := theShow.row.EndDate
      Price := theShow.row.Price
      ImageURL := theShow.row.ImageURL
      TrailerURL := theShow.row.TrailerURL
      IsFeatured := theShow.row.IsFeatured
      IsActive := theShow.row.IsActive
      CreatedAt := theShow.row.CreatedAt
      UpdatedAt := theShow.row.UpdatedAt
      TheatreID := theShow.row.TheatreID
      ShowTypeID := theShow.row.ShowTypeID
      Theatre := TheatreSummary.zero
      ShowType := ShowTypeSummary.zero }
  let showDTO :=
    if theShow.Theatre.row.ID ≠ theShow.Theatre.row.ID then
      { showDTO with Theatre := TheatreMapper.ToSummaryDTO theShow.Theatre }
    else showDTO
  let showDTO :=
    if theShow.ShowType.row.ID ≠ theShow.ShowType.row.ID then
      { showDTO with ShowType := ShowTypeMapper.ToSummaryDTO theShow.ShowType }
    else showDTO
  showDTO

/-! ## Repository interfaces (`src/interfaces/repository_interfaces.go`)

A repository works on a storage state `σ`. A reading method is a function of
the state; a writing method returns the new state, and `Create` and `Update`
also return the model behind their pointer argument as it is after the call
(the storage layer fills in the ID and the timestamps there). -/

structure LocationRepository (σ : Type) where
  Create : Location → σ → (Option StorageError × Location) × σ
  GetByID : UUID → σ → Except StorageError Location
  GetAll : Int → Int → σ → Except StorageError (List Location)
  Update : Location → σ → (Option StorageError × Location) × σ
  Delete : UUID → σ → Option StorageError × σ
  GetByCoordinates : float64 → float64 → float64 → σ → Except StorageError (List Location)
  GetActiveLocations : σ → Except StorageError (List Location)
  Search : String → σ → Except StorageError (List Location)

structure TheatreTypeRepository (σ : Type) where
  Create : TheatreType → σ → (Option StorageError × TheatreType) × σ
  GetByID : UUID → σ → Except StorageError TheatreType
  GetAll : Int → Int → σ → Except StorageError (List TheatreType)
  Update : TheatreType → σ → (Option StorageError × TheatreType) × σ
  Delete : UUID → σ → Option StorageError × σ
  GetByName : String → σ → Except StorageError TheatreType
  GetActiveTypes : σ → Except StorageError (List TheatreType)

structure ShowTypeRepository (σ : Type) where
  Create : ShowType → σ → (Option StorageError × ShowType) × σ
  GetByID : UUID → σ → Except StorageError ShowType
  GetAll : Int → Int → σ → Except StorageError (List ShowType)
  Update : ShowType → σ → (Option StorageError × ShowType) × σ
  Delete : UUID → σ → Option StorageError × σ
  GetByName : String → σ → Except StorageError ShowType
  GetActiveTypes : σ → Except StorageError (List ShowType)

structure TheatreRepository (σ : Type) where
  Create : Theatre → σ → (Option StorageError × Theatre) × σ
  GetByID : UUID → σ → Except StorageError Theatre
  GetAll : Int → Int → σ → Except StorageError (List Theatre)
  Update : Theatre → σ → (Option StorageError × Theatre) × σ
  Delete : UUID → σ → Option StorageError × σ
  GetByLocationID : UUID → σ → Except StorageError (List Theatre)
  GetByTheatreTypeID : UUID → σ → Except StorageError (List Theatre)
  GetFeaturedTheatres : σ → Except StorageError (List Theatre)
  GetActiveTheatres : σ → Except StorageError (List Theatre)
  Search : String → σ → Except StorageError (List Theatre)
  GetNearbyTheatres : float64 → float64 → float64 → σ → Except StorageError (List Theatre)

structure ShowRepository (σ : Type) where
  Create : Show → σ → (Option StorageError × Show) × σ
  GetByID : UUID → σ → Except StorageError Show
  GetAll : Int → Int → σ → Except StorageError (List Show)
  Update : Show → σ → (Option StorageError × Show) × σ
  Delete : UUID → σ → Option StorageError × σ
  GetByTheatreID : UUID → σ → Except StorageError (List Show)
  GetByShowTypeID : UUID → σ → Except StorageError (List Show)
  GetFeaturedShows : σ → Except StorageError (List Show)
  GetActiveShows : σ → Except StorageError (List Show)
  GetCurrentShows : σ → Except StorageError (List Show)
  GetUpcomingShows : σ → Except StorageError (List Show)
  Search : String → σ → Except StorageError (List Show)

/-! ## Recording repository calls -/

/-- One call of a repository method made by a service, with its arguments. -/
inductive Call where
  | LocationCreate (location : Location)
  | LocationGetByID (id : UUID)
  | LocationGetAll (limit offset : Int)
  | LocationUpdate (location : Location)
  | LocationDelete (id : UUID)
  | TheatreTypeCreate (theatreType : TheatreType)
  | TheatreTypeGetByID (id : UUID)
  | TheatreTypeGetAll (limit offset : Int)
  | TheatreTypeUpdate (theatreType : TheatreType)
  | TheatreTypeDelete (id : UUID)
  | TheatreTypeGetByName (name : String)
  | ShowTypeCreate (showType : ShowType)
  | ShowTypeGetByID (id : UUID)
  | ShowTypeGetAll (limit offset : Int)
  | ShowTypeUpdate (showType : ShowType)
  | ShowTypeDelete (id : UUID)
  | ShowTypeGetByName (name : String)
  | TheatreCreate (theatre : Theatre)
  | TheatreGetByID (id : UUID)
  | TheatreGetAll (limit offset : Int)
  | TheatreUpdate (theatre : Theatre)
  | TheatreDelete (id : UUID)
  | ShowCreate (theShow : Show)
  | ShowGetByID (id : UUID)
  | ShowGetAll (limit offset : Int)
  | ShowUpdate (theShow : Show)
  | ShowDelete (id : UUID)
  | LocationGetByCoordinates (latitude longitude radius : float64)
  | LocationSearch (query : String)
  | TheatreSearch (query : String)
  | TheatreGetNearbyTheatres (latitude longitude radius : float64)
  | ShowSearch (query : String)

/-- Whether the call is one of the writing methods `Create`, `Update`, `Delete`. -/
def Call.isWrite : Call → Bool
  | .LocationCreate _ | .LocationUpdate _ | .LocationDelete _ => true
  | .TheatreTypeCreate _ | .TheatreTypeUpdate _ | .TheatreTypeDelete _ => true
  | .ShowTypeCreate _ | .ShowTypeUpdate _ | .ShowTypeDelete _ => true
  | .TheatreCreate _ | .TheatreUpdate _ | .TheatreDelete _ => true
  | .ShowCreate _ | .ShowUpdate _ | .ShowDelete _ => true
  | _ => false

/-- What a service runs in: the storage state and the repository calls made so
far, oldest first. -/
structure World (σ : Type) where
  db : σ
  calls : List Call

/-- Call a reading repository method: the call is recorded, the state stays. -/
def World.query {σ α : Type} (w : World σ) (c : Call) (f : σ → α) : α × World σ :=
  (f w.db, { db := w.db, calls := w.calls ++ [c] })

/-- Call a writing repository method: the call is recorded, the state is the
one the method leaves. -/
def World.exec {σ α : Type} (w : World σ) (c : Call) (f : σ → α × σ) : α × World σ :=
  ((f w.db).1, { db := (f w.db).2, calls := w.calls ++ [c] })

/-! ## Services (`src/business`)

Each service carries its repositories and its struct validator. The validator
(`validator.Struct` of go-playground) is a parameter: it gives `none` when the
DTO passes and the text of its error when it does not. -/

structure locationService (σ : Type) where
  locationRepo : LocationRepository σ
  validator : LocationBase → Option String

structure theatreTypeService (σ : Type) where
  theatreTypeRepo : TheatreTypeRepository σ
  validator : TheatreTypeBase → Option String

structure showTypeService (σ : Type) where
  showTypeRepo : ShowTypeRepository σ
  validator : ShowTypeBase → Option String

structure theatreService (σ : Type) where
  theatreRepo : TheatreRepository σ
  locationRepo : LocationRepository σ
  theatreTypeRepo : TheatreTypeRepository σ
  validator : TheatreBase → Option String

structure showService (σ : Type) where
  showRepo : ShowRepository σ
  theatreRepo : TheatreRepository σ
  showTypeRepo : ShowTypeRepository σ
  validator : ShowBase → Option String

section Services

variable {σ : Type}

/-! ### `location_service.go` -/

/-- `locationService.CreateLocation`. -/
def locationService.CreateLocation (s : locationService σ) (locationDTO : LocationBase)
    (w : World σ) : Except GoError LocationDetails × World σ :=
  match s.validator locationDTO with
  | some err => (.error (.New (constants.ErrorValidationFailed ++ ": " ++ err)), w)
  | none =>
    let location := LocationMapper.ToModel locationDTO
    let c := w.exec (.LocationCreate location) (s.locationRepo.Create location)
    match c.1.1 with
    | some err => (.error (.passed err), c.2)
    | none => (.ok (LocationMapper.ToDetailsDTO c.1.2), c.2)

/-- `locationService.GetLocationByID`. -/
def locationService.GetLocationByID (s : locationService σ) (id : UUID) (w : World σ) :
    Except GoError LocationDetails × World σ :=
  let r := w.query (.LocationGetByID id) (s.locationRepo.GetByID id)
  match r.1 with
  | .error err =>
    if errors.Is err gorm.ErrRecordNotFound then
      (.error (.New constants.ErrorLocationNotFound), r.2)
    else (.error (.passed err), r.2)
  | .ok location => (.ok (LocationMapper.ToDetailsDTO location), r.2)

/-- `locationService.GetAllLocations`. -/
def locationService.GetAllLocations (s : locationService σ) (limit offset : Int) (w : World σ) :
    Except GoError (List LocationSummary) × World σ :=
  let limit := if limit ≤ 0 ∨ limit > constants.MaxLimit then constants.DefaultLimit else limit
  let offset := if offset < 0 then constants.DefaultOffset else offset
  let r := w.query (.LocationGetAll limit offset) (s.locationRepo.GetAll limit offset)
  match r.1 with
  | .error err => (.error (.passed err), r.2)
  | .ok locations => (.ok (LocationMapper.ToSummaryDTOs locations), r.2)

/-- `locationService.UpdateLocation`. -/
def locationService.UpdateLocation (s : locationService σ) (id : UUID)
    (locationDTO : LocationBase) (w : World σ) : Except GoError LocationDetails × World σ :=
  match s.validator locationDTO with
  | some err => (.error (.New (constants.ErrorValidationFailed ++ ": " ++ err)), w)
  | none =>
    let r := w.query (.LocationGetByID id) (s.locationRepo.GetByID id)
    match r.1 with
    | .error err =>
      if errors.Is err gorm.ErrRecordNotFound then
        (.error (.New constants.ErrorLocationNotFound), r.2)
      else (.error (.passed err), r.2)
    | .ok location =>
      let location := LocationMapper.UpdateModel location locationDTO
      let u := r.2.exec (.LocationUpdate location) (s.locationRepo.Update location)
      match u.1.1 with
      | some err => (.error (.passed err), u.2)
      | none => (.ok (LocationMapper.ToDetailsDTO u.1.2), u.2)

/-- `locationService.DeleteLocation`. -/
def locationService.DeleteLocation (s : locationService σ) (id : UUID) (w : World σ) :
    Option GoError × World σ :=
  let r := w.query (.LocationGetByID id) (s.locationRepo.GetByID id)
  match r.1 with
  | .error err =>
    if errors.Is err gorm.ErrRecordNotFound then
      (some (.New constants.ErrorLocationNotFound), r.2)
    else (some (.passed err), r.2)
  | .ok _ =>
    let d := r.2.exec (.LocationDelete id) (s.locationRepo.Delete id)
    (d.1.map GoError.passed, d.2)

/-! ### `theatre_type_service.go` -/

/-- `theatreTypeService.CreateTheatreType`. The repository `GetByName` returns
a record exactly when it returns no error, so the test
`err == nil && existing != nil` is the case `.ok`. -/
def theatreTypeService.CreateTheatreType (s : theatreTypeService σ)
    (theatreTypeDTO : TheatreTypeBase) (w : World σ) :
    Except GoError TheatreTypeDetails × World σ :=
  match s.validator theatreTypeDTO with
  | some err => (.error (.New (constants.ErrorValidationFailed ++ ": " ++ err)), w)
  | none =>
    let r := w.query (.TheatreTypeGetByName theatreTypeDTO.Name)
      (s.theatreTypeRepo.GetByName theatreTypeDTO.Name)
    match r.1 with
    | .ok _ =>
      (.error (.New (constants.ErrorDuplicateEntry ++ ": theatre type name already exists")), r.2)
    | .error _ =>
      let theatreType := TheatreTypeMapper.ToModel theatreTypeDTO
      let c := r.2.exec (.TheatreTypeCreate theatreType) (s.theatreTypeRepo.Create theatreType)
      match c.1.1 with
      | some err => (.error (.passed err), c.2)
      | none => (.ok (TheatreTypeMapper.ToDetailsDTO c.1.2), c.2)

/-- `theatreTypeService.GetAllTheatreTypes`. -/
def theatreTypeService.GetAllTheatreTypes (s : theatreTypeService σ) (limit offset : Int)
    (w : World σ) : Except GoError (List TheatreTypeSummary) × World σ :=
  let limit := if limit ≤ 0 ∨ limit > constants.MaxLimit then constants.DefaultLimit else limit
  let offset := if offset < 0 then constants.DefaultOffset else offset
  let r := w.query (.TheatreTypeGetAll limit offset) (s.theatreTypeRepo.GetAll limit offset)
  match r.1 with
  | .error err => (.error (.passed err), r.2)
  | .ok theatreTypes => (.ok (TheatreTypeMapper.ToSummaryDTOs theatreTypes), r.2)

/-- `theatreTypeService.UpdateTheatreType`. The local function `save` is the
tail of the Go function from "Update model with new data" on. -/
def theatreTypeService.UpdateTheatreType (s : theatreTypeService σ) (id : UUID)
    (theatreTypeDTO : TheatreTypeBase) (w : World σ) :
    Except GoError TheatreTypeDetails × World σ :=
  match s.validator theatreTypeDTO with
  | some err => (.error (.New (constants.ErrorValidationFailed ++ ": " ++ err)), w)
  | none =>
    let r := w.query (.TheatreTypeGetByID id) (s.theatreTypeRepo.GetByID id)
    match r.1 with
    | .error err =>
      if errors.Is err gorm.ErrRecordNotFound then
        (.error (.New constants.ErrorTheatreTypeNotFound), r.2)
      else (.error (.passed err), r.2)
    | .ok theatreType =>
      let save := fun (w : World σ) =>
        let theatreType := TheatreTypeMapper.UpdateModel theatreType theatreTypeDTO
        let u := w.exec (.TheatreTypeUpdate theatreType) (s.theatreTypeRepo.Update theatreType)
        match u.1.1 with
        | some err => ((.error (.passed err) : Except GoError TheatreTypeDetails), u.2)
        | none => (.ok (TheatreTypeMapper.ToDetailsDTO u.1.2), u.2)
      if theatreType.row.Name ≠ theatreTypeDTO.Name then
        let q := r.2.query (.TheatreTypeGetByName theatreTypeDTO.Name)
          (s.theatreTypeRepo.GetByName theatreTypeDTO.Name)
        match q.1 with
        | .ok existing =>
          if existing.row.ID ≠ id then
            (.error (.New (constants.ErrorDuplicateEntry ++ ": theatre type name already exists")),
              q.2)
          else save q.2
        | .error _ => save q.2
      else save r.2

/-! ### `show_type_service.go` -/

/-- `showTypeService.CreateShowType`. The repository `GetByName` returns a
record exactly when it returns no error, so the test
`err == nil && existing != nil` is the case `.ok`. -/
def showTypeService.CreateShowType (s : showTypeService σ) (showTypeDTO : ShowTypeBase)
    (w : World σ) : Except GoError ShowTypeDetails × World σ :=
  match s.validator showTypeDTO with
  | some err => (.error (.New (constants.ErrorValidationFailed ++ ": " ++ err)), w)
  | none =>
    let r := w.query (.ShowTypeGetByName showTypeDTO.Name)
      (s.showTypeRepo.GetByName showTypeDTO.Name)
    match r.1 with
    | .ok _ =>
      (.error (.New (constants.ErrorDuplicateEntry ++ ": show type name already exists")), r.2)
    | .error _ =>
      let showType := ShowTypeMapper.ToModel showTypeDTO
      let c := r.2.exec (.ShowTypeCreate showType) (s.showTypeRepo.Create showType)
      match c.1.1 with
      | some err => (.error (.passed err), c.2)
      | none => (.ok (ShowTypeMapper.ToDetailsDTO c.1.2), c.2)

/-- `showTypeService.GetAllShowTypes`. -/
def showTypeService.GetAllShowTypes (s : showTypeService σ) (limit offset : Int)
    (w : World σ) : Except GoError (List ShowTypeSummary) × World σ :=
  let limit := if limit ≤ 0 ∨ limit > constants.MaxLimit then constants.DefaultLimit else limit
  let offset := if offset < 0 then constants.DefaultOffset else offset
  let r := w.query (.ShowTypeGetAll limit offset) (s.showTypeRepo.GetAll limit offset)
  match r.1 with
  | .error err => (.error (.passed err), r.2)
  | .ok showTypes => (.ok (ShowTypeMapper.ToSummaryDTOs showTypes), r.2)

/-- `showTypeService.UpdateShowType`. The local function `save` is the tail of
the Go function from "Update model with new data" on. -/
def showTypeService.UpdateShowType (s : showTypeService σ) (id : UUID)
    (showTypeDTO : ShowTypeBase) (w : World σ) : Except GoError ShowTypeDetails × World σ :=
  match s.validator showTypeDTO with
  | some err => (.error (.New (constants.ErrorValidationFailed ++ ": " ++ err)), w)
  | none =>
    let r := w.query (.ShowTypeGetByID id) (s.showTypeRepo.GetByID id)
    match r.1 with
    | .error err =>
      if errors.Is err gorm.ErrRecordNotFound then
        (.error (.New constants.ErrorShowTypeNotFound), r.2)
      else (.error (.passed err), r.2)
    | .ok showType =>
      let save := fun (w : World σ) =>
        let showType := ShowTypeMapper.UpdateModel showType showTypeDTO
        let u := w.exec (.ShowTypeUpdate showType) (s.showTypeRepo.Update showType)
        match u.1.1 with
        | some err => ((.error (.passed err) : Except GoError ShowTypeDetails), u.2)
        | none => (.ok (ShowTypeMapper.ToDetailsDTO u.1.2), u.2)
      if showType.row.Name ≠ showTypeDTO.Name then
        let q := r.2.query (.ShowTypeGetByName showTypeDTO.Name)
          (s.showTypeRepo.GetByName showTypeDTO.Name)
        match q.1 with
        | .ok existing =>
          if existing.row.ID ≠ id then
            (.error (.New (constants.ErrorDuplicateEntry ++ ": show type name already exists")),
              q.2)
          else save q.2
        | .error _ => save q.2
      else save r.2

/-! ### `theatre_service.go` -/

/-- `theatreService.validateRelationships`. -/
def theatreService.validateRelationships (s : theatreService σ) (locationID theatreTypeID : UUID)
    (w : World σ) : Option GoError × World σ :=
  let l := w.query (.LocationGetByID locationID) (s.locationRepo.GetByID locationID)
  match l.1 with
  | .error err =>
    if errors.Is err gorm.ErrRecordNotFound then
      (some (.New constants.ErrorLocationNotFound), l.2)
    else (some (.passed err), l.2)
  | .ok _ =>
    let t := l.2.query (.TheatreTypeGetByID theatreTypeID) (s.theatreTypeRepo.GetByID theatreTypeID)
    match t.1 with
    | .error err =>
      if errors.Is err gorm.ErrRecordNotFound then
        (some (.New constants.ErrorTheatreTypeNotFound), t.2)
      else (some (.passed err), t.2)
    | .ok _ => (none, t.2)

/-- `theatreService.CreateTheatre`. -/
def theatreService.CreateTheatre (s : theatreService σ) (theatreDTO : TheatreBase)
    (w : World σ) : Except GoError TheatreDetails × World σ :=
  match s.validator theatreDTO with
  | some err => (.error (.New (constants.ErrorValidationFailed ++ ": " ++ err)), w)
  | none =>
    let v := s.validateRelationships theatreDTO.LocationID theatreDTO.TheatreTypeID w
    match v.1 with
    | some err => (.error err, v.2)
    | none =>
      let theatre := TheatreMapper.ToModel theatreDTO
      let c := v.2.exec (.TheatreCreate theatre) (s.theatreRepo.Create theatre)
      match c.1.1 with
      | some err => (.error (.passed err), c.2)
      | none =>
        let g := c.2.query (.TheatreGetByID c.1.2.row.ID) (s.theatreRepo.GetByID c.1.2.row.ID)
        match g.1 with
        | .error err => (.error (.passed err), g.2)
        | .ok createdTheatre => (.ok (TheatreMapper.ToDetailsDTO createdTheatre), g.2)

/-- `theatreService.GetAllTheatres`. -/
def theatreService.GetAllTheatres (s : theatreService σ) (limit offset : Int) (w : World σ) :
    Except GoError (List TheatreSummary) × World σ :=
  let limit := if limit ≤ 0 ∨ limit > constants.MaxLimit then constants.DefaultLimit else limit
  let offset := if offset < 0 then constants.DefaultOffset else offset
  let r := w.query (.TheatreGetAll limit offset) (s.theatreRepo.GetAll limit offset)
  match r.1 with
  | .error err => (.error (.passed err), r.2)
  | .ok theatres => (.ok (TheatreMapper.ToSummaryDTOs theatres), r.2)

/-- `theatreService.UpdateTheatre`. -/
def theatreService.UpdateTheatre (s : theatreService σ) (id : UUID) (theatreDTO : TheatreBase)
    (w : World σ) : Except GoError TheatreDetails × World σ :=
  match s.validator theatreDTO with
  | some err => (.error (.New (constants.ErrorValidationFailed ++ ": " ++ err)), w)
  | none =>
    let r := w.query (.TheatreGetByID id) (s.theatreRepo.GetByID id)
    match r.1 with
    | .error err =>
      if errors.Is err gorm.ErrRecordNotFound then
        (.error (.New constants.ErrorTheatreNotFound), r.2)
      else (.error (.passed err), r.2)
    | .ok theatre =>
      let v := s.validateRelationships theatreDTO.LocationID theatreDTO.TheatreTypeID r.2
      match v.1 with
      | some err => (.error err, v.2)
      | none =>
        let theatre := TheatreMapper.UpdateModel theatre theatreDTO
        let u := v.2.exec (.TheatreUpdate theatre) (s.theatreRepo.Update theatre)
        match u.1.1 with
        | some err => (.error (.passed err), u.2)
        | none =>
          let g := u.2.query (.TheatreGetByID id) (s.theatreRepo.GetByID id)
          match g.1 with
          | .error err => (.error (.passed err), g.2)
          | .ok updatedTheatre => (.ok (TheatreMapper.ToDetailsDTO updatedTheatre), g.2)

/-! ### `show_service.go` -/

/-- `showService.validateShowDates`. -/
def showService.validateShowDates (_s : showService σ) (startDate endDate : Option Time) :
    Option GoError :=
  match startDate, endDate with
  | some startDate, some endDate =>
    if endDate.Before startDate then some (.New "end date cannot be before start date") else none
  | _, _ => none

/-- `showService.validateRelationships`. -/
def showService.validateRelationships (s : showService σ) (theatreID showTypeID : UUID)
    (w : World σ) : Option GoError × World σ :=
  let t := w.query (.TheatreGetByID theatreID) (s.theatreRepo.GetByID theatreID)
  match t.1 with
  | .error err =>
    if errors.Is err gorm.ErrRecordNotFound then
      (some (.New constants.ErrorTheatreNotFound), t.2)
    else (some (.passed err), t.2)
  | .ok _ =>
    let st := t.2.query (.ShowTypeGetByID showTypeID) (s.showTypeRepo.GetByID showTypeID)
    match st.1 with
    | .error err =>
      if errors.Is err gorm.ErrRecordNotFound then
        (some (.New constants.ErrorShowTypeNotFound), st.2)
      else (some (.passed err), st.2)
    | .ok _ => (none, st.2)

/-- `showService.CreateShow`. -/
def showService.CreateShow (s : showService σ) (showDTO : ShowBase) (w : World σ) :
    Except GoError ShowDetails × World σ :=
  match s.validator showDTO with
  | some err => (.error (.New (constants.ErrorValidationFailed ++ ": " ++ err)), w)
  | none =>
    match s.validateShowDates showDTO.StartDate showDTO.EndDate with
    | some err => (.error err, w)
    | none =>
      let v := s.validateRelationships showDTO.TheatreID showDTO.ShowTypeID w
      match v.1 with
      | some err => (.error err, v.2)
      | none =>
        let theShow := ShowMapper.ToModel showDTO
        let c := v.2.exec (.ShowCreate theShow) (s.showRepo.Create theShow)
        match c.1.1 with
        | some err => (.error (.passed err), c.2)
        | none =>
          let g := c.2.query (.ShowGetByID c.1.2.row.ID) (s.showRepo.GetByID c.1.2.row.ID)
          match g.1 with
          | .error err => (.error (.passed err), g.2)
          | .ok createdShow => (.ok (ShowMapper.ToDetailsDTO createdShow), g.2)

/-- `showService.GetAllShows`. -/
def showService.GetAllShows (s : showService σ) (limit offset : Int) (w : World σ) :
    Except GoError (List ShowSummary) × World σ :=
  let limit := if limit ≤ 0 ∨ limit > constants.MaxLimit then constants.DefaultLimit else limit
  let offset := if offset < 0 then constants.DefaultOffset else offset
  let r := w.query (.ShowGetAll limit offset) (s.showRepo.GetAll limit offset)
  match r.1 with
  | .error err => (.error (.passed err), r.2)
  | .ok shows => (.ok (ShowMapper.ToSummaryDTOs shows), r.2)

/-- `showService.UpdateShow`. -/
def showService.UpdateShow (s : showService σ) (id : UUID) (showDTO : ShowBase) (w : World σ) :
    Except GoError ShowDetails × World σ :=
  match s.validator showDTO with
  | some err => (.error (.New (constants.ErrorValidationFailed ++ ": " ++ err)), w)
  | none =>
    let r := w.query (.ShowGetByID id) (s.showRepo.GetByID id)
    match r.1 with
    | .error err =>
      if errors.Is err gorm.ErrRecordNotFound then
        (.error (.New constants.ErrorShowNotFound), r.2)
      else (.error (.passed err), r.2)
    | .ok theShow =>
      match s.validateShowDates showDTO.StartDate showDTO.EndDate with
      | some err => (.error err, r.2)
      | none =>
        let v := s.validateRelationships showDTO.TheatreID showDTO.ShowTypeID r.2
        match v.1 with
        | some err => (.error err, v.2)
        | none =>
          let theShow := ShowMapper.UpdateModel theShow showDTO
          let u := v.2.exec (.ShowUpdate theShow) (s.showRepo.Update theShow)
          match u.1.1 with
          | some err => (.error (.passed err), u.2)
          | none =>
            let g := u.2.query (.ShowGetByID id) (s.showRepo.GetByID id)
            match g.1 with
            | .error err => (.error (.passed err), g.2)
            | .ok updatedShow => (.ok (ShowMapper.ToDetailsDTO updatedShow), g.2)

/-! ### Search and proximity queries of the services -/

/-- `locationService.GetLocationsByCoordinates`. -/
def locationService.GetLocationsByCoordinates (s : locationService σ)
    (latitude longitude radius : float64) (w : World σ) :
    Except GoError (List LocationSummary) × World σ :=
  if latitude < -90 ∨ latitude > 90 then
    (.error (.New "invalid latitude: must be between -90 and 90"), w)
  else if longitude < -180 ∨ longitude > 180 then
    (.error (.New "invalid longitude: must be between -180 and 180"), w)
  else
    let radius := if radius ≤ 0 then constants.DefaultRadius else radius
    let r := w.query (.LocationGetByCoordinates latitude longitude radius)
      (s.locationRepo.GetByCoordinates latitude longitude radius)
    match r.1 with
    | .error err => (.error (.passed err), r.2)
    | .ok locations => (.ok (LocationMapper.ToSummaryDTOs locations), r.2)

/-- `locationService.SearchLocations`. -/
def locationService.SearchLocations (s : locationService σ) (query : String) (w : World σ) :
    Except GoError (List LocationSummary) × World σ :=
  if query = "" then (.ok [], w)
  else
    let r := w.query (.LocationSearch query) (s.locationRepo.Search query)
    match r.1 with
    | .error err => (.error (.passed err), r.2)
    | .ok locations => (.ok (LocationMapper.ToSummaryDTOs locations), r.2)

/-- `theatreService.SearchTheatres`. -/
def theatreService.SearchTheatres (s : theatreService σ) (query : String) (w : World σ) :
    Except GoError (List TheatreSummary) × World σ :=
  if query = "" then (.ok [], w)
  else
    let r := w.query (.TheatreSearch query) (s.theatreRepo.Search query)
    match r.1 with
    | .error err => (.error (.passed err), r.2)
    | .ok theatres => (.ok (TheatreMapper.ToSummaryDTOs theatres), r.2)

/-- `theatreService.GetNearbyTheatres`. -/
def theatreService.GetNearbyTheatres (s : theatreService σ)
    (latitude longitude radius : float64) (w : World σ) :
    Except GoError (List TheatreSummary) × World σ :=
  if latitude < -90 ∨ latitude > 90 then
    (.error (.New "invalid latitude: must be between -90 and 90"), w)
  else if longitude < -180 ∨ longitude > 180 then
    (.error (.New "invalid longitude: must be between -180 and 180"), w)
  else
    let radius := if radius ≤ 0 then constants.DefaultRadius else radius
    let r := w.query (.TheatreGetNearbyTheatres latitude longitude radius)
      (s.theatreRepo.GetNearbyTheatres latitude longitude radius)
    match r.1 with
    | .error err => (.error (.passed err), r.2)
    | .ok theatres => (.ok (TheatreMapper.ToSummaryDTOs theatres), r.2)

/-- `showService.SearchShows`. -/
def showService.SearchShows (s : showService σ) (query : String) (w : World σ) :
    Except GoError (List ShowSummary) × World σ :=
  if query = "" then (.ok [], w)
  else
    let r := w.query (.ShowSearch query) (s.showRepo.Search query)
    match r.1 with
    | .error err => (.error (.passed err), r.2)
    | .ok shows => (.ok (ShowMapper.ToSummaryDTOs shows), r.2)

end Services

/-! ### `validation_service.go`

The Go struct `ValidationService` is empty. Its value here carries the two
formatting functions of the Go library that the messages are built with: the
verb `%f` of `fmt` and `time.Time.Format("2006-01-02")`. The verb `%d` is the
decimal numeral. An error made by `fmt.Errorf` is a fresh value, as one made by
`errors.New`. -/

structure ValidationService where
  formatF : Float64 → String
  formatDate : Time → String

/-- `ValidationService.ValidateCoordinates`: the latitude test first, then the
longitude test; the first error found is returned. -/
def ValidationService.ValidateCoordinates (vs : ValidationService)
    (latitude longitude : Option Float64) : Option GoError :=
  let latitudeError : Option GoError :=
    match latitude with
    | some lat =>
      if lat < -90 ∨ lat > 90 then
        some (.New ("latitude must be between -90 and 90, got: " ++ vs.formatF lat))
      else none
    | none => none
  match latitudeError with
  | some err => some err
  | none =>
    match longitude with
    | some lon =>
      if lon < -180 ∨ lon > 180 then
        some (.New ("longitude must be between -180 and 180, got: " ++ vs.formatF lon))
      else none
    | none => none

/-- `ValidationService.ValidateDateRange`. -/
def ValidationService.ValidateDateRange (vs : ValidationService)
    (startDate endDate : Option Time) : Option GoError :=
  match startDate, endDate with
  | some startDate, some endDate =>
    if endDate.Before startDate then
      some (.New ("end date (" ++ vs.formatDate endDate ++ ") cannot be before start date (" ++
        vs.formatDate startDate ++ ")"))
    else none
  | _, _ => none

/-- `ValidationService.ValidateCapacity`. -/
def ValidationService.ValidateCapacity (_vs : ValidationService) (capacity : Option Int) :
    Option GoError :=
  match capacity with
  | none => none
  | some capacity =>
    if capacity < 1 then
      some (.New ("capacity must be at least 1, got: " ++ toString capacity))
    else if capacity > 100000 then
      some (.New ("capacity cannot exceed 100,000, got: " ++ toString capacity))
    else none

/-- `ValidationService.ValidateDuration`. -/
def ValidationService.ValidateDuration (_vs : ValidationService) (duration : Option Int) :
    Option GoError :=
  match duration with
  | none => none
  | some duration =>
    if duration < 1 then
      some (.New ("duration must be at least 1 minute, got: " ++ toString duration))
    else if duration > 600 then
      some (.New ("duration cannot exceed 600 minutes (10 hours), got: " ++ toString duration))
    else none

/-- `ValidationService.ValidatePrice`. -/
def ValidationService.ValidatePrice (vs : ValidationService) (price : Option Float64) :
    Option GoError :=
  match price with
  | none => none
  | some price =>
    if price < 0 then
      some (.New ("price cannot be negative, got: " ++ vs.formatF price))
    else if price > 10000 then
      some (.New ("price seems unreasonably high, got: " ++ vs.formatF price))
    else none

/-! ### Struct validation of a show request (`validator.Struct`)

The services call `validator.Struct` of go-playground validator v10 on the
request. For `dto.ShowBase` its verdict is read off the `validate` tags of the
struct, by the meaning the library gives them:

* the fields are checked in order, the tags of a field in order, and of each
  field the first failing tag is reported;
* `required` asks for a value other than the zero value (a non-empty string, a
  UUID other than `uuid.Nil`);
* on a string `min` and `max` bound the number of runes, on a number they bound
  the value;
* `omitempty` skips the remaining tags of a field whose pointer is `nil` or
  whose string is empty;
* `url` is the URL test of the library, kept as the parameter `isURL`;
* the error text is the text of each field error on a line of its own. -/

namespace validator

/-- The `Error()` text of one field error. -/
def fieldError (structName field tag : String) : String :=
  "Key: '" ++ structName ++ "." ++ field ++ "' Error:Field validation for '" ++ field ++
    "' failed on the '" ++ tag ++ "' tag"

/-- The first failing tag of a field, given its tags in order, each with
whether the value passes it. -/
def firstFailed : List (String × Bool) → Option String
  | [] => none
  | (tag, passes) :: rest => if passes then firstFailed rest else some tag

/-- The error of `Struct`, given for each field in order its first failing
tag: `none` when no field fails, else the field errors joined by newlines. -/
def report (structName : String) (fields : List (String × Option String)) : Option String :=
  match fields.filterMap (fun f => f.2.map (fieldError structName f.1)) with
  | [] => none
  | errs => some ("\n".intercalate errs)

/-- The call `validator.Struct(showDTO)` on a `dto.ShowBase`, by its tags. -/
def StructShowBase (isURL : String → Bool) (d : ShowBase) : Option String :=
  report "ShowBase"
    [("Title", firstFailed [("required", decide (d.Title ≠ "")),
        ("min", decide (1 ≤ d.Title.length)), ("max", decide (d.Title.length ≤ 255))]),
     ("Description", firstFailed [("max", decide (d.Description.length ≤ 2000))]),
     ("Director", firstFailed [("max", decide (d.Director.length ≤ 255))]),
     ("Cast", firstFailed [("max", decide (d.Cast.length ≤ 1000))]),
     ("Duration", match d.Duration with
        | none => none
        | some v => firstFailed [("min", decide (1 ≤ v)), ("max", decide (v ≤ 600))]),
     ("Price", match d.Price with
        | none => none
        | some v => firstFailed [("min", decide (0 ≤ v))]),
     ("ImageURL", if d.ImageURL = "" then none
        else firstFailed [("url", isURL d.ImageURL), ("max", decide (d.ImageURL.length ≤ 500))]),
     ("TrailerURL", if d.TrailerURL = "" then none
        else firstFailed [("url", isURL d.TrailerURL),
          ("max", decide (d.TrailerURL.length ≤ 500))]),
     ("TheatreID", firstFailed [("required", decide (d.TheatreID ≠ uuid.Nil))]),
     ("ShowTypeID", firstFailed [("required", decide (d.ShowTypeID ≠ uuid.Nil))])]

end validator

/-! ## Controllers (`src/controllers`)

A handler reads the request from its `*gin.Context` and writes one answer with
`c.JSON`. Here a handler is a function of what it reads and of the world the
services run in, and it returns the answer it writes. -/

namespace http

def StatusOK : Nat := 200
def StatusCreated : Nat := 201
def StatusBadRequest : Nat := 400
def StatusNotFound : Nat := 404
def StatusUnprocessableEntity : Nat := 422
def StatusInternalServerError : Nat := 500

end http

/-- `PaginationParams`. -/
structure PaginationParams where
  Limit : Int
  Offset : Int
  deriving DecidableEq

/-- What a handler reads from `*gin.Context`, for a request whose JSON body is
bound to a value of type `α`:

* `ParamID` is the outcome of `uuid.Parse(c.Param("id"))`;
* `ShouldBindJSON` is the outcome of binding the body;
* `ShouldBindQuery` binds the query string onto a `PaginationParams` holding
  the given values: it gives the struct after the call, or the error.

An error of these library calls is a value of its own, carried as
`GoError.New` with its text. -/
structure gin.Context (α : Type) where
  ParamID : Except GoError UUID
  ShouldBindJSON : Except GoError α
  ShouldBindQuery : PaginationParams → Except GoError PaginationParams

/-- `APIResponse`; the fields `Data` and `Error` that no one sets are `none`
and the empty string. -/
structure APIResponse (α : Type) where
  Success : Bool
  Message : String
  Data : Option α
  Error : String

/-- The answer written by `c.JSON(statusCode, response)`. -/
structure Response (α : Type) where
  statusCode : Nat
  body : APIResponse α

section Responses

variable {α : Type}

/-- `SuccessResponse`. -/
def SuccessResponse (statusCode : Nat) (message : String) (data : α) : Response α :=
  { statusCode := statusCode
    body := { Success := true, Message := message, Data := some data, Error := "" } }

/-- `ErrorResponse`. -/
def ErrorResponse (statusCode : Nat) (message : String) (err : Option GoError) : Response α :=
  let response : APIResponse α :=
    { Success := false, Message := message, Data := none, Error := "" }
  let response := match err with
    | some err => { response with Error := err.Error }
    | none => response
  { statusCode := statusCode, body := response }

/-- `ValidationErrorResponse`. -/
def ValidationErrorResponse (err : GoError) : Response α :=
  ErrorResponse http.StatusUnprocessableEntity constants.ErrorValidationFailed (some err)

/-- `NotFoundResponse`. -/
def NotFoundResponse (message : String) : Response α :=
  ErrorResponse http.StatusNotFound message none

/-- `BadRequestResponse`. -/
def BadRequestResponse (message : String) (err : GoError) : Response α :=
  ErrorResponse http.StatusBadRequest message (some err)

/-- `InternalServerErrorResponse`. -/
def InternalServerErrorResponse (err : GoError) : Response α :=
  ErrorResponse http.StatusInternalServerError constants.ErrorInternalServerError (some err)

/-- `GetPaginationParams`. -/
def GetPaginationParams (c : gin.Context α) : PaginationParams :=
  let params : PaginationParams :=
    { Limit := constants.DefaultLimit, Offset := constants.DefaultOffset }
  let params := match c.ShouldBindQuery params with
    | .error _ => { Limit := constants.DefaultLimit, Offset := constants.DefaultOffset }
    | .ok bound => bound
  let params :=
    if params.Limit ≤ 0 ∨ params.Limit > constants.MaxLimit then
      { params with Limit := constants.DefaultLimit }
    else params
  let params :=
    if params.Offset < 0 then { params with Offset := constants.DefaultOffset } else params
  params

end Responses

structure LocationController (σ : Type) where
  locationService : locationService σ

structure TheatreTypeController (σ : Type) where
  theatreTypeService : theatreTypeService σ

structure ShowTypeController (σ : Type) where
  showTypeService : showTypeService σ

structure TheatreController (σ : Type) where
  theatreService : theatreService σ

structure ShowController (σ : Type) where
  showService : showService σ

section Controllers

variable {σ α : Type}

/-! ### `location_controller.go` -/

/-- `LocationController.CreateLocation`. -/
def LocationController.CreateLocation (ctrl : LocationController σ)
    (c : gin.Context LocationBase) (w : World σ) : Response LocationDetails × World σ :=
  match c.ShouldBindJSON with
  | .error err => (BadRequestResponse constants.ErrorInvalidInput err, w)
  | .ok locationDTO =>
    let r := ctrl.locationService.CreateLocation locationDTO w
    match r.1 with
    | .error err =>
      if err.Error = constants.ErrorValidationFailed then (ValidationErrorResponse err, r.2)
      else (InternalServerErrorResponse err, r.2)
    | .ok location =>
      (SuccessResponse http.StatusCreated constants.MessageLocationCreated location, r.2)

/-- `LocationController.GetAllLocations`. -/
def LocationController.GetAllLocations (ctrl : LocationController σ) (c : gin.Context α)
    (w : World σ) : Response (List LocationSummary) × World σ :=
  let params := GetPaginationParams c
  let r := ctrl.locationService.GetAllLocations params.Limit params.Offset w
  match r.1 with
  | .error err => (InternalServerErrorResponse err, r.2)
  | .ok locations => (SuccessResponse http.StatusOK constants.StatusOK locations, r.2)

/-- `LocationController.UpdateLocation`. -/
def LocationController.UpdateLocation (ctrl : LocationController σ)
    (c : gin.Context LocationBase) (w : World σ) : Response LocationDetails × World σ :=
  match c.ParamID with
  | .error err => (BadRequestResponse constants.ErrorInvalidUUID err, w)
  | .ok id =>
    match c.ShouldBindJSON with
    | .error err => (BadRequestResponse constants.ErrorInvalidInput err, w)
    | .ok locationDTO =>
      let r := ctrl.locationService.UpdateLocation id locationDTO w
      match r.1 with
      | .error err =>
        if err.Error = constants.ErrorLocationNotFound then
          (NotFoundResponse constants.ErrorLocationNotFound, r.2)
        else if err.Error = constants.ErrorValidationFailed then
          (ValidationErrorResponse err, r.2)
        else (InternalServerErrorResponse err, r.2)
      | .ok location =>
        (SuccessResponse http.StatusOK constants.MessageLocationUpdated location, r.2)

/-! ### `theatre_type_controller.go` -/

/-- `TheatreTypeController.CreateTheatreType`. -/
def TheatreTypeController.CreateTheatreType (ctrl : TheatreTypeController σ)
    (c : gin.Context TheatreTypeBase) (w : World σ) : Response TheatreTypeDetails × World σ :=
  match c.ShouldBindJSON with
  | .error err => (BadRequestResponse constants.ErrorInvalidInput err, w)
  | .ok theatreTypeDTO =>
    let r := ctrl.theatreTypeService.CreateTheatreType theatreTypeDTO w
    match r.1 with
    | .error err =>
      if err.Error = constants.ErrorValidationFailed then (ValidationErrorResponse err, r.2)
      else if err.Error = constants.ErrorDuplicateEntry then
        (BadRequestResponse constants.ErrorDuplicateEntry err, r.2)
      else (InternalServerErrorResponse err, r.2)
    | .ok theatreType =>
      (SuccessResponse http.StatusCreated constants.MessageTheatreTypeCreated theatreType, r.2)

/-- `TheatreTypeController.GetAllTheatreTypes`. -/
def TheatreTypeController.GetAllTheatreTypes (ctrl : TheatreTypeController σ)
    (c : gin.Context α) (w : World σ) : Response (List TheatreTypeSummary) × World σ :=
  let params := GetPaginationParams c
  let r := ctrl.theatreTypeService.GetAllTheatreTypes params.Limit params.Offset w
  match r.1 with
  | .error err => (InternalServerErrorResponse err, r.2)
  | .ok theatreTypes => (SuccessResponse http.StatusOK constants.StatusOK theatreTypes, r.2)

/-- `TheatreTypeController.UpdateTheatreType`. -/
def TheatreTypeController.UpdateTheatreType (ctrl : TheatreTypeController σ)
    (c : gin.Context TheatreTypeBase) (w : World σ) : Response TheatreTypeDetails × World σ :=
  match c.ParamID with
  | .error err => (BadRequestResponse constants.ErrorInvalidUUID err, w)
  | .ok id =>
    match c.ShouldBindJSON with
    | .error err => (BadRequestResponse constants.ErrorInvalidInput err, w)
    | .ok theatreTypeDTO =>
      let r := ctrl.theatreTypeService.UpdateTheatreType id theatreTypeDTO w
      match r.1 with
      | .error err =>
        if err.Error = constants.ErrorTheatreTypeNotFound then
          (NotFoundResponse constants.ErrorTheatreTypeNotFound, r.2)
        else if err.Error = constants.ErrorValidationFailed then
          (ValidationErrorResponse err, r.2)
        else if err.Error = constants.ErrorDuplicateEntry then
          (BadRequestResponse constants.ErrorDuplicateEntry err, r.2)
        else (InternalServerErrorResponse err, r.2)
      | .ok theatreType =>
        (SuccessResponse http.StatusOK constants.MessageTheatreTypeUpdated theatreType, r.2)

/-! ### `show_type_controller.go` -/

/-- `ShowTypeController.CreateShowType`. -/
def ShowTypeController.CreateShowType (ctrl : ShowTypeController σ)
    (c : gin.Context ShowTypeBase) (w : World σ) : Response ShowTypeDetails × World σ :=
  match c.ShouldBindJSON with
  | .error err => (BadRequestResponse constants.ErrorInvalidInput err, w)
  | .ok showTypeDTO =>
    let r := ctrl.showTypeService.CreateShowType showTypeDTO w
    match r.1 with
    | .error err =>
      if err.Error = constants.ErrorValidationFailed then (ValidationErrorResponse err, r.2)
      else if err.Error = constants.ErrorDuplicateEntry then
        (BadRequestResponse constants.ErrorDuplicateEntry err, r.2)
      else (InternalServerErrorResponse err, r.2)
    | .ok showType =>
      (SuccessResponse http.StatusCreated constants.MessageShowTypeCreated showType, r.2)

/-- `ShowTypeController.GetAllShowTypes`. -/
def ShowTypeController.GetAllShowTypes (ctrl : ShowTypeController σ) (c : gin.Context α)
    (w : World σ) : Response (List ShowTypeSummary) × World σ :=
  let params := GetPaginationParams c
  let r := ctrl.showTypeService.GetAllShowTypes params.Limit params.Offset w
  match r.1 with
  | .error err => (InternalServerErrorResponse err, r.2)
  | .ok showTypes => (SuccessResponse http.StatusOK constants.StatusOK showTypes, r.2)

/-- `ShowTypeController.UpdateShowType`. -/
def ShowTypeController.UpdateShowType (ctrl : ShowTypeController σ)
    (c : gin.Context ShowTypeBase) (w : World σ) : Response ShowTypeDetails × World σ :=
  match c.ParamID with
  | .error err => (BadRequestResponse constants.ErrorInvalidUUID err, w)
  | .ok id =>
    match c.ShouldBindJSON with
    | .error err => (BadRequestResponse constants.ErrorInvalidInput err, w)
    | .ok showTypeDTO =>
      let r := ctrl.showTypeService.UpdateShowType id showTypeDTO w
      match r.1 with
      | .error err =>
        if err.Error = constants.ErrorShowTypeNotFound then
          (NotFoundResponse constants.ErrorShowTypeNotFound, r.2)
        else if err.Error = constants.ErrorValidationFailed then
          (ValidationErrorResponse err, r.2)
        else if err.Error = constants.ErrorDuplicateEntry then
          (BadRequestResponse constants.ErrorDuplicateEntry err, r.2)
        else (InternalServerErrorResponse err, r.2)
      | .ok showType =>
        (SuccessResponse http.StatusOK constants.MessageShowTypeUpdated showType, r.2)

/-! ### `theatre_controller.go` -/

/-- `TheatreController.CreateTheatre`. -/
def TheatreController.CreateTheatre (ctrl : TheatreController σ)
    (c : gin.Context TheatreBase) (w : World σ) : Response TheatreDetails × World σ :=
  match c.ShouldBindJSON with
  | .error err => (BadRequestResponse constants.ErrorInvalidInput err, w)
  | .ok theatreDTO =>
    let r := ctrl.theatreService.CreateTheatre theatreDTO w
    match r.1 with
    | .error err =>
      if err.Error = constants.ErrorValidationFailed then (ValidationErrorResponse err, r.2)
      else if err.Error = constants.ErrorLocationNotFound ∨
          err.Error = constants.ErrorTheatreTypeNotFound then
        (BadRequestResponse err.Error err, r.2)
      else (InternalServerErrorResponse err, r.2)
    | .ok theatre =>
      (SuccessResponse http.StatusCreated constants.MessageTheatreCreated theatre, r.2)

/-- `TheatreController.GetAllTheatres`. -/
def TheatreController.GetAllTheatres (ctrl : TheatreController σ) (c : gin.Context α)
    (w : World σ) : Response (List TheatreSummary) × World σ :=
  let params := GetPaginationParams c
  let r := ctrl.theatreService.GetAllTheatres params.Limit params.Offset w
  match r.1 with
  | .error err => (InternalServerErrorResponse err, r.2)
  | .ok theatres => (SuccessResponse http.StatusOK constants.StatusOK theatres, r.2)

/-- `TheatreController.UpdateTheatre`. -/
def TheatreController.UpdateTheatre (ctrl : TheatreController σ)
    (c : gin.Context TheatreBase) (w : World σ) : Response TheatreDetails × World σ :=
  match c.ParamID with
  | .error err => (BadRequestResponse constants.ErrorInvalidUUID err, w)
  | .ok id =>
    match c.ShouldBindJSON with
    | .error err => (BadRequestResponse constants.ErrorInvalidInput err, w)
    | .ok theatreDTO =>
      let r := ctrl.theatreService.UpdateTheatre id theatreDTO w
      match r.1 with
      | .error err =>
        if err.Error = constants.ErrorTheatreNotFound then
          (NotFoundResponse constants.ErrorTheatreNotFound, r.2)
        else if err.Error = constants.ErrorValidationFailed then
          (ValidationErrorResponse err, r.2)
        else if err.Error = constants.ErrorLocationNotFound ∨
            err.Error = constants.ErrorTheatreTypeNotFound then
          (BadRequestResponse err.Error err, r.2)
        else (InternalServerErrorResponse err, r.2)
      | .ok theatre =>
        (SuccessResponse http.StatusOK constants.MessageTheatreUpdated theatre, r.2)

/-! ### `show_controller.go` -/

/-- `ShowController.CreateShow`. -/
def ShowController.CreateShow (ctrl : ShowController σ) (c : gin.Context ShowBase)
    (w : World σ) : Response ShowDetails × World σ :=
  match c.ShouldBindJSON with
  | .error err => (BadRequestResponse constants.ErrorInvalidInput err, w)
  | .ok showDTO =>
    let r := ctrl.showService.CreateShow showDTO w
    match r.1 with
    | .error err =>
      if err.Error = constants.ErrorValidationFailed then (ValidationErrorResponse err, r.2)
      else if err.Error = constants.ErrorTheatreNotFound ∨
          err.Error = constants.ErrorShowTypeNotFound then
        (BadRequestResponse err.Error err, r.2)
      else (InternalServerErrorResponse err, r.2)
    | .ok theShow =>
      (SuccessResponse http.StatusCreated constants.MessageShowCreated theShow, r.2)

/-- `ShowController.GetAllShows`. -/
def ShowController.GetAllShows (ctrl : ShowController σ) (c : gin.Context α) (w : World σ) :
    Response (List ShowSummary) × World σ :=
  let params := GetPaginationParams c
  let r := ctrl.showService.GetAllShows params.Limit params.Offset w
  match r.1 with
  | .error err => (InternalServerErrorResponse err, r.2)
  | .ok shows => (SuccessResponse http.StatusOK constants.StatusOK shows, r.2)

/-- `ShowController.UpdateShow`. -/
def ShowController.UpdateShow (ctrl : ShowController σ) (c : gin.Context ShowBase)
    (w : World σ) : Response ShowDetails × World σ :=
  match c.ParamID with
  | .error err => (BadRequestResponse constants.ErrorInvalidUUID err, w)
  | .ok id =>
    match c.ShouldBindJSON with
    | .error err => (BadRequestResponse constants.ErrorInvalidInput err, w)
    | .ok showDTO =>
      let r := ctrl.showService.UpdateShow id showDTO w
      match r.1 with
      | .error err =>
        if err.Error = constants.ErrorShowNotFound then
          (NotFoundResponse constants.ErrorShowNotFound, r.2)
        else if err.Error = constants.ErrorValidationFailed then
          (ValidationErrorResponse err, r.2)
        else if err.Error = constants.ErrorTheatreNotFound ∨
            err.Error = constants.ErrorShowTypeNotFound then
          (BadRequestResponse err.Error err, r.2)
        else (InternalServerErrorResponse err, r.2)
      | .ok theShow =>
        (SuccessResponse http.StatusOK constants.MessageShowUpdated theShow, r.2)

end Controllers

/-! ## The storage layer (`src/repo`, over gorm and PostgreSQL)

The repositories of `src/repo` are thin wrappers around gorm calls. The store
below gives those calls their meaning for the tables the properties need:

* every model carries `gorm.DeletedAt`, so `Delete` sets the tombstone
  `deleted_at` and every query built with `First`, `Find` or `Where` skips
  tombstoned rows;
* `First` orders by primary key and takes one row, or fails with
  `gorm.ErrRecordNotFound`;
* `Create` runs the `BeforeCreate` hook, puts the column default in the place
  of a zero value of a field tagged `default:` (so `is_active`, tagged
  `default:true`, is stored and handed back as true when the model holds
  false), stamps the zero timestamps and inserts; the insert is refused when the primary key is taken or when a
  unique index declared on the model is violated. The tag `uniqueIndex` on
  `TheatreType.Name` declares a plain unique index on column `name`: it ranges
  over all rows of the table, tombstoned ones included;
* `Preload("Theatres")` fills the association with the live theatres whose
  foreign key points to the record; their own associations stay unloaded.

* `ILIKE` is the pattern match of PostgreSQL without regard to case: in the
  pattern `%` stands for any run of characters, `_` for any one character, and
  a backslash takes the character after it literally. Case is folded on the
  ASCII letters.

* a condition of `Where` is raw SQL: a column it names by a reserved key word
  of PostgreSQL, without quotes, makes the statement fail to parse;
* a condition of `Where` has one of the three truth values of SQL: a
  comparison with a NULL column is unknown, `AND` and `OR` follow the
  three-valued tables, and a row is selected when the condition is true. A
  column of type `date` is compared with an instant as the instant its value
  stands for.

`Update` (gorm `Save`) and the PostGIS query are not given a meaning here;
they stay parameters of the repository values. -/

/-- The storage state: the rows of the tables, the clock read by gorm for the
timestamps, and the value the next `uuid.New()` gives. -/
structure DB where
  locations : List LocationRow
  theatreTypes : List TheatreTypeRow
  theatres : List TheatreRow
  now : Time
  nextUUID : UUID
  showTypes : List ShowTypeRow := []
  shows : List ShowRow := []

namespace gorm

/-- The clauses `Limit(limit).Offset(offset)`: a negative limit puts no bound, a
non-positive offset skips nothing. -/
def page {α : Type} (limit offset : Int) (rows : List α) : List α :=
  let rows := if offset > 0 then rows.drop offset.toNat else rows
  if limit < 0 then rows else rows.take limit.toNat

/-- The finisher `First` on the rows a query selects: the row with the least
primary key, or `ErrRecordNotFound`. -/
def First {α : Type} (key : α → UUID) : List α → Except StorageError α
  | [] => .error gorm.ErrRecordNotFound
  | row :: rows => .ok (rows.foldl (fun best r => if key r < key best then r else best) row)

end gorm

namespace postgres

/-- One element of a `LIKE` pattern. -/
inductive LikeToken where
  | anyRun
  | anyOne
  | literal (c : Char)
  | invalid
  deriving DecidableEq

/-- The elements of a `LIKE` pattern: `%` is any run of characters, `_` any one
character, the character after a backslash is taken literally, as is any
other character. `escaped` tells that the character before was a backslash. A
pattern that ends in a lone backslash is invalid. -/
def likeTokens (escaped : Bool) : List Char → List LikeToken
  | [] => if escaped then [.invalid] else []
  | c :: rest =>
    if escaped then .literal c :: likeTokens false rest
    else if c = '\\' then likeTokens true rest
    else if c = '%' then .anyRun :: likeTokens false rest
    else if c = '_' then .anyOne :: likeTokens false rest
    else .literal c :: likeTokens false rest

/-- Whether the text matches the pattern elements, letters compared without
regard to case. An invalid pattern matches nothing. -/
def matchTokens : List LikeToken → List Char → Bool
  | [], text => text.isEmpty
  | .anyRun :: pattern, text => text.tails.any (matchTokens pattern)
  | .anyOne :: _, [] => false
  | .anyOne :: pattern, _ :: rest => matchTokens pattern rest
  | .literal _ :: _, [] => false
  | .literal c :: pattern, d :: rest =>
    decide (c.toLower = d.toLower) && matchTokens pattern rest
  | .invalid :: _, _ => false

/-- The match of `LIKE` without regard to case, pattern first, on the
characters of pattern and text. -/
def likeChars (pattern text : List Char) : Bool :=
  matchTokens (likeTokens false pattern) text

/-- The operator `text ILIKE pattern`. -/
def ILIKE (text pattern : String) : Bool := likeChars pattern.data text.data

/-- The operator `AND` on the truth values of SQL; `none` is unknown. -/
def AND : Option Bool → Option Bool → Option Bool
  | some false, _ => some false
  | _, some false => some false
  | some true, some true => some true
  | _, _ => none

/-- The operator `OR` on the truth values of SQL; `none` is unknown. -/
def OR : Option Bool → Option Bool → Option Bool
  | some true, _ => some true
  | _, some true => some true
  | some false, some false => some false
  | _, _ => none

/-- The test `a IS NULL`. -/
def IS_NULL {α : Type} (a : Option α) : Option Bool := some a.isNone

/-- The comparison `a <= b` of two instants, unknown when one is NULL. -/
def LE (a b : Option Time) : Option Bool :=
  match a, b with
  | some a, some b => some (decide (a ≤ b))
  | _, _ => none

/-- The comparison `a >= b` of two instants, unknown when one is NULL. -/
def GE (a b : Option Time) : Option Bool :=
  match a, b with
  | some a, some b => some (decide (a ≥ b))
  | _, _ => none

/-- The comparison `a > b` of two instants, unknown when one is NULL. -/
def GT (a b : Option Time) : Option Bool :=
  match a, b with
  | some a, some b => some (decide (a > b))
  | _, _ => none

/-- The comparison `a = b` of two booleans, neither NULL. -/
def EQ (a b : Bool) : Option Bool := some (a == b)

end postgres

/-- The timestamps gorm sets on insert: a zero `CreatedAt` or `UpdatedAt`
becomes the current time. -/
def LocationRow.stamped (row : LocationRow) (now : Time) : LocationRow :=
  { row with
    CreatedAt := if row.CreatedAt = Time.zero then now else row.CreatedAt
    UpdatedAt := if row.UpdatedAt = Time.zero then now else row.UpdatedAt }

/-- The timestamps gorm sets on insert: a zero `CreatedAt` or `UpdatedAt`
becomes the current time. -/
def TheatreTypeRow.stamped (row : TheatreTypeRow) (now : Time) : TheatreTypeRow :=
  { row with
    CreatedAt := if row.CreatedAt = Time.zero then now else row.CreatedAt
    UpdatedAt := if row.UpdatedAt = Time.zero then now else row.UpdatedAt }

/-- The column defaults gorm applies on insert: a field whose tag names a
`default:` and that holds its zero value takes the default, in the INSERT and
in the model. `Location.IsActive` is tagged `default:true`, so a false flag
becomes true. -/
def LocationRow.defaulted (row : LocationRow) : LocationRow :=
  { row with IsActive := if row.IsActive = false then true else row.IsActive }

/-- The column defaults gorm applies on insert: `TheatreType.IsActive` is
tagged `default:true`, so a false flag becomes true. -/
def TheatreTypeRow.defaulted (row : TheatreTypeRow) : TheatreTypeRow :=
  { row with IsActive := if row.IsActive = false then true else row.IsActive }

/-- The storage after a `BeforeCreate` hook ran on a model that came with the
ID `id`: when that ID was `uuid.Nil` the hook drew one value from `uuid.New()`. -/
def DB.afterHook (db : DB) (id : UUID) : DB :=
  if id = uuid.Nil then { db with nextUUID := db.nextUUID + 1 } else db

/-- The association `Preload("Theatres")` of a location. -/
def DB.theatresOfLocation (db : DB) (id : UUID) : List Theatre :=
  (db.theatres.filter (fun t => t.LocationID = id ∧ t.DeletedAt = none)).map
    (fun t => Theatre.mk t Location.zero TheatreType.zero [])

/-- The association `Preload("Theatres")` of a theatre type. -/
def DB.theatresOfTheatreType (db : DB) (id : UUID) : List Theatre :=
  (db.theatres.filter (fun t => t.TheatreTypeID = id ∧ t.DeletedAt = none)).map
    (fun t => Theatre.mk t Location.zero TheatreType.zero [])

/-! ### `location_repository.go` -/

/-- `locationRepository.Create`. -/
def locationRepository.Create (location : Location) (db : DB) :
    (Option StorageError × Location) × DB :=
  let hooked := location.BeforeCreate db.nextUUID
  let row := hooked.row.defaulted.stamped db.now
  let saved := Location.mk row hooked.Theatres
  if db.locations.any (fun r => r.ID = row.ID) then
    ((some (.other "duplicate key value violates unique constraint locations_pkey"), saved),
      db.afterHook location.row.ID)
  else ((none, saved), { db.afterHook location.row.ID with locations := db.locations ++ [row] })

/-- `locationRepository.GetByID`. -/
def locationRepository.GetByID (id : UUID) (db : DB) : Except StorageError Location :=
  match gorm.First LocationRow.ID (db.locations.filter (fun r => r.ID = id ∧ r.DeletedAt = none)) with
  | .error err => .error err
  | .ok row => .ok (.mk row (db.theatresOfLocation row.ID))

/-- `locationRepository.GetAll`. -/
def locationRepository.GetAll (limit offset : Int) (db : DB) :
    Except StorageError (List Location) :=
  .ok ((gorm.page limit offset (db.locations.filter (fun r => r.DeletedAt = none))).map
    (fun r => Location.mk r []))

/-- `locationRepository.Delete`. -/
def locationRepository.Delete (id : UUID) (db : DB) : Option StorageError × DB :=
  (none, { db with
    locations := db.locations.map (fun r =>
      if r.ID = id ∧ r.DeletedAt = none then { r with DeletedAt := some db.now } else r) })

/-- `locationRepository.GetActiveLocations`. -/
def locationRepository.GetActiveLocations (db : DB) : Except StorageError (List Location) :=
  .ok ((db.locations.filter (fun r => r.IsActive = true ∧ r.DeletedAt = none)).map
    (fun r => Location.mk r []))

/-- `locationRepository.Search`. -/
def locationRepository.Search (query : String) (db : DB) : Except StorageError (List Location) :=
  let searchPattern := "%" ++ query ++ "%"
  .ok ((db.locations.filter (fun r =>
      (postgres.ILIKE r.Name searchPattern ∨ postgres.ILIKE r.City searchPattern ∨
        postgres.ILIKE r.Country searchPattern) ∧ r.DeletedAt = none)).map
    (fun r => Location.mk r []))

/-- The value made by `NewLocationRepository`; `rest` supplies the methods the
store gives no meaning to. -/
def NewLocationRepository (rest : LocationRepository DB) : LocationRepository DB :=
  { rest with
    Create := locationRepository.Create
    GetByID := locationRepository.GetByID
    GetAll := locationRepository.GetAll
    Delete := locationRepository.Delete
    GetActiveLocations := locationRepository.GetActiveLocations
    Search := locationRepository.Search }

/-! ### `theatre_type_repository.go` -/

/-- `theatreTypeRepository.Create`. -/
def theatreTypeRepository.Create (theatreType : TheatreType) (db : DB) :
    (Option StorageError × TheatreType) × DB :=
  let hooked := theatreType.BeforeCreate db.nextUUID
  let row := hooked.row.defaulted.stamped db.now
  let saved := TheatreType.mk row hooked.Theatres
  if db.theatreTypes.any (fun r => r.ID = row.ID) then
    ((some (.other "duplicate key value violates unique constraint theatre_types_pkey"), saved),
      db.afterHook theatreType.row.ID)
  else if db.theatreTypes.any (fun r => r.Name = row.Name) then
    ((some (.other "duplicate key value violates unique constraint idx_theatre_types_name"),
      saved), db.afterHook theatreType.row.ID)
  else
    ((none, saved),
      { db.afterHook theatreType.row.ID with theatreTypes := db.theatreTypes ++ [row] })

/-- `theatreTypeRepository.GetByID`. -/
def theatreTypeRepository.GetByID (id : UUID) (db : DB) : Except StorageError TheatreType :=
  match gorm.First TheatreTypeRow.ID
      (db.theatreTypes.filter (fun r => r.ID = id ∧ r.DeletedAt = none)) with
  | .error err => .error err
  | .ok row => .ok (.mk row (db.theatresOfTheatreType row.ID))

/-- `theatreTypeRepository.GetAll`. -/
def theatreTypeRepository.GetAll (limit offset : Int) (db : DB) :
    Except StorageError (List TheatreType) :=
  .ok ((gorm.page limit offset (db.theatreTypes.filter (fun r => r.DeletedAt = none))).map
    (fun r => TheatreType.mk r []))

/-- `theatreTypeRepository.Delete`. -/
def theatreTypeRepository.Delete (id : UUID) (db : DB) : Option StorageError × DB :=
  (none, { db with
    theatreTypes := db.theatreTypes.map (fun r =>
      if r.ID = id ∧ r.DeletedAt = none then { r with DeletedAt := some db.now } else r) })

/-- `theatreTypeRepository.GetByName`. -/
def theatreTypeRepository.GetByName (name : String) (db : DB) :
    Except StorageError TheatreType :=
  match gorm.First TheatreTypeRow.ID
      (db.theatreTypes.filter (fun r => r.Name = name ∧ r.DeletedAt = none)) with
  | .error err => .error err
  | .ok row => .ok (.mk row [])

/-- `theatreTypeRepository.GetActiveTypes`. -/
def theatreTypeRepository.GetActiveTypes (db : DB) : Except StorageError (List TheatreType) :=
  .ok ((db.theatreTypes.filter (fun r => r.IsActive = true ∧ r.DeletedAt = none)).map
    (fun r => TheatreType.mk r []))

/-- The value made by `NewTheatreTypeRepository`; `rest` supplies the method
the store gives no meaning to (`Update`). -/
def NewTheatreTypeRepository (rest : TheatreTypeRepository DB) : TheatreTypeRepository DB :=
  { rest with
    Create := theatreTypeRepository.Create
    GetByID := theatreTypeRepository.GetByID
    GetAll := theatreTypeRepository.GetAll
    Delete := theatreTypeRepository.Delete
    GetByName := theatreTypeRepository.GetByName
    GetActiveTypes := theatreTypeRepository.GetActiveTypes }

/-! ### `show_repository.go` -/

/-- The association `Preload("Theatre")` of a show: the live theatre its
foreign key points to, or the zero value when there is none. -/
def DB.theatreOfShow (db : DB) (id : UUID) : Theatre :=
  match db.theatres.find? (fun t => t.ID = id ∧ t.DeletedAt = none) with
  | some t => .mk t Location.zero TheatreType.zero []
  | none => Theatre.zero

/-- The association `Preload("ShowType")` of a show: the live show type its
foreign key points to, or the zero value when there is none. -/
def DB.showTypeOfShow (db : DB) (id : UUID) : ShowType :=
  match db.showTypes.find? (fun t => t.ID = id ∧ t.DeletedAt = none) with
  | some t => .mk t []
  | none => ShowType.zero

/-- `showRepository.Search`. The condition
`title ILIKE ? OR description ILIKE ? OR director ILIKE ? OR cast ILIKE ?`
names the column `cast` without quotes, and `CAST` is a reserved key word of
PostgreSQL: the statement does not parse, so the query fails whatever the
pattern is and no row is read. -/
def showRepository.Search (query : String) (_db : DB) : Except StorageError (List Show) :=
  let _searchPattern := "%" ++ query ++ "%"
  .error (.other "ERROR: syntax error at or near \"ILIKE\" (SQLSTATE 42601)")

/-- `showRepository.GetCurrentShows`. The instant `time.Now()` is read off the
clock of the store. -/
def showRepository.GetCurrentShows (db : DB) : Except StorageError (List Show) :=
  let now := db.now
  .ok ((db.shows.filter (fun r =>
      postgres.AND
        (postgres.AND (postgres.EQ r.IsActive true) (postgres.LE r.StartDate (some now)))
        (postgres.OR (postgres.IS_NULL r.EndDate) (postgres.GE r.EndDate (some now))) =
        some true ∧
      r.DeletedAt = none)).map
    (fun r => Show.mk r (db.theatreOfShow r.TheatreID) (db.showTypeOfShow r.ShowTypeID)))

/-- `showRepository.GetUpcomingShows`. The instant `time.Now()` is read off the
clock of the store. -/
def showRepository.GetUpcomingShows (db : DB) : Except StorageError (List Show) :=
  let now := db.now
  .ok ((db.shows.filter (fun r =>
      postgres.AND (postgres.EQ r.IsActive true) (postgres.GT r.StartDate (some now)) =
        some true ∧
      r.DeletedAt = none)).map
    (fun r => Show.mk r (db.theatreOfShow r.TheatreID) (db.showTypeOfShow r.ShowTypeID)))

/-! ## Repositories with scripted outcomes

Repository values whose lookups answer as a given function says and whose
writes succeed without touching the state. They stand for the mock
repositories a service can be built on, and supply the concrete inputs below. -/

section Scripted

variable {σ : Type}

/-- A location repository answering `GetByID` as `byID` says. -/
def scriptedLocationRepository (byID : UUID → Except StorageError Location) :
    LocationRepository σ :=
  { Create := fun location db => ((none, location), db)
    GetByID := fun id _ => byID id
    GetAll := fun _ _ _ => .ok []
    Update := fun location db => ((none, location), db)
    Delete := fun _ db => (none, db)
    GetByCoordinates := fun _ _ _ _ => .ok []
    GetActiveLocations := fun _ => .ok []
    Search := fun _ _ => .ok [] }

/-- A theatre type repository answering `GetByID` and `GetByName` as `byID`
and `byName` say. -/
def scriptedTheatreTypeRepository (byID : UUID → Except StorageError TheatreType)
    (byName : String → Except StorageError TheatreType) : TheatreTypeRepository σ :=
  { Create := fun theatreType db => ((none, theatreType), db)
    GetByID := fun id _ => byID id
    GetAll := fun _ _ _ => .ok []
    Update := fun theatreType db => ((none, theatreType), db)
    Delete := fun _ db => (none, db)
    GetByName := fun name _ => byName name
    GetActiveTypes := fun _ => .ok [] }

/-- A show type repository answering `GetByID` and `GetByName` as `byID` and
`byName` say. -/
def scriptedShowTypeRepository (byID : UUID → Except StorageError ShowType)
    (byName : String → Except StorageError ShowType) : ShowTypeRepository σ :=
  { Create := fun showType db => ((none, showType), db)
    GetByID := fun id _ => byID id
    GetAll := fun _ _ _ => .ok []
    Update := fun showType db => ((none, showType), db)
    Delete := fun _ db => (none, db)
    GetByName := fun name _ => byName name
    GetActiveTypes := fun _ => .ok [] }

/-- A theatre repository answering `GetByID` as `byID` says. -/
def scriptedTheatreRepository (byID : UUID → Except StorageError Theatre) :
    TheatreRepository σ :=
  { Create := fun theatre db => ((none, theatre), db)
    GetByID := fun id _ => byID id
    GetAll := fun _ _ _ => .ok []
    Update := fun theatre db => ((none, theatre), db)
    Delete := fun _ db => (none, db)
    GetByLocationID := fun _ _ => .ok []
    GetByTheatreTypeID := fun _ _ => .ok []
    GetFeaturedTheatres := fun _ => .ok []
    GetActiveTheatres := fun _ => .ok []
    Search := fun _ _ => .ok []
    GetNearbyTheatres := fun _ _ _ _ => .ok [] }

/-- A show repository answering `GetByID` as `byID` says. -/
def scriptedShowRepository (byID : UUID → Except StorageError Show) : ShowRepository σ :=
  { Create := fun theShow db => ((none, theShow), db)
    GetByID := fun id _ => byID id
    GetAll := fun _ _ _ => .ok []
    Update := fun theShow db => ((none, theShow), db)
    Delete := fun _ db => (none, db)
    GetByTheatreID := fun _ _ => .ok []
    GetByShowTypeID := fun _ _ => .ok []
    GetFeaturedShows := fun _ => .ok []
    GetActiveShows := fun _ => .ok []
    GetCurrentShows := fun _ => .ok []
    GetUpcomingShows := fun _ => .ok []
    Search := fun _ _ => .ok [] }

end Scripted

/-! ## Vocabulary of the properties -/

section Vocabulary

variable {σ : Type}

/-- The error of a result pair, `none` when the call succeeded. -/
def Except.errorOf {ε α : Type} : Except ε α → Option ε
  | .error err => some err
  | .ok _ => none

/-- The run from `w` to `w2` left the storage as it was and made no call of a
writing repository method (`Create`, `Update`, `Delete`). -/
def World.noWriteSince (w w2 : World σ) : Prop :=
  w2.db = w.db ∧ ∃ made, w2.calls = w.calls ++ made ∧ ∀ c ∈ made, c.isWrite = false

/-- A call of one of the four write operations on theatres and shows. -/
inductive WriteRequest where
  | CreateTheatre (theatreDTO : TheatreBase)
  | UpdateTheatre (id : UUID) (theatreDTO : TheatreBase)
  | CreateShow (showDTO : ShowBase)
  | UpdateShow (id : UUID) (showDTO : ShowBase)

/-- Run the requested operation; of its result the error is kept. -/
def WriteRequest.run (ts : theatreService σ) (ss : showService σ) :
    WriteRequest → World σ → Option GoError × World σ
  | .CreateTheatre theatreDTO, w =>
    ((ts.CreateTheatre theatreDTO w).1.errorOf, (ts.CreateTheatre theatreDTO w).2)
  | .UpdateTheatre id theatreDTO, w =>
    ((ts.UpdateTheatre id theatreDTO w).1.errorOf, (ts.UpdateTheatre id theatreDTO w).2)
  | .CreateShow showDTO, w =>
    ((ss.CreateShow showDTO w).1.errorOf, (ss.CreateShow showDTO w).2)
  | .UpdateShow id showDTO, w =>
    ((ss.UpdateShow id showDTO w).1.errorOf, (ss.UpdateShow id showDTO w).2)

/-- One of the checks of the requested operation fails on the storage of `w`:
struct validation, the show date-range check, or the foreign-key existence
check. -/
def WriteRequest.checkFails (ts : theatreService σ) (ss : showService σ) :
    WriteRequest → World σ → Prop
  | .CreateTheatre theatreDTO, w | .UpdateTheatre _ theatreDTO, w =>
    ts.validator theatreDTO ≠ none ∨
      (ts.validateRelationships theatreDTO.LocationID theatreDTO.TheatreTypeID w).1 ≠ none
  | .CreateShow showDTO, w | .UpdateShow _ showDTO, w =>
    ss.validator showDTO ≠ none ∨
      ss.validateShowDates showDTO.StartDate showDTO.EndDate ≠ none ∨
      (ss.validateRelationships showDTO.TheatreID showDTO.ShowTypeID w).1 ≠ none

end Vocabulary

/-- The stored columns of a location carry the content of the request `d`: the
nine copied fields, and `is_active` as supplied, or true when it is absent. -/
def LocationRow.carries (row : LocationRow) (d : LocationBase) : Prop :=
  row.Name = d.Name ∧ row.City = d.City ∧ row.State = d.State ∧ row.Country = d.Country ∧
  row.Latitude = d.Latitude ∧ row.Longitude = d.Longitude ∧ row.PostalCode = d.PostalCode ∧
  row.Address = d.Address ∧ row.Description = d.Description ∧
  row.IsActive = d.IsActive.getD true

/-- The details DTO of a location carries the content of the request `d`: the
nine copied fields, and `is_active` as supplied, or true when it is absent. -/
def LocationDetails.carries (x : LocationDetails) (d : LocationBase) : Prop :=
  x.Name = d.Name ∧ x.City = d.City ∧ x.State = d.State ∧ x.Country = d.Country ∧
  x.Latitude = d.Latitude ∧ x.Longitude = d.Longitude ∧ x.PostalCode = d.PostalCode ∧
  x.Address = d.Address ∧ x.Description = d.Description ∧
  x.IsActive = d.IsActive.getD true

/-- The limit the listing contract prescribes: the given one when it lies in
1..100, and 20 otherwise. -/
def contractLimit (limit : Int) : Int := if 1 ≤ limit ∧ limit ≤ 100 then limit else 20

/-- The offset the listing contract prescribes: the given one when it is not
negative, and 0 otherwise. -/
def contractOffset (offset : Int) : Int := if offset ≥ 0 then offset else 0

/-- What a listing operation returns for the answer of its repository: the
repository error handed on unchanged, or the mapped list. -/
def listingResult {α β : Type} (toDTOs : List α → List β) :
    Except StorageError (List α) → Except GoError (List β)
  | .error err => .error (.passed err)
  | .ok models => .ok (toDTOs models)

/-- The query `q` occurs in the text `t` as a substring, without regard to
case (folded on the ASCII letters, as in `postgres.ILIKE`). -/
def occursIn (q t : String) : Prop :=
  q.data.map Char.toLower <:+: t.data.map Char.toLower

/-- The query holds no character with a special meaning in a `LIKE` pattern:
no `%`, no `_` and no backslash. -/
def plainQuery (q : String) : Prop :=
  ∀ c ∈ q.data, c ≠ '%' ∧ c ≠ '_' ∧ c ≠ '\\'

/-! ## Concrete inputs -/

/-- A theatre creation request naming location 7 and theatre type 9. -/
def sampleTheatreBase : TheatreBase :=
  { Name := "Globe", Description := "", Capacity := some 500, Address := "", Phone := "",
    Email := "", Website := "", ImageURL := "", IsFeatured := none, IsActive := none,
    LocationID := 7, TheatreTypeID := 9 }

/-- A theatre service over repositories in which no location and no theatre
type exists, with a validator that accepts everything. -/
def theatreServiceNoLocation : theatreService Unit :=
  { theatreRepo := scriptedTheatreRepository (fun _ => .error gorm.ErrRecordNotFound)
    locationRepo := scriptedLocationRepository (fun _ => .error gorm.ErrRecordNotFound)
    theatreTypeRepo :=
      scriptedTheatreTypeRepository (fun _ => .error gorm.ErrRecordNotFound)
        (fun _ => .error gorm.ErrRecordNotFound)
    validator := fun _ => none }

/-- The date invariant of a show: when both dates are present, the end date
is not before the start date. -/
def ShowRow.datesInOrder (row : ShowRow) : Prop :=
  ∀ startDate endDate, row.StartDate = some startDate → row.EndDate = some endDate →
    startDate ≤ endDate

/-- A show service over repositories in which nothing exists, with a validator
that accepts everything. -/
def showServiceNoTheatre : showService Unit :=
  { showRepo := scriptedShowRepository (fun _ => .error gorm.ErrRecordNotFound)
    theatreRepo := scriptedTheatreRepository (fun _ => .error gorm.ErrRecordNotFound)
    showTypeRepo :=
      scriptedShowTypeRepository (fun _ => .error gorm.ErrRecordNotFound)
        (fun _ => .error gorm.ErrRecordNotFound)
    validator := fun _ => none }

/-- A show request whose end date (10) lies before its start date (20). -/
def sampleShowBaseBadDates : ShowBase :=
  { Title := "Hamlet", Description := "", Director := "", Cast := "", Duration := some 120,
    StartDate := some 20, EndDate := some 10, Price := some 30, ImageURL := "",
    TrailerURL := "", IsFeatured := none, IsActive := none, TheatreID := 4, ShowTypeID := 5 }

/-- The theatre type service built on the storage layer. -/
def theatreTypeServiceOnStore (rest : TheatreTypeRepository DB)
    (validator : TheatreTypeBase → Option String) : theatreTypeService DB :=
  { theatreTypeRepo := NewTheatreTypeRepository rest, validator := validator }

/-- The location service built on the storage layer. -/
def locationServiceOnStore (rest : LocationRepository DB)
    (validator : LocationBase → Option String) : locationService DB :=
  { locationRepo := NewLocationRepository rest, validator := validator }

/-- A storage with no rows; the clock reads 100, the next UUID is 1. -/
def emptyDB : DB :=
  { locations := [], theatreTypes := [], theatres := [], now := 100, nextUUID := 1 }

/-- A theatre type request with the name "Opera". -/
def operaTypeBase : TheatreTypeBase :=
  { Name := "Opera", Description := "", IsActive := none }

/-- A show type request with the name "Musical". -/
def musicalTypeBase : ShowTypeBase :=
  { Name := "Musical", Description := "", IsActive := none }

/-- A stored theatre type named "Opera" with the given ID. -/
def operaTypeWithID (id : UUID) : TheatreType :=
  .mk { TheatreTypeRow.zero with ID := id, Name := "Opera", IsActive := true } []

/-- A theatre type service whose lookup by name fails with a connection error
while its writes succeed. -/
def theatreTypeServiceLookupDown : theatreTypeService Unit :=
  { theatreTypeRepo :=
      scriptedTheatreTypeRepository (fun _ => .error gorm.ErrRecordNotFound)
        (fun _ => .error (.other "connection refused"))
    validator := fun _ => none }

/-- A show type service whose lookup by name fails with a connection error
while its writes succeed. -/
def showTypeServiceLookupDown : showTypeService Unit :=
  { showTypeRepo :=
      scriptedShowTypeRepository (fun _ => .error gorm.ErrRecordNotFound)
        (fun _ => .error (.other "connection refused"))
    validator := fun _ => none }

/-- The theatre type service on the store with a validator that accepts
everything; the methods the store gives no meaning to are scripted. -/
def theatreTypeServiceOnStoreAccepting : theatreTypeService DB :=
  theatreTypeServiceOnStore
    (scriptedTheatreTypeRepository (fun _ => .error gorm.ErrRecordNotFound)
      (fun _ => .error gorm.ErrRecordNotFound))
    (fun _ => none)

/-- A storage whose only theatre type, "Opera" with ID 1, carries a tombstone
set at time 50. -/
def tombstonedOperaDB : DB :=
  { emptyDB with
    theatreTypes :=
      [{ ID := 1, Name := "Opera", Description := "", IsActive := true, CreatedAt := 10,
         UpdatedAt := 10, DeletedAt := some 50 }]
    nextUUID := 2 }

/-- A storage holding two live theatre types, "Opera" with ID 1 and "Ballet"
with ID 2. -/
def operaBalletDB : DB :=
  { emptyDB with
    theatreTypes :=
      [{ ID := 1, Name := "Opera", Description := "", IsActive := true, CreatedAt := 10,
         UpdatedAt := 10, DeletedAt := none },
       { ID := 2, Name := "Ballet", Description := "", IsActive := true, CreatedAt := 10,
         UpdatedAt := 10, DeletedAt := none }]
    nextUUID := 3 }

/-- The location service on the store with a validator that accepts
everything; the methods the store gives no meaning to are scripted. -/
def locationServiceOnStoreAccepting : locationService DB :=
  locationServiceOnStore (scriptedLocationRepository (fun _ => .error gorm.ErrRecordNotFound))
    (fun _ => none)

/-- A stored location row "Main Square" in Springfield with ID 3. -/
def mainSquareRow : LocationRow :=
  { LocationRow.zero with
    ID := 3, Name := "Main Square", City := "Springfield", Country := "US", IsActive := true,
    CreatedAt := 10, UpdatedAt := 10 }

/-- A storage holding the one location `mainSquareRow`. -/
def mainSquareDB : DB :=
  { emptyDB with locations := [mainSquareRow], nextUUID := 4 }

/-- A location request without coordinates and without the `is_active` flag. -/
def riversideBase : LocationBase :=
  { Name := "Riverside", City := "Leeds", State := "", Country := "UK", Latitude := none,
    Longitude := none, PostalCode := "LS1", Address := "1 Dock St", Description := "",
    IsActive := none }

/-- The request `riversideBase` with the `is_active` flag supplied as false. -/
def riversideInactiveBase : LocationBase :=
  { riversideBase with IsActive := some false }

/-- The instant 2024-06-01 00:00:00 UTC, in seconds of the Unix epoch. -/
def date20240601 : Time := 1717200000

/-- The instant 2024-05-01 00:00:00 UTC, in seconds of the Unix epoch. -/
def date20240501 : Time := 1714521600

/-- A theatre service whose proximity query answers with one theatre, whatever
the center; nothing else exists. -/
def theatreServiceOneNearby : theatreService Unit :=
  { theatreServiceNoLocation with
    theatreRepo :=
      { (scriptedTheatreRepository (fun _ => .error gorm.ErrRecordNotFound) :
          TheatreRepository Unit) with
        GetNearbyTheatres := fun _ _ _ _ => .ok [Theatre.zero] } }

/-- A location service over repositories in which nothing exists, with a
validator that accepts everything. -/
def locationServiceNothing : locationService Unit :=
  { locationRepo := scriptedLocationRepository (fun _ => .error gorm.ErrRecordNotFound)
    validator := fun _ => none }

/-- A valid show request running from instant 10 to instant 20. -/
def sampleShowBase : ShowBase :=
  { sampleShowBaseBadDates with StartDate := some 10, EndDate := some 20 }

/-- A stored show whose end date (5) lies before its start date (50). -/
def storedShowBadDates : Show :=
  .mk { ShowRow.zero with ID := 8, Title := "Old", StartDate := some 50, EndDate := some 5 }
    Theatre.zero ShowType.zero

/-- A show service over repositories in which every theatre and show type
asked for exists and every show asked for is `storedShowBadDates`, with a
validator that accepts everything. -/
def showServiceAllExist : showService Unit :=
  { showRepo := scriptedShowRepository (fun _ => .ok storedShowBadDates)
    theatreRepo := scriptedTheatreRepository (fun _ => .ok Theatre.zero)
    showTypeRepo := scriptedShowTypeRepository (fun _ => .ok ShowType.zero)
      (fun _ => .error gorm.ErrRecordNotFound)
    validator := fun _ => none }

/-- The show service of `showServiceAllExist` with the struct validator of the
`dto.ShowBase` tags. -/
def showServiceWithTags (isURL : String → Bool) : showService Unit :=
  { showServiceAllExist with validator := validator.StructShowBase isURL }

/-- A show request that is in order but for its price, 20000. -/
def showBasePrice20000 : ShowBase :=
  { sampleShowBase with Price := some 20000 }

/-- A show request that is in order but for its price, -5. -/
def showBasePriceNegative : ShowBase :=
  { sampleShowBase with Price := some (-5) }

/-- A stored location row "Rome" in Rome, Italy, with ID 1. -/
def romeRow : LocationRow :=
  { LocationRow.zero with
    ID := 1, Name := "Rome", City := "Rome", Country := "Italy", IsActive := true,
    CreatedAt := 10, UpdatedAt := 10 }

/-- A storage holding the one location `romeRow`. -/
def romeDB : DB :=
  { emptyDB with locations := [romeRow], nextUUID := 2 }

/-- A stored show row "Hamlet", directed by "Brook", with the cast "Scofield". -/
def hamletRow : ShowRow :=
  { ShowRow.zero with
    ID := 6, Title := "Hamlet", Description := "A tragedy", Director := "Brook",
    Cast := "Scofield", IsActive := true, CreatedAt := 10, UpdatedAt := 10 }

/-- A storage holding the one show `hamletRow`. -/
def hamletDB : DB :=
  { emptyDB with shows := [hamletRow], nextUUID := 7 }

/-- The rows of the shows a query of the show repository answers with; no
row when the query fails. -/
def selectedRows : Except StorageError (List Show) → List ShowRow
  | .ok shows => shows.map Show.row
  | .error _ => []

/-- A stored location "Rome" with the coordinates 41.9 and 12.5. -/
def romeWithCoordinates : Location :=
  .mk { romeRow with Latitude := some (419 / 10), Longitude := some (25 / 2) } []

/-- An update request for a location that renames it to "Roma" and supplies
neither latitude nor longitude. -/
def romeRenameBase : LocationBase :=
  { Name := "Roma", City := "Rome", State := "", Country := "Italy", Latitude := none,
    Longitude := none, PostalCode := "", Address := "", Description := "", IsActive := none }

/-- A location service in which every location asked for is
`romeWithCoordinates` and every write succeeds, with a validator that accepts
everything. -/
def locationServiceRomeStored : locationService Unit :=
  { locationRepo := scriptedLocationRepository (fun _ => .ok romeWithCoordinates)
    validator := fun _ => none }

/-- A theatre "Globe" with ID 2 whose location (Rome, ID 1) and theatre type
(Opera, ID 1) are loaded. -/
def globeWithRome : Theatre :=
  .mk { TheatreRow.zero with
        ID := 2, Name := "Globe", IsActive := true, LocationID := 1, TheatreTypeID := 1 }
    (.mk romeRow []) (operaTypeWithID 1) []

/-- A show "Hamlet" whose theatre (Globe, ID 2) and show type (Tragedy, ID 5)
are loaded. -/
def hamletAtGlobe : Show :=
  .mk { hamletRow with TheatreID := 2, ShowTypeID := 5 } globeWithRome
    (.mk { ShowTypeRow.zero with ID := 5, Name := "Tragedy", IsActive := true } [])

/-- A stored show row "Macbeth", active, running from instant 50 to instant
150. -/
def macbethRow : ShowRow :=
  { ShowRow.zero with
    ID := 7, Title := "Macbeth", StartDate := some 50, EndDate := some 150, IsActive := true,
    CreatedAt := 10, UpdatedAt := 10 }

/-- A stored show row "Othello", active, starting at instant 200 with no end
date. -/
def othelloRow : ShowRow :=
  { ShowRow.zero with
    ID := 8, Title := "Othello", StartDate := some 200, IsActive := true,
    CreatedAt := 10, UpdatedAt := 10 }

/-- A storage holding the shows `macbethRow`, `othelloRow` and `hamletRow`
(which has no dates); the clock reads 100. -/
def festivalDB : DB :=
  { emptyDB with shows := [macbethRow, othelloRow, hamletRow], nextUUID := 9 }

/-! ## Properties -/

section Properties

variable {σ : Type}

/-- C1. When a theatre creation request passes struct validation and
`locationRepo.GetByID(LocationID)` reports record-not-found, `CreateTheatre`
returns no theatre and the error made from `constants.ErrorLocationNotFound`,
whose message is exactly "Location not found"; the only repository call of the
run is that lookup, so `theatreRepo.Create` is never called, and the storage is
left as it was. -/
theorem C1_create_theatre_missing_location (s : theatreService σ) (theatreDTO : TheatreBase)
    (w : World σ) (hvalid : s.validator theatreDTO = none)
    (hloc : ∃ err, s.locationRepo.GetByID theatreDTO.LocationID w.db = .error err ∧
      errors.Is err gorm.ErrRecordNotFound = true) :
    (s.CreateTheatre theatreDTO w).1 = .error (.New constants.ErrorLocationNotFound) ∧
    (GoError.New constants.ErrorLocationNotFound).Error = "Location not found" ∧
    (s.CreateTheatre theatreDTO w).2.calls = w.calls ++ [.LocationGetByID theatreDTO.LocationID] ∧
    (∀ theatre, Call.TheatreCreate theatre ∉
      (s.CreateTheatre theatreDTO w).2.calls.drop w.calls.length) ∧
    (s.CreateTheatre theatreDTO w).2.db = w.db := by
  obtain ⟨err, hget, his⟩ := hloc
  have hrun : s.CreateTheatre theatreDTO w =
      (.error (.New constants.ErrorLocationNotFound),
        { db := w.db, calls := w.calls ++ [.LocationGetByID theatreDTO.LocationID] }) := by
    simp [theatreService.CreateTheatre, theatreService.validateRelationships, World.query,
      hvalid, hget, his]
  rw [hrun]
  refine ⟨rfl, rfl, rfl, ?_, rfl⟩
  intro theatre
  simp

/-- C1 at a concrete input: a valid request naming location 7, over
repositories in which no location exists. -/
theorem C1_create_theatre_missing_location_witness :
    (theatreServiceNoLocation.CreateTheatre sampleTheatreBase ⟨(), []⟩).1 =
        .error (.New constants.ErrorLocationNotFound) ∧
      (theatreServiceNoLocation.CreateTheatre sampleTheatreBase ⟨(), []⟩).2.calls =
        [] ++ [.LocationGetByID sampleTheatreBase.LocationID] :=
  have h := C1_create_theatre_missing_location theatreServiceNoLocation sampleTheatreBase
    ⟨(), []⟩ rfl ⟨gorm.ErrRecordNotFound, rfl, by decide⟩
  ⟨h.1, h.2.2.1⟩

/-- C2. For every pair of lookup outcomes, `showService.validateRelationships`
returns the error made from "Theatre not found" exactly when the theatre
lookup reports record-not-found, the error made from "Show type not found"
exactly when the theatre lookup succeeds and the show type lookup reports
record-not-found, and `nil` exactly when both lookups succeed; the two messages
differ. -/
theorem C2_show_relationship_errors (s : showService σ) (theatreID showTypeID : UUID)
    (w : World σ) :
    ((s.validateRelationships theatreID showTypeID w).1 =
        some (.New constants.ErrorTheatreNotFound) ↔
      ∃ err, s.theatreRepo.GetByID theatreID w.db = .error err ∧
        errors.Is err gorm.ErrRecordNotFound = true) ∧
    ((s.validateRelationships theatreID showTypeID w).1 =
        some (.New constants.ErrorShowTypeNotFound) ↔
      (∃ theatre, s.theatreRepo.GetByID theatreID w.db = .ok theatre) ∧
      ∃ err, s.showTypeRepo.GetByID showTypeID w.db = .error err ∧
        errors.Is err gorm.ErrRecordNotFound = true) ∧
    ((s.validateRelationships theatreID showTypeID w).1 = none ↔
      (∃ theatre, s.theatreRepo.GetByID theatreID w.db = .ok theatre) ∧
      ∃ showType, s.showTypeRepo.GetByID showTypeID w.db = .ok showType) ∧
    (GoError.New constants.ErrorTheatreNotFound).Error = "Theatre not found" ∧
    (GoError.New constants.ErrorShowTypeNotFound).Error = "Show type not found" ∧
    (GoError.New constants.ErrorTheatreNotFound).Error ≠
      (GoError.New constants.ErrorShowTypeNotFound).Error := by
  have hne : constants.ErrorTheatreNotFound ≠ constants.ErrorShowTypeNotFound := by decide
  refine ⟨?_, ?_, ?_, rfl, rfl, by decide⟩
  all_goals
    simp only [showService.validateRelationships, World.query]
    cases ht : s.theatreRepo.GetByID theatreID w.db with
    | error e =>
      by_cases he : errors.Is e gorm.ErrRecordNotFound = true
      · simp [he, hne]
      · simp [he]
    | ok t =>
      cases hs : s.showTypeRepo.GetByID showTypeID w.db with
      | error e =>
        by_cases he : errors.Is e gorm.ErrRecordNotFound = true
        · simp [he, hne, hne.symm]
        · simp [he]
      | ok st => simp

/-! ### No partial commit -/

theorem World.noWriteSince_refl (w : World σ) : w.noWriteSince w :=
  ⟨rfl, [], by simp, by simp⟩

theorem World.noWriteSince_trans {w w2 w3 : World σ} (h12 : w.noWriteSince w2)
    (h23 : w2.noWriteSince w3) : w.noWriteSince w3 := by
  obtain ⟨hdb12, made12, hc12, hw12⟩ := h12
  obtain ⟨hdb23, made23, hc23, hw23⟩ := h23
  refine ⟨hdb23.trans hdb12, made12 ++ made23, ?_, ?_⟩
  · rw [hc23, hc12, List.append_assoc]
  · intro c hc
    rcases List.mem_append.mp hc with h | h
    · exact hw12 c h
    · exact hw23 c h

theorem World.noWriteSince_query {α : Type} (w : World σ) (c : Call) (f : σ → α)
    (hc : c.isWrite = false) : w.noWriteSince (w.query c f).2 :=
  ⟨rfl, [c], rfl, by simpa using hc⟩

theorem theatreService.theatreRelationships_noWrite (s : theatreService σ)
    (locationID theatreTypeID : UUID) (w : World σ) :
    w.noWriteSince (s.validateRelationships locationID theatreTypeID w).2 := by
  have h1 := w.noWriteSince_query (.LocationGetByID locationID)
    (s.locationRepo.GetByID locationID) rfl
  have h2 := (w.query (.LocationGetByID locationID) (s.locationRepo.GetByID locationID)).2
    |>.noWriteSince_query (.TheatreTypeGetByID theatreTypeID)
      (s.theatreTypeRepo.GetByID theatreTypeID) rfl
  have h12 := World.noWriteSince_trans h1 h2
  unfold theatreService.validateRelationships
  dsimp only
  split
  · split <;> exact h1
  · split
    · split <;> exact h12
    · exact h12

theorem theatreService.theatreRelationships_fst (s : theatreService σ)
    (locationID theatreTypeID : UUID) (w w2 : World σ) (hdb : w2.db = w.db) :
    (s.validateRelationships locationID theatreTypeID w2).1 =
      (s.validateRelationships locationID theatreTypeID w).1 := by
  simp only [theatreService.validateRelationships, World.query, hdb]
  cases s.locationRepo.GetByID locationID w.db with
  | error e => by_cases he : errors.Is e gorm.ErrRecordNotFound = true <;> simp [he]
  | ok l =>
    cases s.theatreTypeRepo.GetByID theatreTypeID w.db with
    | error e => by_cases he : errors.Is e gorm.ErrRecordNotFound = true <;> simp [he]
    | ok t => simp

theorem showService.showRelationships_noWrite (s : showService σ)
    (theatreID showTypeID : UUID) (w : World σ) :
    w.noWriteSince (s.validateRelationships theatreID showTypeID w).2 := by
  have h1 := w.noWriteSince_query (.TheatreGetByID theatreID)
    (s.theatreRepo.GetByID theatreID) rfl
  have h2 := (w.query (.TheatreGetByID theatreID) (s.theatreRepo.GetByID theatreID)).2
    |>.noWriteSince_query (.ShowTypeGetByID showTypeID)
      (s.showTypeRepo.GetByID showTypeID) rfl
  have h12 := World.noWriteSince_trans h1 h2
  unfold showService.validateRelationships
  dsimp only
  split
  · split <;> exact h1
  · split
    · split <;> exact h12
    · exact h12

theorem showService.showRelationships_fst (s : showService σ)
    (theatreID showTypeID : UUID) (w w2 : World σ) (hdb : w2.db = w.db) :
    (s.validateRelationships theatreID showTypeID w2).1 =
      (s.validateRelationships theatreID showTypeID w).1 := by
  simp only [showService.validateRelationships, World.query, hdb]
  cases s.theatreRepo.GetByID theatreID w.db with
  | error e => by_cases he : errors.Is e gorm.ErrRecordNotFound = true <;> simp [he]
  | ok l =>
    cases s.showTypeRepo.GetByID showTypeID w.db with
    | error e => by_cases he : errors.Is e gorm.ErrRecordNotFound = true <;> simp [he]
    | ok t => simp

theorem theatreService.CreateTheatre_aborts (s : theatreService σ) (theatreDTO : TheatreBase)
    (w : World σ)
    (h : s.validator theatreDTO ≠ none ∨
      (s.validateRelationships theatreDTO.LocationID theatreDTO.TheatreTypeID w).1 ≠ none) :
    (∃ err, (s.CreateTheatre theatreDTO w).1.errorOf = some err) ∧
      w.noWriteSince (s.CreateTheatre theatreDTO w).2 := by
  cases hv : s.validator theatreDTO with
  | some msg =>
    simp [theatreService.CreateTheatre, hv, Except.errorOf, World.noWriteSince_refl]
  | none =>
    have hfk : (s.validateRelationships theatreDTO.LocationID theatreDTO.TheatreTypeID w).1 ≠
        none := by
      rcases h with h | h
      · exact absurd hv h
      · exact h
    cases hr : (s.validateRelationships theatreDTO.LocationID theatreDTO.TheatreTypeID w).1 with
    | none => exact absurd hr hfk
    | some err =>
      simp only [theatreService.CreateTheatre, hv, hr, Except.errorOf]
      exact ⟨⟨err, rfl⟩, s.theatreRelationships_noWrite _ _ w⟩

theorem theatreService.UpdateTheatre_aborts (s : theatreService σ) (id : UUID)
    (theatreDTO : TheatreBase) (w : World σ)
    (h : s.validator theatreDTO ≠ none ∨
      (s.validateRelationships theatreDTO.LocationID theatreDTO.TheatreTypeID w).1 ≠ none) :
    (∃ err, (s.UpdateTheatre id theatreDTO w).1.errorOf = some err) ∧
      w.noWriteSince (s.UpdateTheatre id theatreDTO w).2 := by
  cases hv : s.validator theatreDTO with
  | some msg =>
    simp [theatreService.UpdateTheatre, hv, Except.errorOf, World.noWriteSince_refl]
  | none =>
    have hfk : (s.validateRelationships theatreDTO.LocationID theatreDTO.TheatreTypeID w).1 ≠
        none := by
      rcases h with h | h
      · exact absurd hv h
      · exact h
    have hq := w.noWriteSince_query (.TheatreGetByID id) (s.theatreRepo.GetByID id) rfl
    cases hg : (w.query (.TheatreGetByID id) (s.theatreRepo.GetByID id)).1 with
    | error e =>
      by_cases he : errors.Is e gorm.ErrRecordNotFound = true <;>
        simp [theatreService.UpdateTheatre, hv, hg, he, Except.errorOf, hq]
    | ok theatre =>
      have hsame := s.theatreRelationships_fst theatreDTO.LocationID theatreDTO.TheatreTypeID w
        (w.query (.TheatreGetByID id) (s.theatreRepo.GetByID id)).2 rfl
      cases hr : (s.validateRelationships theatreDTO.LocationID theatreDTO.TheatreTypeID
          (w.query (.TheatreGetByID id) (s.theatreRepo.GetByID id)).2).1 with
      | none => exact absurd (hsame ▸ hr) hfk
      | some err =>
        simp only [theatreService.UpdateTheatre, hv, hg, hr, Except.errorOf]
        exact ⟨⟨err, rfl⟩,
          World.noWriteSince_trans hq (s.theatreRelationships_noWrite _ _ _)⟩

theorem showService.CreateShow_aborts (s : showService σ) (showDTO : ShowBase) (w : World σ)
    (h : s.validator showDTO ≠ none ∨
      s.validateShowDates showDTO.StartDate showDTO.EndDate ≠ none ∨
      (s.validateRelationships showDTO.TheatreID showDTO.ShowTypeID w).1 ≠ none) :
    (∃ err, (s.CreateShow showDTO w).1.errorOf = some err) ∧
      w.noWriteSince (s.CreateShow showDTO w).2 := by
  cases hv : s.validator showDTO with
  | some msg =>
    simp [showService.CreateShow, hv, Except.errorOf, World.noWriteSince_refl]
  | none =>
    cases hd : s.validateShowDates showDTO.StartDate showDTO.EndDate with
    | some err =>
      simp [showService.CreateShow, hv, hd, Except.errorOf, World.noWriteSince_refl]
    | none =>
      have hfk : (s.validateRelationships showDTO.TheatreID showDTO.ShowTypeID w).1 ≠ none := by
        rcases h with h | h | h
        · exact absurd hv h
        · exact absurd hd h
        · exact h
      cases hr : (s.validateRelationships showDTO.TheatreID showDTO.ShowTypeID w).1 with
      | none => exact absurd hr hfk
      | some err =>
        simp only [showService.CreateShow, hv, hd, hr, Except.errorOf]
        exact ⟨⟨err, rfl⟩, s.showRelationships_noWrite _ _ w⟩

theorem showService.UpdateShow_aborts (s : showService σ) (id : UUID) (showDTO : ShowBase)
    (w : World σ)
    (h : s.validator showDTO ≠ none ∨
      s.validateShowDates showDTO.StartDate showDTO.EndDate ≠ none ∨
      (s.validateRelationships showDTO.TheatreID showDTO.ShowTypeID w).1 ≠ none) :
    (∃ err, (s.UpdateShow id showDTO w).1.errorOf = some err) ∧
      w.noWriteSince (s.UpdateShow id showDTO w).2 := by
  cases hv : s.validator showDTO with
  | some msg =>
    simp [showService.UpdateShow, hv, Except.errorOf, World.noWriteSince_refl]
  | none =>
    have hq := w.noWriteSince_query (.ShowGetByID id) (s.showRepo.GetByID id) rfl
    cases hg : (w.query (.ShowGetByID id) (s.showRepo.GetByID id)).1 with
    | error e =>
      by_cases he : errors.Is e gorm.ErrRecordNotFound = true <;>
        simp [showService.UpdateShow, hv, hg, he, Except.errorOf, hq]
    | ok theShow =>
      cases hd : s.validateShowDates showDTO.StartDate showDTO.EndDate with
      | some err =>
        simp [showService.UpdateShow, hv, hg, hd, Except.errorOf, hq]
      | none =>
        have hfk : (s.validateRelationships showDTO.TheatreID showDTO.ShowTypeID w).1 ≠
            none := by
          rcases h with h | h | h
          · exact absurd hv h
          · exact absurd hd h
          · exact h
        have hsame := s.showRelationships_fst showDTO.TheatreID showDTO.ShowTypeID w
          (w.query (.ShowGetByID id) (s.showRepo.GetByID id)).2 rfl
        cases hr : (s.validateRelationships showDTO.TheatreID showDTO.ShowTypeID
            (w.query (.ShowGetByID id) (s.showRepo.GetByID id)).2).1 with
        | none => exact absurd (hsame ▸ hr) hfk
        | some err =>
          simp only [showService.UpdateShow, hv, hg, hd, hr, Except.errorOf]
          exact ⟨⟨err, rfl⟩,
            World.noWriteSince_trans hq (s.showRelationships_noWrite _ _ _)⟩

/-- C3. For every call of `CreateTheatre`, `UpdateTheatre`, `CreateShow` or
`UpdateShow`: if struct validation, the show date-range check or a foreign-key
existence check fails, the operation returns an error, makes no call of a
writing repository method (so the entity repository `Create` or `Update` is
never called) and leaves the storage as it was. -/
theorem C3_failed_check_writes_nothing (ts : theatreService σ) (ss : showService σ)
    (request : WriteRequest) (w : World σ) (hfail : request.checkFails ts ss w) :
    (∃ err, (request.run ts ss w).1 = some err) ∧ w.noWriteSince (request.run ts ss w).2 := by
  cases request with
  | CreateTheatre theatreDTO => exact ts.CreateTheatre_aborts theatreDTO w hfail
  | UpdateTheatre id theatreDTO => exact ts.UpdateTheatre_aborts id theatreDTO w hfail
  | CreateShow showDTO => exact ss.CreateShow_aborts showDTO w hfail
  | UpdateShow id showDTO => exact ss.UpdateShow_aborts id showDTO w hfail

/-- C3 at a concrete input: a `CreateShow` whose end date lies before its
start date. -/
theorem C3_failed_check_writes_nothing_witness :
    (∃ err, ((WriteRequest.CreateShow sampleShowBaseBadDates).run theatreServiceNoLocation
        showServiceNoTheatre ⟨(), []⟩).1 = some err) ∧
      World.noWriteSince ⟨(), []⟩
        ((WriteRequest.CreateShow sampleShowBaseBadDates).run theatreServiceNoLocation
          showServiceNoTheatre ⟨(), []⟩).2 :=
  C3_failed_check_writes_nothing theatreServiceNoLocation showServiceNoTheatre
    (.CreateShow sampleShowBaseBadDates) ⟨(), []⟩ (Or.inr (Or.inl (by decide)))

/-! ### Name uniqueness of theatre types -/

theorem gorm.First_ok_of_mem {α : Type} (key : α → UUID) (rows : List α) (row : α)
    (h : row ∈ rows) : ∃ found, gorm.First key rows = .ok found := by
  cases rows with
  | nil => simp at h
  | cons r rs => exact ⟨_, rfl⟩

theorem gorm.First_nil {α : Type} (key : α → UUID) :
    gorm.First key ([] : List α) = .error gorm.ErrRecordNotFound := rfl

theorem TheatreType.BeforeCreate_row (theatreType : TheatreType) (fresh : UUID) :
    (theatreType.BeforeCreate fresh).row.Name = theatreType.row.Name ∧
    (theatreType.BeforeCreate fresh).row.DeletedAt = theatreType.row.DeletedAt := by
  unfold TheatreType.BeforeCreate
  split <;> simp [TheatreType.row]

theorem DB.afterHook_tables (db : DB) (id : UUID) :
    (db.afterHook id).locations = db.locations ∧
    (db.afterHook id).theatreTypes = db.theatreTypes ∧
    (db.afterHook id).theatres = db.theatres ∧ (db.afterHook id).now = db.now := by
  unfold DB.afterHook
  split <;> simp

/-- What `theatreTypeRepository.Create` does, by the three cases of the insert. -/
theorem theatreTypeRepository.Create_cases (theatreType : TheatreType) (db : DB) :
    let row := (theatreType.BeforeCreate db.nextUUID).row.defaulted.stamped db.now
    (((db.theatreTypes.any (fun r => r.ID = row.ID) = true ∨
        db.theatreTypes.any (fun r => r.Name = row.Name) = true) ∧
      (∃ msg, (theatreTypeRepository.Create theatreType db).1.1 = some (.other msg)) ∧
      (theatreTypeRepository.Create theatreType db).2.theatreTypes = db.theatreTypes) ∨
     (db.theatreTypes.any (fun r => r.ID = row.ID) = false ∧
      db.theatreTypes.any (fun r => r.Name = row.Name) = false ∧
      (theatreTypeRepository.Create theatreType db).1.1 = none ∧
      (theatreTypeRepository.Create theatreType db).2.theatreTypes = db.theatreTypes ++ [row])) ∧
    (theatreTypeRepository.Create theatreType db).2.locations = db.locations ∧
    row.Name = theatreType.row.Name ∧ row.DeletedAt = theatreType.row.DeletedAt := by
  intro row
  have hrow := theatreType.BeforeCreate_row db.nextUUID
  have htab := db.afterHook_tables theatreType.row.ID
  refine ⟨?_, ?_, hrow.1, hrow.2⟩
  · by_cases h1 : db.theatreTypes.any (fun r => r.ID = row.ID) = true
    · left
      refine ⟨Or.inl h1, ?_, ?_⟩ <;>
        simp only [theatreTypeRepository.Create, row] at h1 ⊢ <;> rw [if_pos h1]
      · exact ⟨_, rfl⟩
      · exact htab.2.1
    · by_cases h2 : db.theatreTypes.any (fun r => r.Name = row.Name) = true
      · left
        refine ⟨Or.inr h2, ?_, ?_⟩ <;>
          simp only [theatreTypeRepository.Create, row] at h1 h2 ⊢ <;>
          rw [if_neg h1, if_pos h2]
        · exact ⟨_, rfl⟩
        · exact htab.2.1
      · right
        refine ⟨by simpa using h1, by simpa using h2, ?_, ?_⟩ <;>
          simp only [theatreTypeRepository.Create, row] at h1 h2 ⊢ <;>
          rw [if_neg h1, if_neg h2]
  · simp only [theatreTypeRepository.Create]
    split
    · exact htab.1
    · split
      · exact htab.1
      · exact htab.1

theorem TheatreTypeMapper.ToModel_row (theatreTypeDTO : TheatreTypeBase) :
    (TheatreTypeMapper.ToModel theatreTypeDTO).row.Name = theatreTypeDTO.Name ∧
    (TheatreTypeMapper.ToModel theatreTypeDTO).row.DeletedAt = none := by
  unfold TheatreTypeMapper.ToModel
  cases theatreTypeDTO.IsActive <;> simp [TheatreType.row, TheatreTypeRow.zero]

theorem theatreTypeRepository.GetByName_found (name : String) (db : DB)
    (h : ∃ r ∈ db.theatreTypes, r.Name = name ∧ r.DeletedAt = none) :
    ∃ found, theatreTypeRepository.GetByName name db = .ok found := by
  obtain ⟨r, hr, hname, hlive⟩ := h
  have hmem : r ∈ db.theatreTypes.filter (fun r => r.Name = name ∧ r.DeletedAt = none) := by
    simp [List.mem_filter, hr, hname, hlive]
  obtain ⟨row, hrow⟩ := gorm.First_ok_of_mem TheatreTypeRow.ID _ r hmem
  exact ⟨.mk row [], by unfold theatreTypeRepository.GetByName; rw [hrow]⟩

theorem theatreTypeRepository.GetByName_missing (name : String) (db : DB)
    (h : ∀ r ∈ db.theatreTypes, r.Name = name → r.DeletedAt ≠ none) :
    theatreTypeRepository.GetByName name db = .error gorm.ErrRecordNotFound := by
  have hnil : db.theatreTypes.filter (fun r => r.Name = name ∧ r.DeletedAt = none) = [] := by
    rw [List.filter_eq_nil_iff]
    intro r hr
    simpa using h r hr
  unfold theatreTypeRepository.GetByName
  rw [hnil]
  rfl

/-- A found name makes `CreateTheatreType` stop with the duplicate error after
the one lookup. -/
theorem theatreTypeService.CreateTheatreType_duplicate (s : theatreTypeService σ)
    (theatreTypeDTO : TheatreTypeBase) (w : World σ) (hvalid : s.validator theatreTypeDTO = none)
    (hfound : ∃ existing, s.theatreTypeRepo.GetByName theatreTypeDTO.Name w.db = .ok existing) :
    s.CreateTheatreType theatreTypeDTO w =
      (.error (.New (constants.ErrorDuplicateEntry ++ ": theatre type name already exists")),
        { db := w.db, calls := w.calls ++ [.TheatreTypeGetByName theatreTypeDTO.Name] }) := by
  obtain ⟨existing, hget⟩ := hfound
  simp [theatreTypeService.CreateTheatreType, World.query, hvalid, hget]

/-- A successful `CreateTheatreType` on the store appended one live row that
carries the requested name. -/
theorem theatreTypeServiceOnStore_create_ok (rest : TheatreTypeRepository DB)
    (validator : TheatreTypeBase → Option String) (theatreTypeDTO : TheatreTypeBase)
    (w : World DB) (created : TheatreTypeDetails)
    (h : ((theatreTypeServiceOnStore rest validator).CreateTheatreType theatreTypeDTO w).1 =
      .ok created) :
    ∃ row : TheatreTypeRow,
      ((theatreTypeServiceOnStore rest validator).CreateTheatreType theatreTypeDTO w).2.db.theatreTypes
        = w.db.theatreTypes ++ [row] ∧
      row.Name = theatreTypeDTO.Name ∧ row.DeletedAt = none := by
  have hmodel := TheatreTypeMapper.ToModel_row theatreTypeDTO
  have hcases := theatreTypeRepository.Create_cases (TheatreTypeMapper.ToModel theatreTypeDTO) w.db
  simp only [theatreTypeService.CreateTheatreType, theatreTypeServiceOnStore,
    NewTheatreTypeRepository, World.query, World.exec] at h ⊢
  cases hv : validator theatreTypeDTO with
  | some msg => simp [hv] at h
  | none =>
    simp only [hv] at h ⊢
    cases hg : theatreTypeRepository.GetByName theatreTypeDTO.Name w.db with
    | ok existing => simp [hg] at h
    | error e =>
      simp only [hg] at h ⊢
      cases hc : (theatreTypeRepository.Create (TheatreTypeMapper.ToModel theatreTypeDTO)
          w.db).1.1 with
      | some err => simp [hc] at h
      | none =>
        simp only [hc]
        rcases hcases.1 with ⟨_, ⟨msg, hmsg⟩, _⟩ | ⟨_, _, _, hins⟩
        · rw [hc] at hmsg
          simp at hmsg
        · exact ⟨_, hins, hcases.2.2.1.trans hmodel.1, hcases.2.2.2.trans hmodel.2⟩

/-- C4. For every theatre type request that passes struct validation: if
`theatreTypeRepo.GetByName(Name)` finds a record, `CreateTheatreType` returns the
error made from "Duplicate entry" followed by ": theatre type name already
exists", its only repository call is that lookup (so `Create` is never called)
and the storage is left as it was. On the store, where `GetByName` is the
exact match among the rows without tombstone: after one request created a
theatre type, a second valid request with the identical name fails with that
duplicate error and writes nothing. -/
theorem C4_duplicate_theatre_type_name :
    (∀ (σ : Type) (s : theatreTypeService σ) (theatreTypeDTO : TheatreTypeBase) (w : World σ),
      s.validator theatreTypeDTO = none →
      (∃ existing, s.theatreTypeRepo.GetByName theatreTypeDTO.Name w.db = .ok existing) →
      (s.CreateTheatreType theatreTypeDTO w).1 =
          .error (.New (constants.ErrorDuplicateEntry ++ ": theatre type name already exists")) ∧
        (∃ detail, (GoError.New (constants.ErrorDuplicateEntry ++
            ": theatre type name already exists")).Error = "Duplicate entry" ++ detail) ∧
        (s.CreateTheatreType theatreTypeDTO w).2.calls =
          w.calls ++ [.TheatreTypeGetByName theatreTypeDTO.Name] ∧
        (s.CreateTheatreType theatreTypeDTO w).2.db = w.db) ∧
    (∀ (rest : TheatreTypeRepository DB) (validator : TheatreTypeBase → Option String)
      (first second : TheatreTypeBase) (w : World DB) (created : TheatreTypeDetails),
      validator second = none → second.Name = first.Name →
      ((theatreTypeServiceOnStore rest validator).CreateTheatreType first w).1 = .ok created →
      ((theatreTypeServiceOnStore rest validator).CreateTheatreType second
          ((theatreTypeServiceOnStore rest validator).CreateTheatreType first w).2).1 =
          .error (.New (constants.ErrorDuplicateEntry ++ ": theatre type name already exists")) ∧
        World.noWriteSince ((theatreTypeServiceOnStore rest validator).CreateTheatreType first w).2
          ((theatreTypeServiceOnStore rest validator).CreateTheatreType second
            ((theatreTypeServiceOnStore rest validator).CreateTheatreType first w).2).2) := by
  constructor
  · intro σ s theatreTypeDTO w hvalid hfound
    rw [s.CreateTheatreType_duplicate theatreTypeDTO w hvalid hfound]
    exact ⟨rfl, ⟨_, rfl⟩, rfl, rfl⟩
  · intro rest validator first second w created hvalid hname hok
    obtain ⟨row, hrows, hrowName, hrowLive⟩ :=
      theatreTypeServiceOnStore_create_ok rest validator first w created hok
    have hfound : ∃ existing, (theatreTypeServiceOnStore rest validator).theatreTypeRepo.GetByName
        second.Name ((theatreTypeServiceOnStore rest validator).CreateTheatreType first w).2.db =
        .ok existing := by
      apply theatreTypeRepository.GetByName_found
      refine ⟨row, ?_, hrowName.trans hname.symm, hrowLive⟩
      rw [hrows]
      simp
    rw [(theatreTypeServiceOnStore rest validator).CreateTheatreType_duplicate second _ hvalid
      hfound]
    exact ⟨rfl, rfl, [_], rfl, by simp [Call.isWrite]⟩

/-- C4 at a concrete input: on the empty store the request "Opera" is served
twice; the first succeeds, the second is the duplicate. -/
theorem C4_duplicate_theatre_type_name_witness :
    (theatreTypeServiceOnStoreAccepting.CreateTheatreType operaTypeBase
        ⟨emptyDB, []⟩).1.errorOf = none ∧
      (theatreTypeServiceOnStoreAccepting.CreateTheatreType operaTypeBase
        (theatreTypeServiceOnStoreAccepting.CreateTheatreType operaTypeBase ⟨emptyDB, []⟩).2).1 =
        .error (.New "Duplicate entry: theatre type name already exists") :=
  ⟨rfl, (C4_duplicate_theatre_type_name.2 _ (fun _ => none) operaTypeBase operaTypeBase
    ⟨emptyDB, []⟩ _ rfl rfl rfl).1⟩

/-- What `UpdateTheatreType` does on an existing record with a valid dto, over
any repository: the duplicate error is returned if and only if `dto.Name`
differs from the current name of the record and `GetByName(dto.Name)` finds a
record whose ID differs from `id`; an update whose name equals the current
name makes no lookup by name and calls `Update`. -/
theorem theatreTypeService.UpdateTheatreType_duplicate_iff (s : theatreTypeService σ) (id : UUID)
    (theatreTypeDTO : TheatreTypeBase) (w : World σ) (theatreType : TheatreType)
    (hvalid : s.validator theatreTypeDTO = none)
    (hexists : s.theatreTypeRepo.GetByID id w.db = .ok theatreType) :
    ((s.UpdateTheatreType id theatreTypeDTO w).1 =
        .error (.New (constants.ErrorDuplicateEntry ++ ": theatre type name already exists")) ↔
      theatreType.row.Name ≠ theatreTypeDTO.Name ∧
        ∃ existing, s.theatreTypeRepo.GetByName theatreTypeDTO.Name w.db = .ok existing ∧
          existing.row.ID ≠ id) ∧
    ((s.UpdateTheatreType id theatreTypeDTO w).1 ≠
        .error (.New (constants.ErrorDuplicateEntry ++ ": theatre type name already exists")) →
      Call.TheatreTypeUpdate (TheatreTypeMapper.UpdateModel theatreType theatreTypeDTO) ∈
        (s.UpdateTheatreType id theatreTypeDTO w).2.calls.drop w.calls.length) ∧
    (theatreType.row.Name = theatreTypeDTO.Name →
      (s.UpdateTheatreType id theatreTypeDTO w).1 ≠
        .error (.New (constants.ErrorDuplicateEntry ++ ": theatre type name already exists")) ∧
      (s.UpdateTheatreType id theatreTypeDTO w).2.calls = w.calls ++
        [.TheatreTypeGetByID id,
          .TheatreTypeUpdate (TheatreTypeMapper.UpdateModel theatreType theatreTypeDTO)]) := by
  simp only [theatreTypeService.UpdateTheatreType, World.query, World.exec, hvalid, hexists]
  by_cases hname : theatreType.row.Name = theatreTypeDTO.Name
  · simp only [hname, ne_eq, not_true_eq_false, if_false, false_and, iff_false]
    cases hu : (s.theatreTypeRepo.Update (TheatreTypeMapper.UpdateModel theatreType theatreTypeDTO)
        w.db).1.1 <;> simp
  · simp only [ne_eq, hname, not_false_eq_true, if_true, true_and, false_implies, and_true]
    cases hn : s.theatreTypeRepo.GetByName theatreTypeDTO.Name w.db with
    | error e =>
      cases hu : (s.theatreTypeRepo.Update
        (TheatreTypeMapper.UpdateModel theatreType theatreTypeDTO) w.db).1.1 <;> simp
    | ok existing =>
      by_cases hid : existing.row.ID = id
      · cases hu : (s.theatreTypeRepo.Update
          (TheatreTypeMapper.UpdateModel theatreType theatreTypeDTO) w.db).1.1 <;> simp [hid]
      · simp [hid]

theorem gorm.foldl_best_mem {α : Type} (key : α → UUID) (rows : List α) (best : α) :
    rows.foldl (fun best r => if key r < key best then r else best) best = best ∨
      rows.foldl (fun best r => if key r < key best then r else best) best ∈ rows := by
  induction rows generalizing best with
  | nil => exact Or.inl rfl
  | cons r rows ih =>
    rw [List.foldl_cons]
    rcases ih (if key r < key best then r else best) with h | h
    · rw [h]
      split
      · exact Or.inr (List.mem_cons_self _ _)
      · exact Or.inl rfl
    · exact Or.inr (List.mem_cons_of_mem _ h)

theorem gorm.First_mem {α : Type} (key : α → UUID) (rows : List α) (found : α)
    (h : gorm.First key rows = .ok found) : found ∈ rows := by
  cases rows with
  | nil => simp [gorm.First] at h
  | cons row rows =>
    simp only [gorm.First, Except.ok.injEq] at h
    rw [← h]
    rcases gorm.foldl_best_mem key rows row with hb | hb
    · rw [hb]
      exact List.mem_cons_self _ _
    · exact List.mem_cons_of_mem _ hb

theorem theatreTypeRepository.GetByID_ok (id : UUID) (db : DB) (found : TheatreType)
    (h : theatreTypeRepository.GetByID id db = .ok found) :
    found.row ∈ db.theatreTypes ∧ found.row.ID = id ∧ found.row.DeletedAt = none := by
  unfold theatreTypeRepository.GetByID at h
  cases hf : gorm.First TheatreTypeRow.ID
      (db.theatreTypes.filter (fun r => r.ID = id ∧ r.DeletedAt = none)) with
  | error err =>
    rw [hf] at h
    cases h
  | ok row =>
    rw [hf] at h
    simp only [Except.ok.injEq] at h
    have hmem := gorm.First_mem _ _ _ hf
    rw [List.mem_filter] at hmem
    rw [← h]
    simpa [TheatreType.row] using hmem

theorem theatreTypeRepository.GetByName_ok (name : String) (db : DB) (found : TheatreType)
    (h : theatreTypeRepository.GetByName name db = .ok found) :
    found.row ∈ db.theatreTypes ∧ found.row.Name = name ∧ found.row.DeletedAt = none := by
  unfold theatreTypeRepository.GetByName at h
  cases hf : gorm.First TheatreTypeRow.ID
      (db.theatreTypes.filter (fun r => r.Name = name ∧ r.DeletedAt = none)) with
  | error err =>
    rw [hf] at h
    cases h
  | ok row =>
    rw [hf] at h
    simp only [Except.ok.injEq] at h
    have hmem := gorm.First_mem _ _ _ hf
    rw [List.mem_filter] at hmem
    rw [← h]
    simpa [TheatreType.row] using hmem

/-- C5. On the store, where theatre type names are unique among the records
without tombstone (the invariant the unique index on `name` keeps): for every
`UpdateTheatreType(id, dto)` on an existing record with a valid dto, the
duplicate error is returned if and only if `GetByName(dto.Name)` finds a record
whose ID differs from `id`. In particular an update whose name equals the
current name of the record never fails with the duplicate error: it goes on
to the repository `Update` with the updated model. -/
theorem C5_update_duplicate_iff_other_record_holds_name (rest : TheatreTypeRepository DB)
    (validator : TheatreTypeBase → Option String) (id : UUID) (theatreTypeDTO : TheatreTypeBase)
    (w : World DB) (stored : TheatreType)
    (hvalid : validator theatreTypeDTO = none)
    (hexists : theatreTypeRepository.GetByID id w.db = .ok stored)
    (hunique : ∀ a ∈ w.db.theatreTypes, ∀ b ∈ w.db.theatreTypes,
      a.DeletedAt = none → b.DeletedAt = none → a.Name = b.Name → a.ID = b.ID) :
    (((theatreTypeServiceOnStore rest validator).UpdateTheatreType id theatreTypeDTO w).1 =
        .error (.New (constants.ErrorDuplicateEntry ++ ": theatre type name already exists")) ↔
      ∃ existing, theatreTypeRepository.GetByName theatreTypeDTO.Name w.db = .ok existing ∧
        existing.row.ID ≠ id) ∧
    (stored.row.Name = theatreTypeDTO.Name →
      ((theatreTypeServiceOnStore rest validator).UpdateTheatreType id theatreTypeDTO w).1 ≠
        .error (.New (constants.ErrorDuplicateEntry ++ ": theatre type name already exists")) ∧
      ((theatreTypeServiceOnStore rest validator).UpdateTheatreType id theatreTypeDTO w).2.calls =
        w.calls ++
          [.TheatreTypeGetByID id,
            .TheatreTypeUpdate (TheatreTypeMapper.UpdateModel stored theatreTypeDTO)]) := by
  have h := (theatreTypeServiceOnStore rest validator).UpdateTheatreType_duplicate_iff id
    theatreTypeDTO w stored hvalid hexists
  refine ⟨⟨fun hdup => (h.1.mp hdup).2, fun hother => h.1.mpr ⟨?_, hother⟩⟩, h.2.2⟩
  intro hname
  obtain ⟨existing, hfound, hid⟩ := hother
  have hs := theatreTypeRepository.GetByID_ok id w.db stored hexists
  have he := theatreTypeRepository.GetByName_ok theatreTypeDTO.Name w.db existing hfound
  exact hid ((hunique existing.row he.1 stored.row hs.1 he.2.2 hs.2.2
    (he.2.1.trans hname.symm)).trans hs.2.1)

/-- C5 at a concrete input, on a store holding "Opera" (ID 1) and "Ballet"
(ID 2): updating record 1 with the name "Opera", its own, gives no duplicate
error and calls `Update`; updating record 2 with the name "Opera" gives the
duplicate error. -/
theorem C5_update_duplicate_iff_other_record_holds_name_witness :
    (theatreTypeServiceOnStoreAccepting.UpdateTheatreType 1 operaTypeBase
        ⟨operaBalletDB, []⟩).1 ≠
      .error (.New (constants.ErrorDuplicateEntry ++ ": theatre type name already exists")) ∧
    (theatreTypeServiceOnStoreAccepting.UpdateTheatreType 1 operaTypeBase
        ⟨operaBalletDB, []⟩).1.errorOf = none ∧
    (theatreTypeServiceOnStoreAccepting.UpdateTheatreType 2 operaTypeBase
        ⟨operaBalletDB, []⟩).1 =
      .error (.New (constants.ErrorDuplicateEntry ++ ": theatre type name already exists")) :=
  ⟨((C5_update_duplicate_iff_other_record_holds_name _ (fun _ => none) 1 operaTypeBase
      ⟨operaBalletDB, []⟩ _ rfl rfl (by decide)).2 rfl).1, rfl,
    (C5_update_duplicate_iff_other_record_holds_name _ (fun _ => none) 2 operaTypeBase
      ⟨operaBalletDB, []⟩ _ rfl rfl (by decide)).1.mpr ⟨_, rfl, by decide⟩⟩

/-- C6 fails on the code. The lookup by name fails with a connection error,
which is not record-not-found; `CreateTheatreType` and `CreateShowType` do not
return that error: they go on to call `Create` and, as it succeeds, return the
created record. -/
theorem C6_lookup_error_is_dropped :
    theatreTypeServiceLookupDown.theatreTypeRepo.GetByName operaTypeBase.Name () =
      .error (.other "connection refused") ∧
    errors.Is (.other "connection refused") gorm.ErrRecordNotFound = false ∧
    (theatreTypeServiceLookupDown.CreateTheatreType operaTypeBase ⟨(), []⟩).1 =
      .ok (TheatreTypeMapper.ToDetailsDTO (TheatreTypeMapper.ToModel operaTypeBase)) ∧
    (theatreTypeServiceLookupDown.CreateTheatreType operaTypeBase ⟨(), []⟩).2.calls =
      [.TheatreTypeGetByName "Opera", .TheatreTypeCreate (TheatreTypeMapper.ToModel operaTypeBase)] ∧
    showTypeServiceLookupDown.showTypeRepo.GetByName musicalTypeBase.Name () =
      .error (.other "connection refused") ∧
    (showTypeServiceLookupDown.CreateShowType musicalTypeBase ⟨(), []⟩).1 =
      .ok (ShowTypeMapper.ToDetailsDTO (ShowTypeMapper.ToModel musicalTypeBase)) ∧
    (showTypeServiceLookupDown.CreateShowType musicalTypeBase ⟨(), []⟩).2.calls =
      [.ShowTypeGetByName "Musical", .ShowTypeCreate (ShowTypeMapper.ToModel musicalTypeBase)] :=
  ⟨rfl, by decide, rfl, rfl, rfl, rfl, rfl⟩

/-- C7 fails on the code. On the store, for every valid request whose name is
held by some theatre type and only by tombstoned ones: the lookup by name
finds nothing, `Create` is called, the unique index on `name` (or the primary
key) refuses the insert, and `CreateTheatreType` returns that storage error; no
row is added. -/
theorem C7_tombstoned_name_blocks_create (rest : TheatreTypeRepository DB)
    (validator : TheatreTypeBase → Option String) (theatreTypeDTO : TheatreTypeBase)
    (w : World DB) (hvalid : validator theatreTypeDTO = none)
    (hheld : ∃ r ∈ w.db.theatreTypes, r.Name = theatreTypeDTO.Name)
    (hdead : ∀ r ∈ w.db.theatreTypes, r.Name = theatreTypeDTO.Name → r.DeletedAt ≠ none) :
    (∃ msg, ((theatreTypeServiceOnStore rest validator).CreateTheatreType theatreTypeDTO w).1 =
      .error (.passed (.other msg))) ∧
    ((theatreTypeServiceOnStore rest validator).CreateTheatreType theatreTypeDTO w).2.db.theatreTypes
      = w.db.theatreTypes ∧
    ((theatreTypeServiceOnStore rest validator).CreateTheatreType theatreTypeDTO w).2.calls =
      w.calls ++ [.TheatreTypeGetByName theatreTypeDTO.Name,
        .TheatreTypeCreate (TheatreTypeMapper.ToModel theatreTypeDTO)] := by
  have hmodel := TheatreTypeMapper.ToModel_row theatreTypeDTO
  have hcases := theatreTypeRepository.Create_cases (TheatreTypeMapper.ToModel theatreTypeDTO) w.db
  have hmiss := theatreTypeRepository.GetByName_missing theatreTypeDTO.Name w.db hdead
  simp only [theatreTypeService.CreateTheatreType, theatreTypeServiceOnStore,
    NewTheatreTypeRepository, World.query, World.exec, hvalid, hmiss]
  rcases hcases.1 with ⟨_, ⟨msg, hmsg⟩, hrows⟩ | ⟨_, hfree, _, _⟩
  · simp only [hmsg, hrows]
    simp
  · exfalso
    obtain ⟨r, hr, hname⟩ := hheld
    have hany : w.db.theatreTypes.any (fun r => r.Name =
        (((TheatreTypeMapper.ToModel theatreTypeDTO).BeforeCreate
          w.db.nextUUID).row.defaulted.stamped w.db.now).Name) = true := by
      rw [List.any_eq_true]
      exact ⟨r, hr, by simpa using hname.trans (hcases.2.2.1.trans hmodel.1).symm⟩
    rw [hany] at hfree
    exact absurd hfree (by simp)

/-- C7 at the failing input: the only "Opera" is tombstoned, and creating
"Opera" is refused by the unique index. -/
theorem C7_tombstoned_name_blocks_create_witness :
    (theatreTypeServiceOnStoreAccepting.CreateTheatreType operaTypeBase
        ⟨tombstonedOperaDB, []⟩).1 =
      .error (.passed
        (.other "duplicate key value violates unique constraint idx_theatre_types_name")) ∧
    (theatreTypeServiceOnStoreAccepting.CreateTheatreType operaTypeBase
        ⟨tombstonedOperaDB, []⟩).2.db.theatreTypes = tombstonedOperaDB.theatreTypes :=
  ⟨rfl, (C7_tombstoned_name_blocks_create _ (fun _ => none) operaTypeBase ⟨tombstonedOperaDB, []⟩
    rfl ⟨_, List.mem_singleton.mpr rfl, rfl⟩ (by
      intro r hr _
      rw [List.mem_singleton.mp hr]
      simp)).2.1⟩

/-! ### Soft deletion of locations -/

theorem gorm.mem_of_mem_page {α : Type} (limit offset : Int) (rows : List α) (row : α)
    (h : row ∈ gorm.page limit offset rows) : row ∈ rows := by
  unfold gorm.page at h
  dsimp only at h
  have hdrop : ∀ x, x ∈ (if offset > 0 then rows.drop offset.toNat else rows) → x ∈ rows := by
    intro x hx
    split at hx
    · exact List.mem_of_mem_drop hx
    · exact hx
  split at h
  · exact hdrop _ h
  · exact hdrop _ (List.mem_of_mem_take h)

theorem locationRepository.Delete_tombstones (id : UUID) (db : DB) :
    (locationRepository.Delete id db).1 = none ∧
    ∀ r ∈ (locationRepository.Delete id db).2.locations, ¬ (r.ID = id ∧ r.DeletedAt = none) := by
  refine ⟨rfl, ?_⟩
  intro r hr
  simp only [locationRepository.Delete, List.mem_map] at hr
  obtain ⟨r0, _, hr0⟩ := hr
  by_cases hc : r0.ID = id ∧ r0.DeletedAt = none
  · rw [if_pos hc] at hr0
    rw [← hr0]
    simp
  · rw [if_neg hc] at hr0
    rw [← hr0]
    exact hc

theorem locationRepository.GetByID_missing (id : UUID) (db : DB)
    (h : ∀ r ∈ db.locations, ¬ (r.ID = id ∧ r.DeletedAt = none)) :
    locationRepository.GetByID id db = .error gorm.ErrRecordNotFound := by
  have hnil : db.locations.filter (fun r => r.ID = id ∧ r.DeletedAt = none) = [] := by
    rw [List.filter_eq_nil_iff]
    intro r hr
    simpa using h r hr
  unfold locationRepository.GetByID
  rw [hnil]
  rfl

theorem locationRepository.GetAll_live (limit offset : Int) (db : DB) :
    ∃ locations, locationRepository.GetAll limit offset db = .ok locations ∧
      ∀ l ∈ locations, l.row ∈ db.locations ∧ l.row.DeletedAt = none := by
  refine ⟨_, rfl, ?_⟩
  intro l hl
  obtain ⟨r, hr, hrl⟩ := List.mem_map.mp hl
  have hmem := gorm.mem_of_mem_page _ _ _ _ hr
  rw [List.mem_filter] at hmem
  rw [← hrl]
  exact ⟨hmem.1, by simpa using hmem.2⟩

/-- C8. On the store, where `Delete(id)` sets the tombstone and `GetByID` and
`GetAll` skip tombstoned rows: for every existing location id,
`DeleteLocation(id)` succeeds, and after it `GetLocationByID(id)` fails with the
error made from "Location not found", every `GetAllLocations` call returns a
list without that id, and a second `DeleteLocation(id)` fails with the error made
from "Location not found" after the one lookup, without calling the repository
`Delete` and without touching the storage. -/
theorem C8_delete_location_hides_record (rest : LocationRepository DB)
    (validator : LocationBase → Option String) (id : UUID) (w : World DB)
    (hexists : ∃ location, locationRepository.GetByID id w.db = .ok location) :
    ((locationServiceOnStore rest validator).DeleteLocation id w).1 = none ∧
    ((locationServiceOnStore rest validator).GetLocationByID id
        ((locationServiceOnStore rest validator).DeleteLocation id w).2).1 =
      .error (.New constants.ErrorLocationNotFound) ∧
    (GoError.New constants.ErrorLocationNotFound).Error = "Location not found" ∧
    (∀ limit offset, ∃ listed,
      ((locationServiceOnStore rest validator).GetAllLocations limit offset
        ((locationServiceOnStore rest validator).DeleteLocation id w).2).1 = .ok listed ∧
      ∀ summary ∈ listed, summary.ID ≠ id) ∧
    ((locationServiceOnStore rest validator).DeleteLocation id
        ((locationServiceOnStore rest validator).DeleteLocation id w).2).1 =
      some (.New constants.ErrorLocationNotFound) ∧
    ((locationServiceOnStore rest validator).DeleteLocation id
        ((locationServiceOnStore rest validator).DeleteLocation id w).2).2.calls =
      ((locationServiceOnStore rest validator).DeleteLocation id w).2.calls ++
        [.LocationGetByID id] ∧
    ((locationServiceOnStore rest validator).DeleteLocation id
        ((locationServiceOnStore rest validator).DeleteLocation id w).2).2.db =
      ((locationServiceOnStore rest validator).DeleteLocation id w).2.db := by
  obtain ⟨location, hget⟩ := hexists
  have hdel := locationRepository.Delete_tombstones id w.db
  have hrun : (locationServiceOnStore rest validator).DeleteLocation id w =
      (none, { db := (locationRepository.Delete id w.db).2,
               calls := w.calls ++ [.LocationGetByID id] ++ [.LocationDelete id] }) := by
    simp only [locationService.DeleteLocation, locationServiceOnStore, NewLocationRepository,
      World.query, World.exec, hget, hdel.1]
    rfl
  have hgone := locationRepository.GetByID_missing id (locationRepository.Delete id w.db).2 hdel.2
  rw [hrun]
  refine ⟨rfl, ?_, rfl, ?_, ?_, ?_, ?_⟩
  · simp only [locationService.GetLocationByID, locationServiceOnStore, NewLocationRepository,
      World.query, hgone]
    rfl
  · intro limit offset
    obtain ⟨locations, hall, hlive⟩ :=
      locationRepository.GetAll_live
        (if limit ≤ 0 ∨ limit > constants.MaxLimit then constants.DefaultLimit else limit)
        (if offset < 0 then constants.DefaultOffset else offset)
        (locationRepository.Delete id w.db).2
    refine ⟨LocationMapper.ToSummaryDTOs locations, ?_, ?_⟩
    · simp only [locationService.GetAllLocations, locationServiceOnStore, NewLocationRepository,
        World.query, hall]
    · intro summary hsummary
      obtain ⟨l, hl, hls⟩ := List.mem_map.mp hsummary
      intro hid
      have hrow := hlive l hl
      apply hdel.2 l.row hrow.1
      rw [← hls] at hid
      exact ⟨hid, hrow.2⟩
  all_goals
    simp only [locationService.DeleteLocation, locationServiceOnStore, NewLocationRepository,
      World.query, hgone]
    rfl

/-- C8 at a concrete input: location 3 is stored, then deleted twice. -/
theorem C8_delete_location_hides_record_witness :
    (locationServiceOnStoreAccepting.DeleteLocation 3 ⟨mainSquareDB, []⟩).1 = none ∧
    (locationServiceOnStoreAccepting.GetLocationByID 3
        (locationServiceOnStoreAccepting.DeleteLocation 3 ⟨mainSquareDB, []⟩).2).1 =
      .error (.New "Location not found") ∧
    (locationServiceOnStoreAccepting.DeleteLocation 3
        (locationServiceOnStoreAccepting.DeleteLocation 3 ⟨mainSquareDB, []⟩).2).1 =
      some (.New "Location not found") :=
  have h := C8_delete_location_hides_record
    (scriptedLocationRepository (fun _ => .error gorm.ErrRecordNotFound)) (fun _ => none) 3
    ⟨mainSquareDB, []⟩ ⟨_, rfl⟩
  ⟨h.1, h.2.1, h.2.2.2.2.1⟩

/-! ### Create followed by read, for locations -/

theorem LocationMapper.ToModel_carries (d : LocationBase) :
    (LocationMapper.ToModel d).row.carries d ∧ (LocationMapper.ToModel d).row.DeletedAt = none ∧
      (LocationMapper.ToModel d).Theatres = [] := by
  unfold LocationMapper.ToModel LocationRow.carries
  cases d.IsActive <;> simp [Location.row, Location.Theatres, LocationRow.zero]

theorem Location.BeforeCreate_carries (l : Location) (fresh : UUID) (d : LocationBase)
    (h : l.row.carries d) :
    (l.BeforeCreate fresh).row.carries d ∧
      (l.BeforeCreate fresh).row.DeletedAt = l.row.DeletedAt ∧
      (l.BeforeCreate fresh).Theatres = l.Theatres := by
  unfold Location.BeforeCreate
  split
  · exact ⟨h, rfl, rfl⟩
  · exact ⟨h, rfl, rfl⟩

theorem LocationMapper.ToDetailsDTO_carries (l : Location) (d : LocationBase)
    (h : l.row.carries d) :
    (LocationMapper.ToDetailsDTO l).carries d ∧ (LocationMapper.ToDetailsDTO l).ID = l.row.ID := by
  unfold LocationMapper.ToDetailsDTO
  dsimp only
  split
  · exact ⟨h, rfl⟩
  · exact ⟨h, rfl⟩

theorem locationRepository.GetByID_appended (rows : List LocationRow) (row : LocationRow)
    (db : DB) (hrows : db.locations = rows ++ [row]) (hlive : row.DeletedAt = none)
    (hnew : rows.any (fun r => r.ID = row.ID) = false) :
    ∃ theatres, locationRepository.GetByID row.ID db = .ok (.mk row theatres) := by
  have hold : rows.filter (fun r => r.ID = row.ID ∧ r.DeletedAt = none) = [] := by
    rw [List.filter_eq_nil_iff]
    intro r hr
    have := List.any_eq_false.mp hnew r hr
    simp only [decide_eq_true_eq] at this
    simp [this]
  have hfilter : db.locations.filter (fun r => r.ID = row.ID ∧ r.DeletedAt = none) = [row] := by
    rw [hrows, List.filter_append, hold]
    simp [List.filter, hlive]
  unfold locationRepository.GetByID
  rw [hfilter]
  exact ⟨_, rfl⟩

theorem LocationRow.defaulted_carries (row : LocationRow) (now : Time) (d : LocationBase)
    (h : row.carries d) :
    (row.defaulted.stamped now).carries { d with IsActive := some true } ∧
      (row.defaulted.stamped now).ID = row.ID ∧
      (row.defaulted.stamped now).DeletedAt = row.DeletedAt := by
  obtain ⟨h1, h2, h3, h4, h5, h6, h7, h8, h9, -⟩ := h
  refine ⟨⟨h1, h2, h3, h4, h5, h6, h7, h8, h9, ?_⟩, rfl, rfl⟩
  cases hactive : row.IsActive <;>
    simp [LocationRow.defaulted, LocationRow.stamped, hactive]

/-- C9 fails on the code for a request whose `is_active` is false. The mapper
half holds: for every location request `d`, `ToDetailsDTO(ToModel(d))` has the
name, city, state, country, latitude, longitude, postal code, address and
description of `d` (an absent coordinate stays absent) and `is_active` equal
to the supplied flag, or true when none is supplied. On the store, what a
successful `CreateLocation(d)` returns, and what `GetLocationByID` of the
returned ID then gives, carry the nine copied fields of `d`, but their
`is_active` is true whatever `d` supplies: the column is tagged `default:true`
and gorm's `Create` puts the default in the place of a false flag. At the
failing input, "Riverside" with `is_active` false is created and read back
with `is_active` true. -/
theorem C9_create_stores_inactive_as_active :
    (∀ d : LocationBase,
      (LocationMapper.ToDetailsDTO (LocationMapper.ToModel d)).Name = d.Name ∧
      (LocationMapper.ToDetailsDTO (LocationMapper.ToModel d)).City = d.City ∧
      (LocationMapper.ToDetailsDTO (LocationMapper.ToModel d)).State = d.State ∧
      (LocationMapper.ToDetailsDTO (LocationMapper.ToModel d)).Country = d.Country ∧
      (LocationMapper.ToDetailsDTO (LocationMapper.ToModel d)).Latitude = d.Latitude ∧
      (LocationMapper.ToDetailsDTO (LocationMapper.ToModel d)).Longitude = d.Longitude ∧
      (LocationMapper.ToDetailsDTO (LocationMapper.ToModel d)).PostalCode = d.PostalCode ∧
      (LocationMapper.ToDetailsDTO (LocationMapper.ToModel d)).Address = d.Address ∧
      (LocationMapper.ToDetailsDTO (LocationMapper.ToModel d)).Description = d.Description ∧
      (LocationMapper.ToDetailsDTO (LocationMapper.ToModel d)).IsActive = d.IsActive.getD true) ∧
    (∀ (rest : LocationRepository DB) (validator : LocationBase → Option String)
      (d : LocationBase) (w : World DB) (created : LocationDetails),
      ((locationServiceOnStore rest validator).CreateLocation d w).1 = .ok created →
      created.carries { d with IsActive := some true } ∧
      ∃ fetched, ((locationServiceOnStore rest validator).GetLocationByID created.ID
          ((locationServiceOnStore rest validator).CreateLocation d w).2).1 = .ok fetched ∧
        fetched.carries { d with IsActive := some true } ∧ fetched.ID = created.ID) ∧
    (riversideInactiveBase.IsActive = some false ∧
     ∃ created fetched,
      (locationServiceOnStoreAccepting.CreateLocation riversideInactiveBase ⟨emptyDB, []⟩).1 =
        .ok created ∧
      (locationServiceOnStoreAccepting.GetLocationByID created.ID
        (locationServiceOnStoreAccepting.CreateLocation riversideInactiveBase
          ⟨emptyDB, []⟩).2).1 = .ok fetched ∧
      created.Name = "Riverside" ∧ created.IsActive = true ∧
      fetched.Name = "Riverside" ∧ fetched.IsActive = true ∧
      (locationServiceOnStoreAccepting.CreateLocation riversideInactiveBase
          ⟨emptyDB, []⟩).2.db.locations.map LocationRow.IsActive = [true]) := by
  refine ⟨?_, ?_, rfl, _, _, rfl, rfl, rfl, rfl, rfl, rfl, rfl⟩
  · intro d
    exact (LocationMapper.ToDetailsDTO_carries _ d (LocationMapper.ToModel_carries d).1).1
  · intro rest validator d w created hok
    have hmodel := LocationMapper.ToModel_carries d
    have hhook := (LocationMapper.ToModel d).BeforeCreate_carries w.db.nextUUID d hmodel.1
    have hdef := ((LocationMapper.ToModel d).BeforeCreate w.db.nextUUID).row.defaulted_carries
      w.db.now d hhook.1
    simp only [locationService.CreateLocation, locationServiceOnStore, NewLocationRepository,
      World.exec, locationRepository.Create] at hok ⊢
    cases hv : validator d with
    | some msg => simp [hv] at hok
    | none =>
      simp only [hv] at hok ⊢
      by_cases htaken : w.db.locations.any (fun r => r.ID =
          (((LocationMapper.ToModel d).BeforeCreate w.db.nextUUID).row.defaulted.stamped
            w.db.now).ID) = true
      · rw [if_pos htaken] at hok
        simp at hok
      · rw [if_neg htaken] at hok ⊢
        simp only [Except.ok.injEq] at hok
        have hcreated := LocationMapper.ToDetailsDTO_carries
          (Location.mk (((LocationMapper.ToModel d).BeforeCreate w.db.nextUUID).row.defaulted.stamped
            w.db.now) ((LocationMapper.ToModel d).BeforeCreate w.db.nextUUID).Theatres)
          { d with IsActive := some true } hdef.1
        rw [hok] at hcreated
        refine ⟨hcreated.1, ?_⟩
        obtain ⟨theatres, hget⟩ := locationRepository.GetByID_appended w.db.locations
          (((LocationMapper.ToModel d).BeforeCreate w.db.nextUUID).row.defaulted.stamped w.db.now)
          { w.db.afterHook (LocationMapper.ToModel d).row.ID with
            locations := w.db.locations ++
              [((LocationMapper.ToModel d).BeforeCreate w.db.nextUUID).row.defaulted.stamped
                w.db.now] }
          rfl (hdef.2.2.trans (hhook.2.1.trans hmodel.2.1)) (by simpa using htaken)
        have hfetched := LocationMapper.ToDetailsDTO_carries
          (Location.mk (((LocationMapper.ToModel d).BeforeCreate w.db.nextUUID).row.defaulted.stamped
            w.db.now) theatres) { d with IsActive := some true } hdef.1
        refine ⟨_, ?_, hfetched.1, hfetched.2.trans hcreated.2.symm⟩
        simp only [locationService.GetLocationByID, World.query, hcreated.2]
        rw [show (Location.mk
            (((LocationMapper.ToModel d).BeforeCreate w.db.nextUUID).row.defaulted.stamped
              w.db.now) ((LocationMapper.ToModel d).BeforeCreate w.db.nextUUID).Theatres).row.ID =
          (((LocationMapper.ToModel d).BeforeCreate w.db.nextUUID).row.defaulted.stamped
            w.db.now).ID
          from rfl, hget]

/-! ### Pagination -/

theorem clampedLimit_eq (limit : Int) :
    (if limit ≤ 0 ∨ limit > constants.MaxLimit then constants.DefaultLimit else limit) =
      contractLimit limit := by
  unfold contractLimit constants.MaxLimit constants.DefaultLimit
  split_ifs <;> omega

theorem clampedOffset_eq (offset : Int) :
    (if offset < 0 then constants.DefaultOffset else offset) = contractOffset offset := by
  unfold contractOffset constants.DefaultOffset
  split_ifs <;> omega

theorem locationService.GetAllLocations_eq (s : locationService σ) (limit offset : Int)
    (w : World σ) :
    s.GetAllLocations limit offset w =
      (listingResult LocationMapper.ToSummaryDTOs
          (s.locationRepo.GetAll (contractLimit limit) (contractOffset offset) w.db),
        { db := w.db,
          calls := w.calls ++ [.LocationGetAll (contractLimit limit) (contractOffset offset)] }) := by
  simp only [locationService.GetAllLocations, World.query, clampedLimit_eq, clampedOffset_eq]
  cases s.locationRepo.GetAll (contractLimit limit) (contractOffset offset) w.db <;> rfl

theorem theatreTypeService.GetAllTheatreTypes_eq (s : theatreTypeService σ) (limit offset : Int)
    (w : World σ) :
    s.GetAllTheatreTypes limit offset w =
      (listingResult TheatreTypeMapper.ToSummaryDTOs
          (s.theatreTypeRepo.GetAll (contractLimit limit) (contractOffset offset) w.db),
        { db := w.db,
          calls := w.calls ++
            [.TheatreTypeGetAll (contractLimit limit) (contractOffset offset)] }) := by
  simp only [theatreTypeService.GetAllTheatreTypes, World.query, clampedLimit_eq,
    clampedOffset_eq]
  cases s.theatreTypeRepo.GetAll (contractLimit limit) (contractOffset offset) w.db <;> rfl

theorem showTypeService.GetAllShowTypes_eq (s : showTypeService σ) (limit offset : Int)
    (w : World σ) :
    s.GetAllShowTypes limit offset w =
      (listingResult ShowTypeMapper.ToSummaryDTOs
          (s.showTypeRepo.GetAll (contractLimit limit) (contractOffset offset) w.db),
        { db := w.db,
          calls := w.calls ++ [.ShowTypeGetAll (contractLimit limit) (contractOffset offset)] }) := by
  simp only [showTypeService.GetAllShowTypes, World.query, clampedLimit_eq, clampedOffset_eq]
  cases s.showTypeRepo.GetAll (contractLimit limit) (contractOffset offset) w.db <;> rfl

theorem theatreService.GetAllTheatres_eq (s : theatreService σ) (limit offset : Int)
    (w : World σ) :
    s.GetAllTheatres limit offset w =
      (listingResult TheatreMapper.ToSummaryDTOs
          (s.theatreRepo.GetAll (contractLimit limit) (contractOffset offset) w.db),
        { db := w.db,
          calls := w.calls ++ [.TheatreGetAll (contractLimit limit) (contractOffset offset)] }) := by
  simp only [theatreService.GetAllTheatres, World.query, clampedLimit_eq, clampedOffset_eq]
  cases s.theatreRepo.GetAll (contractLimit limit) (contractOffset offset) w.db <;> rfl

theorem showService.GetAllShows_eq (s : showService σ) (limit offset : Int) (w : World σ) :
    s.GetAllShows limit offset w =
      (listingResult ShowMapper.ToSummaryDTOs
          (s.showRepo.GetAll (contractLimit limit) (contractOffset offset) w.db),
        { db := w.db,
          calls := w.calls ++ [.ShowGetAll (contractLimit limit) (contractOffset offset)] }) := by
  simp only [showService.GetAllShows, World.query, clampedLimit_eq, clampedOffset_eq]
  cases s.showRepo.GetAll (contractLimit limit) (contractOffset offset) w.db <;> rfl

/-- C10. For every integer limit and offset, each of the five listing
operations makes exactly one repository call, `GetAll(limit2, offset2)` with
`limit2 = limit` if `1 <= limit <= 100` and 20 otherwise and `offset2 = offset`
if `offset >= 0` and 0 otherwise; it returns the mapped list of that call, or
the error of that call handed on, and no other error. Hence a listing with
limit -5 and offset -1 runs exactly as the one with limit 20 and offset 0. -/
theorem C10_listing_clamps_pagination (ls : locationService σ) (tts : theatreTypeService σ)
    (sts : showTypeService σ) (ts : theatreService σ) (ss : showService σ)
    (limit offset : Int) (w : World σ) :
    (ls.GetAllLocations limit offset w =
      (listingResult LocationMapper.ToSummaryDTOs
          (ls.locationRepo.GetAll (contractLimit limit) (contractOffset offset) w.db),
        { db := w.db,
          calls := w.calls ++ [.LocationGetAll (contractLimit limit) (contractOffset offset)] }) ∧
     tts.GetAllTheatreTypes limit offset w =
      (listingResult TheatreTypeMapper.ToSummaryDTOs
          (tts.theatreTypeRepo.GetAll (contractLimit limit) (contractOffset offset) w.db),
        { db := w.db,
          calls := w.calls ++
            [.TheatreTypeGetAll (contractLimit limit) (contractOffset offset)] }) ∧
     sts.GetAllShowTypes limit offset w =
      (listingResult ShowTypeMapper.ToSummaryDTOs
          (sts.showTypeRepo.GetAll (contractLimit limit) (contractOffset offset) w.db),
        { db := w.db,
          calls := w.calls ++ [.ShowTypeGetAll (contractLimit limit) (contractOffset offset)] }) ∧
     ts.GetAllTheatres limit offset w =
      (listingResult TheatreMapper.ToSummaryDTOs
          (ts.theatreRepo.GetAll (contractLimit limit) (contractOffset offset) w.db),
        { db := w.db,
          calls := w.calls ++ [.TheatreGetAll (contractLimit limit) (contractOffset offset)] }) ∧
     ss.GetAllShows limit offset w =
      (listingResult ShowMapper.ToSummaryDTOs
          (ss.showRepo.GetAll (contractLimit limit) (contractOffset offset) w.db),
        { db := w.db,
          calls := w.calls ++ [.ShowGetAll (contractLimit limit) (contractOffset offset)] })) ∧
    (ls.GetAllLocations (-5) (-1) w = ls.GetAllLocations 20 0 w ∧
     tts.GetAllTheatreTypes (-5) (-1) w = tts.GetAllTheatreTypes 20 0 w ∧
     sts.GetAllShowTypes (-5) (-1) w = sts.GetAllShowTypes 20 0 w ∧
     ts.GetAllTheatres (-5) (-1) w = ts.GetAllTheatres 20 0 w ∧
     ss.GetAllShows (-5) (-1) w = ss.GetAllShows 20 0 w) := by
  refine ⟨⟨ls.GetAllLocations_eq limit offset w, tts.GetAllTheatreTypes_eq limit offset w,
    sts.GetAllShowTypes_eq limit offset w, ts.GetAllTheatres_eq limit offset w,
    ss.GetAllShows_eq limit offset w⟩, ?_, ?_, ?_, ?_, ?_⟩
  · rw [ls.GetAllLocations_eq, ls.GetAllLocations_eq]; rfl
  · rw [tts.GetAllTheatreTypes_eq, tts.GetAllTheatreTypes_eq]; rfl
  · rw [sts.GetAllShowTypes_eq, sts.GetAllShowTypes_eq]; rfl
  · rw [ts.GetAllTheatres_eq, ts.GetAllTheatres_eq]; rfl
  · rw [ss.GetAllShows_eq, ss.GetAllShows_eq]; rfl

/-! ### The validation service -/

/-- C11. For every pair of optional dates, `ValidateDateRange(start, end)`
returns an error if and only if both are present and the end is strictly
before the start; equal dates pass, and a single present bound always passes.
With start 2024-06-01: the end 2024-05-01 fails, an absent end succeeds. -/
theorem C11_date_range_check (vs : ValidationService) (startDate endDate : Option Time) :
    ((vs.ValidateDateRange startDate endDate ≠ none) ↔
      ∃ first last, startDate = some first ∧ endDate = some last ∧ last < first) ∧
    (∀ t, vs.ValidateDateRange (some t) (some t) = none) ∧
    (∀ t, vs.ValidateDateRange (some t) none = none ∧
      vs.ValidateDateRange none (some t) = none) ∧
    vs.ValidateDateRange none none = none ∧
    vs.ValidateDateRange (some date20240601) (some date20240501) ≠ none ∧
    vs.ValidateDateRange (some date20240601) none = none := by
  refine ⟨?_, ?_, fun t => ⟨rfl, ?_⟩, rfl, ?_, rfl⟩
  · cases startDate with
    | none => simp [ValidationService.ValidateDateRange]
    | some first =>
      cases endDate with
      | none => simp [ValidationService.ValidateDateRange]
      | some last =>
        by_cases h : last < first <;>
          simp [ValidationService.ValidateDateRange, Time.Before, h]
  · intro t
    simp [ValidationService.ValidateDateRange, Time.Before]
  · simp [ValidationService.ValidateDateRange]
  · simp [ValidationService.ValidateDateRange, Time.Before, date20240601, date20240501]

/-- C13. For every optional integer `c`, `ValidateCapacity(c)` succeeds if and
only if `c` is absent or `1 <= c <= 100000`; for every optional integer `d`,
`ValidateDuration(d)` succeeds if and only if `d` is absent or `1 <= d <= 600`;
an absent value always passes. -/
theorem C13_capacity_and_duration_bounds (vs : ValidationService) (c d : Option Int) :
    (vs.ValidateCapacity c = none ↔ c = none ∨ ∃ v, c = some v ∧ 1 ≤ v ∧ v ≤ 100000) ∧
    (vs.ValidateDuration d = none ↔ d = none ∨ ∃ v, d = some v ∧ 1 ≤ v ∧ v ≤ 600) ∧
    vs.ValidateCapacity none = none ∧ vs.ValidateDuration none = none := by
  refine ⟨?_, ?_, rfl, rfl⟩
  · cases c with
    | none => simp [ValidationService.ValidateCapacity]
    | some v =>
      simp only [ValidationService.ValidateCapacity]
      split_ifs with h1 h2
      · simp; omega
      · simp; omega
      · simp; omega
  · cases d with
    | none => simp [ValidationService.ValidateDuration]
    | some v =>
      simp only [ValidationService.ValidateDuration]
      split_ifs with h1 h2
      · simp; omega
      · simp; omega
      · simp; omega

/-- C15. For every optional latitude and optional longitude, taken as exact
rational numbers, `ValidateCoordinates` succeeds if and only if the latitude is
absent or lies in [-90, 90] and the longitude is absent or lies in [-180, 180].
The two are checked independently: with one coordinate absent the verdict is
the one on the other alone. When both are out of range the error returned is
the latitude error. -/
theorem C15_coordinate_bounds (vs : ValidationService) (latitude longitude : Option Float64) :
    (vs.ValidateCoordinates latitude longitude = none ↔
      (latitude = none ∨ ∃ lat, latitude = some lat ∧ -90 ≤ lat ∧ lat ≤ 90) ∧
      (longitude = none ∨ ∃ lon, longitude = some lon ∧ -180 ≤ lon ∧ lon ≤ 180)) ∧
    (vs.ValidateCoordinates latitude none = none ↔
      (latitude = none ∨ ∃ lat, latitude = some lat ∧ -90 ≤ lat ∧ lat ≤ 90)) ∧
    (vs.ValidateCoordinates none longitude = none ↔
      (longitude = none ∨ ∃ lon, longitude = some lon ∧ -180 ≤ lon ∧ lon ≤ 180)) ∧
    (∀ lat lon, (lat < -90 ∨ lat > 90) → (lon < -180 ∨ lon > 180) →
      vs.ValidateCoordinates (some lat) (some lon) =
        some (.New ("latitude must be between -90 and 90, got: " ++ vs.formatF lat))) := by
  have hlat : ∀ lat : Float64,
      (some lat = none ∨ ∃ v, some lat = some v ∧ -90 ≤ v ∧ v ≤ 90) ↔
        ¬ (lat < -90 ∨ lat > 90) := by
    intro lat
    constructor
    · rintro (h | ⟨v, hv, h1, h2⟩)
      · cases h
      · cases hv
        rintro (h | h) <;> linarith
    · intro h
      rw [not_or, not_lt, not_lt] at h
      exact Or.inr ⟨lat, rfl, h.1, h.2⟩
  have hlon : ∀ lon : Float64,
      (some lon = none ∨ ∃ v, some lon = some v ∧ -180 ≤ v ∧ v ≤ 180) ↔
        ¬ (lon < -180 ∨ lon > 180) := by
    intro lon
    constructor
    · rintro (h | ⟨v, hv, h1, h2⟩)
      · cases h
      · cases hv
        rintro (h | h) <;> linarith
    · intro h
      rw [not_or, not_lt, not_lt] at h
      exact Or.inr ⟨lon, rfl, h.1, h.2⟩
  have hnone : ∀ P : Prop, ((none : Option Float64) = none ∨ P) ↔ True := by
    intro P
    simp
  refine ⟨?_, ?_, ?_, ?_⟩
  · cases latitude with
    | none =>
      cases longitude with
      | none => simp [ValidationService.ValidateCoordinates]
      | some lon =>
        rw [hlon, hnone]
        by_cases h : lon < -180 ∨ lon > 180 <;>
          simp only [ValidationService.ValidateCoordinates, h] <;> simp
    | some lat =>
      rw [hlat]
      by_cases h : lat < -90 ∨ lat > 90
      · simp only [ValidationService.ValidateCoordinates, h]
        simp
      · cases longitude with
        | none =>
          simp only [ValidationService.ValidateCoordinates, h]
          simp
        | some lon =>
          rw [hlon]
          by_cases h2 : lon < -180 ∨ lon > 180 <;>
            simp only [ValidationService.ValidateCoordinates, h, h2] <;> simp
  · cases latitude with
    | none => simp [ValidationService.ValidateCoordinates]
    | some lat =>
      rw [hlat]
      by_cases h : lat < -90 ∨ lat > 90 <;>
        simp only [ValidationService.ValidateCoordinates, h] <;> simp
  · cases longitude with
    | none => simp [ValidationService.ValidateCoordinates]
    | some lon =>
      rw [hlon]
      by_cases h : lon < -180 ∨ lon > 180 <;>
        simp only [ValidationService.ValidateCoordinates, h] <;> simp
  · intro lat lon h _
    simp only [ValidationService.ValidateCoordinates, h]
    simp

/-! ### Proximity queries and search of the services -/

theorem float64.not_lt_of_le {a b : float64} (h : a ≤ b) : ¬ b < a := by
  cases a <;> cases b <;> simp_all [LT.lt, LE.le, float64.less, float64.lessEq]

/-- A center that passes both range guards is handed to the repository. -/
theorem locationService.GetLocationsByCoordinates_passed (s : locationService σ)
    (latitude longitude radius : float64) (w : World σ)
    (h1 : ¬ (latitude < -90 ∨ latitude > 90)) (h2 : ¬ (longitude < -180 ∨ longitude > 180)) :
    s.GetLocationsByCoordinates latitude longitude radius w =
      (listingResult LocationMapper.ToSummaryDTOs
          (s.locationRepo.GetByCoordinates latitude longitude
            (if radius ≤ 0 then 50 else radius) w.db),
        { db := w.db,
          calls := w.calls ++
            [.LocationGetByCoordinates latitude longitude (if radius ≤ 0 then 50 else radius)] }) := by
  simp only [locationService.GetLocationsByCoordinates, World.query, if_neg h1, if_neg h2,
    constants.DefaultRadius]
  cases s.locationRepo.GetByCoordinates latitude longitude (if radius ≤ 0 then 50 else radius)
    w.db <;> rfl

/-- A center that passes both range guards is handed to the repository. -/
theorem theatreService.GetNearbyTheatres_passed (s : theatreService σ)
    (latitude longitude radius : float64) (w : World σ)
    (h1 : ¬ (latitude < -90 ∨ latitude > 90)) (h2 : ¬ (longitude < -180 ∨ longitude > 180)) :
    s.GetNearbyTheatres latitude longitude radius w =
      (listingResult TheatreMapper.ToSummaryDTOs
          (s.theatreRepo.GetNearbyTheatres latitude longitude
            (if radius ≤ 0 then 50 else radius) w.db),
        { db := w.db,
          calls := w.calls ++
            [.TheatreGetNearbyTheatres latitude longitude (if radius ≤ 0 then 50 else radius)] }) := by
  simp only [theatreService.GetNearbyTheatres, World.query, if_neg h1, if_neg h2,
    constants.DefaultRadius]
  cases s.theatreRepo.GetNearbyTheatres latitude longitude (if radius ≤ 0 then 50 else radius)
    w.db <;> rfl

theorem locationService.GetLocationsByCoordinates_inRange (s : locationService σ)
    (latitude longitude radius : float64) (w : World σ)
    (hlat : -90 ≤ latitude ∧ latitude ≤ 90) (hlon : -180 ≤ longitude ∧ longitude ≤ 180) :
    s.GetLocationsByCoordinates latitude longitude radius w =
      (listingResult LocationMapper.ToSummaryDTOs
          (s.locationRepo.GetByCoordinates latitude longitude
            (if radius ≤ 0 then 50 else radius) w.db),
        { db := w.db,
          calls := w.calls ++
            [.LocationGetByCoordinates latitude longitude (if radius ≤ 0 then 50 else radius)] }) :=
  s.GetLocationsByCoordinates_passed latitude longitude radius w
    (not_or.mpr ⟨float64.not_lt_of_le hlat.1, float64.not_lt_of_le hlat.2⟩)
    (not_or.mpr ⟨float64.not_lt_of_le hlon.1, float64.not_lt_of_le hlon.2⟩)

theorem theatreService.GetNearbyTheatres_inRange (s : theatreService σ)
    (latitude longitude radius : float64) (w : World σ)
    (hlat : -90 ≤ latitude ∧ latitude ≤ 90) (hlon : -180 ≤ longitude ∧ longitude ≤ 180) :
    s.GetNearbyTheatres latitude longitude radius w =
      (listingResult TheatreMapper.ToSummaryDTOs
          (s.theatreRepo.GetNearbyTheatres latitude longitude
            (if radius ≤ 0 then 50 else radius) w.db),
        { db := w.db,
          calls := w.calls ++
            [.TheatreGetNearbyTheatres latitude longitude (if radius ≤ 0 then 50 else radius)] }) :=
  s.GetNearbyTheatres_passed latitude longitude radius w
    (not_or.mpr ⟨float64.not_lt_of_le hlat.1, float64.not_lt_of_le hlat.2⟩)
    (not_or.mpr ⟨float64.not_lt_of_le hlon.1, float64.not_lt_of_le hlon.2⟩)

/-- C16 fails on the code at a center that is not a number. For every
latitude, longitude and radius: when the latitude compares as `< -90` or
`> 90`, or the longitude as `< -180` or `> 180`, `GetNearbyTheatres` and
`GetLocationsByCoordinates` return an error, hence no list, and make no
repository call; when both are in range, each makes exactly one call of its
repository proximity query with that center. But NaN, which
`strconv.ParseFloat` delivers for the query value "NaN", lies outside
[-90, 90] and outside [-180, 180] and compares as neither below nor above a
bound: with the latitude NaN (or the longitude NaN) and the other coordinate
in range, both guards are false and both operations call the repository with
that center. At the failing input, `GetNearbyTheatres(NaN, 0, 10)` is answered
with the one theatre of the repository, as a success. -/
theorem C16_nan_center_reaches_the_repository (ls : locationService σ) (ts : theatreService σ)
    (latitude longitude radius : float64) (w : World σ) :
    ((latitude < -90 ∨ latitude > 90 ∨ longitude < -180 ∨ longitude > 180) →
      (∃ err, (ts.GetNearbyTheatres latitude longitude radius w).1 = .error err) ∧
      (ts.GetNearbyTheatres latitude longitude radius w).2 = w ∧
      (∃ err, (ls.GetLocationsByCoordinates latitude longitude radius w).1 = .error err) ∧
      (ls.GetLocationsByCoordinates latitude longitude radius w).2 = w) ∧
    ((-90 ≤ latitude ∧ latitude ≤ 90) ∧ (-180 ≤ longitude ∧ longitude ≤ 180) →
      (∃ r, (ts.GetNearbyTheatres latitude longitude radius w).2.calls =
        w.calls ++ [.TheatreGetNearbyTheatres latitude longitude r]) ∧
      (∃ r, (ls.GetLocationsByCoordinates latitude longitude radius w).2.calls =
        w.calls ++ [.LocationGetByCoordinates latitude longitude r])) ∧
    (¬ (-90 ≤ float64.NaN ∧ float64.NaN ≤ 90) ∧ ¬ (-180 ≤ float64.NaN ∧ float64.NaN ≤ 180)) ∧
    ((-180 ≤ longitude ∧ longitude ≤ 180) →
      (∃ r, (ts.GetNearbyTheatres .NaN longitude radius w).2.calls =
        w.calls ++ [.TheatreGetNearbyTheatres .NaN longitude r]) ∧
      (∃ r, (ls.GetLocationsByCoordinates .NaN longitude radius w).2.calls =
        w.calls ++ [.LocationGetByCoordinates .NaN longitude r])) ∧
    ((-90 ≤ latitude ∧ latitude ≤ 90) →
      (∃ r, (ts.GetNearbyTheatres latitude .NaN radius w).2.calls =
        w.calls ++ [.TheatreGetNearbyTheatres latitude .NaN r]) ∧
      (∃ r, (ls.GetLocationsByCoordinates latitude .NaN radius w).2.calls =
        w.calls ++ [.LocationGetByCoordinates latitude .NaN r])) ∧
    ((theatreServiceOneNearby.GetNearbyTheatres .NaN 0 10 ⟨(), []⟩).1 =
        .ok [TheatreMapper.ToSummaryDTO Theatre.zero] ∧
     (theatreServiceOneNearby.GetNearbyTheatres .NaN 0 10 ⟨(), []⟩).2.calls =
        [.TheatreGetNearbyTheatres .NaN 0 10] ∧
     (locationServiceNothing.GetLocationsByCoordinates 0 .NaN 10 ⟨(), []⟩).1 = .ok [] ∧
     (locationServiceNothing.GetLocationsByCoordinates 0 .NaN 10 ⟨(), []⟩).2.calls =
        [.LocationGetByCoordinates 0 .NaN 10]) := by
  refine ⟨?_, ?_, ⟨by decide, by decide⟩, ?_, ?_, rfl, rfl, rfl, rfl⟩
  · intro hout
    by_cases hlat : latitude < -90 ∨ latitude > 90
    · simp only [theatreService.GetNearbyTheatres, locationService.GetLocationsByCoordinates,
        if_pos hlat]
      exact ⟨⟨_, rfl⟩, trivial, ⟨_, rfl⟩, trivial⟩
    · have hlon : longitude < -180 ∨ longitude > 180 := by
        rcases hout with h | h | h | h
        · exact absurd (Or.inl h) hlat
        · exact absurd (Or.inr h) hlat
        · exact Or.inl h
        · exact Or.inr h
      simp only [theatreService.GetNearbyTheatres, locationService.GetLocationsByCoordinates,
        if_neg hlat, if_pos hlon]
      exact ⟨⟨_, rfl⟩, trivial, ⟨_, rfl⟩, trivial⟩
  · rintro ⟨hlat, hlon⟩
    rw [ts.GetNearbyTheatres_inRange latitude longitude radius w hlat hlon,
      ls.GetLocationsByCoordinates_inRange latitude longitude radius w hlat hlon]
    exact ⟨⟨_, rfl⟩, ⟨_, rfl⟩⟩
  · intro hlon
    have h2 : ¬ (longitude < -180 ∨ longitude > 180) :=
      not_or.mpr ⟨float64.not_lt_of_le hlon.1, float64.not_lt_of_le hlon.2⟩
    rw [ts.GetNearbyTheatres_passed .NaN longitude radius w (by decide) h2,
      ls.GetLocationsByCoordinates_passed .NaN longitude radius w (by decide) h2]
    exact ⟨⟨_, rfl⟩, ⟨_, rfl⟩⟩
  · intro hlat
    have h1 : ¬ (latitude < -90 ∨ latitude > 90) :=
      not_or.mpr ⟨float64.not_lt_of_le hlat.1, float64.not_lt_of_le hlat.2⟩
    rw [ts.GetNearbyTheatres_passed latitude .NaN radius w h1 (by decide),
      ls.GetLocationsByCoordinates_passed latitude .NaN radius w h1 (by decide)]
    exact ⟨⟨_, rfl⟩, ⟨_, rfl⟩⟩

/-- C17. For every center in range and every radius,
`GetNearbyTheatres` and `GetLocationsByCoordinates` make one call of the
repository proximity query, with radius 50 (`constants.DefaultRadius`) when the
given radius is `<= 0` and with the given radius when it is `> 0`; they return
the mapped list of that call, or the error of that call handed on, so a
non-positive radius produces no error of its own. -/
theorem C17_default_radius (ls : locationService σ) (ts : theatreService σ)
    (latitude longitude radius : float64) (w : World σ)
    (hlat : -90 ≤ latitude ∧ latitude ≤ 90) (hlon : -180 ≤ longitude ∧ longitude ≤ 180) :
    ts.GetNearbyTheatres latitude longitude radius w =
      (listingResult TheatreMapper.ToSummaryDTOs
          (ts.theatreRepo.GetNearbyTheatres latitude longitude
            (if radius ≤ 0 then 50 else radius) w.db),
        { db := w.db,
          calls := w.calls ++
            [.TheatreGetNearbyTheatres latitude longitude (if radius ≤ 0 then 50 else radius)] }) ∧
    ls.GetLocationsByCoordinates latitude longitude radius w =
      (listingResult LocationMapper.ToSummaryDTOs
          (ls.locationRepo.GetByCoordinates latitude longitude
            (if radius ≤ 0 then 50 else radius) w.db),
        { db := w.db,
          calls := w.calls ++
            [.LocationGetByCoordinates latitude longitude (if radius ≤ 0 then 50 else radius)] }) ∧
    constants.DefaultRadius = 50 :=
  ⟨ts.GetNearbyTheatres_inRange latitude longitude radius w hlat hlon,
    ls.GetLocationsByCoordinates_inRange latitude longitude radius w hlat hlon, rfl⟩

/-- C17 at a concrete input: the center (0, 0) with radius -3 is queried with
radius 50 and answered with the one theatre of the repository. -/
theorem C17_default_radius_witness :
    (theatreServiceOneNearby.GetNearbyTheatres 0 0 (-3) ⟨(), []⟩).2.calls =
      [.TheatreGetNearbyTheatres 0 0 50] ∧
    (theatreServiceOneNearby.GetNearbyTheatres 0 0 (-3) ⟨(), []⟩).1 =
      .ok [TheatreMapper.ToSummaryDTO Theatre.zero] := by
  have h := (C17_default_radius locationServiceNothing theatreServiceOneNearby 0 0 (-3)
    ⟨(), []⟩ ⟨by decide, by decide⟩ ⟨by decide, by decide⟩).1
  rw [h]
  exact ⟨rfl, rfl⟩

/-- C19. For each of `SearchLocations`, `SearchTheatres` and `SearchShows`: with
the empty string as query the operation returns an empty list and no error,
and leaves the world as it was: it makes no repository call, whatever the
repository holds. -/
theorem C19_empty_query_short_circuits (ls : locationService σ) (ts : theatreService σ)
    (ss : showService σ) (w : World σ) :
    ls.SearchLocations "" w = (.ok [], w) ∧
    ts.SearchTheatres "" w = (.ok [], w) ∧
    ss.SearchShows "" w = (.ok [], w) :=
  ⟨rfl, rfl, rfl⟩

/-! ### The date invariant of shows -/

theorem ShowMapper.ToModel_dates (showDTO : ShowBase) :
    (ShowMapper.ToModel showDTO).row.StartDate = showDTO.StartDate ∧
    (ShowMapper.ToModel showDTO).row.EndDate = showDTO.EndDate := by
  unfold ShowMapper.ToModel
  cases showDTO.Duration <;> cases showDTO.Price <;> cases showDTO.IsFeatured <;>
    cases showDTO.IsActive <;> exact ⟨rfl, rfl⟩

theorem ShowMapper.UpdateModel_dates (theShow : Show) (showDTO : ShowBase) :
    (ShowMapper.UpdateModel theShow showDTO).row.StartDate = showDTO.StartDate ∧
    (ShowMapper.UpdateModel theShow showDTO).row.EndDate = showDTO.EndDate := by
  unfold ShowMapper.UpdateModel
  cases showDTO.Duration <;> cases showDTO.Price <;> cases showDTO.IsFeatured <;>
    cases showDTO.IsActive <;> exact ⟨rfl, rfl⟩

theorem showService.validateShowDates_passed (s : showService σ) (row : ShowRow)
    (startDate endDate : Option Time) (hstart : row.StartDate = startDate)
    (hend : row.EndDate = endDate) (h : s.validateShowDates startDate endDate = none) :
    row.datesInOrder := by
  intro first last hfirst hlast
  rw [hstart] at hfirst
  rw [hend] at hlast
  subst hfirst hlast
  by_contra hlt
  rw [not_le] at hlt
  simp [showService.validateShowDates, Time.Before, hlt] at h

theorem showService.CreateShow_hands (s : showService σ) (showDTO : ShowBase) (w : World σ)
    (m : Show) (hm : Call.ShowCreate m ∈ (s.CreateShow showDTO w).2.calls.drop w.calls.length) :
    m = ShowMapper.ToModel showDTO ∧
      s.validateShowDates showDTO.StartDate showDTO.EndDate = none := by
  simp only [showService.CreateShow, showService.validateRelationships, World.query,
    World.exec] at hm
  repeat' split at hm
  all_goals simp_all

theorem showService.UpdateShow_hands (s : showService σ) (id : UUID) (showDTO : ShowBase)
    (w : World σ) (m : Show)
    (hm : Call.ShowUpdate m ∈ (s.UpdateShow id showDTO w).2.calls.drop w.calls.length) :
    (∃ stored, s.showRepo.GetByID id w.db = .ok stored ∧
      m = ShowMapper.UpdateModel stored showDTO) ∧
      s.validateShowDates showDTO.StartDate showDTO.EndDate = none := by
  simp only [showService.UpdateShow, showService.validateRelationships, World.query,
    World.exec] at hm
  repeat' split at hm
  all_goals simp_all

theorem showService.CreateShow_ok_hands (s : showService σ) (showDTO : ShowBase) (w : World σ)
    (created : ShowDetails) (hok : (s.CreateShow showDTO w).1 = .ok created) :
    Call.ShowCreate (ShowMapper.ToModel showDTO) ∈
      (s.CreateShow showDTO w).2.calls.drop w.calls.length := by
  simp only [showService.CreateShow, showService.validateRelationships, World.query,
    World.exec] at hok ⊢
  repeat' split at hok
  all_goals simp_all

theorem showService.UpdateShow_ok_hands (s : showService σ) (id : UUID) (showDTO : ShowBase)
    (w : World σ) (updated : ShowDetails) (hok : (s.UpdateShow id showDTO w).1 = .ok updated) :
    ∃ stored, s.showRepo.GetByID id w.db = .ok stored ∧
      Call.ShowUpdate (ShowMapper.UpdateModel stored showDTO) ∈
        (s.UpdateShow id showDTO w).2.calls.drop w.calls.length := by
  simp only [showService.UpdateShow, showService.validateRelationships, World.query,
    World.exec] at hok ⊢
  repeat' split at hok
  all_goals simp_all

/-- C12. Every show model that `CreateShow` or `UpdateShow` hands to the
repository (`Create`, respectively `Update`) satisfies the date invariant: if
both `StartDate` and `EndDate` are present then `EndDate` is not before
`StartDate`. A successful `CreateShow` hands the model `ToModel(dto)`, and a
successful `UpdateShow` hands the stored show after `UpdateModel`, whatever
dates the stored show had before. -/
theorem C12_saved_show_dates_in_order (s : showService σ) (id : UUID) (showDTO : ShowBase)
    (w : World σ) :
    (∀ m, Call.ShowCreate m ∈ (s.CreateShow showDTO w).2.calls.drop w.calls.length →
      m.row.datesInOrder) ∧
    (∀ created, (s.CreateShow showDTO w).1 = .ok created →
      Call.ShowCreate (ShowMapper.ToModel showDTO) ∈
        (s.CreateShow showDTO w).2.calls.drop w.calls.length) ∧
    (∀ m, Call.ShowUpdate m ∈ (s.UpdateShow id showDTO w).2.calls.drop w.calls.length →
      m.row.datesInOrder) ∧
    (∀ updated, (s.UpdateShow id showDTO w).1 = .ok updated →
      ∃ stored, s.showRepo.GetByID id w.db = .ok stored ∧
        Call.ShowUpdate (ShowMapper.UpdateModel stored showDTO) ∈
          (s.UpdateShow id showDTO w).2.calls.drop w.calls.length) := by
  refine ⟨?_, s.CreateShow_ok_hands showDTO w, ?_, s.UpdateShow_ok_hands id showDTO w⟩
  · intro m hm
    obtain ⟨hmodel, hdates⟩ := s.CreateShow_hands showDTO w m hm
    rw [hmodel]
    exact s.validateShowDates_passed _ _ _ (ShowMapper.ToModel_dates showDTO).1
      (ShowMapper.ToModel_dates showDTO).2 hdates
  · intro m hm
    obtain ⟨⟨stored, _, hmodel⟩, hdates⟩ := s.UpdateShow_hands id showDTO w m hm
    rw [hmodel]
    exact s.validateShowDates_passed _ _ _ (ShowMapper.UpdateModel_dates stored showDTO).1
      (ShowMapper.UpdateModel_dates stored showDTO).2 hdates

/-- C12 at a concrete input: show 8 is stored with its end date before its
start date; an update with the dates 10 and 20 succeeds and hands the
repository a model whose dates are 10 and 20. -/
theorem C12_saved_show_dates_in_order_witness :
    (showServiceAllExist.UpdateShow 8 sampleShowBase ⟨(), []⟩).1.errorOf = none ∧
    ¬ storedShowBadDates.row.datesInOrder ∧
    (ShowMapper.UpdateModel storedShowBadDates sampleShowBase).row.datesInOrder ∧
    (ShowMapper.UpdateModel storedShowBadDates sampleShowBase).row.StartDate = some 10 ∧
    (ShowMapper.UpdateModel storedShowBadDates sampleShowBase).row.EndDate = some 20 := by
  have hcall : Call.ShowUpdate (ShowMapper.UpdateModel storedShowBadDates sampleShowBase) ∈
      (showServiceAllExist.UpdateShow 8 sampleShowBase ⟨(), []⟩).2.calls.drop 0 := by
    obtain ⟨stored, hstored, hmem⟩ :=
      (C12_saved_show_dates_in_order showServiceAllExist 8 sampleShowBase ⟨(), []⟩).2.2.2 _ rfl
    cases hstored
    exact hmem
  refine ⟨rfl, ?_, (C12_saved_show_dates_in_order showServiceAllExist 8 sampleShowBase
    ⟨(), []⟩).2.2.1 _ hcall, rfl, rfl⟩
  intro h
  exact absurd (h 50 5 rfl rfl) (by decide)

/-! ### The price of a show -/

theorem validator.report_of_failed (structName field tag : String)
    (fields : List (String × Option String)) (h : (field, some tag) ∈ fields) :
    ∃ msg, validator.report structName fields = some msg := by
  have hmem : validator.fieldError structName field tag ∈
      fields.filterMap (fun f => f.2.map (validator.fieldError structName f.1)) := by
    rw [List.mem_filterMap]
    exact ⟨(field, some tag), h, rfl⟩
  unfold validator.report
  split
  · rename_i hnil
    rw [hnil] at hmem
    simp at hmem
  · exact ⟨_, rfl⟩

theorem validator.StructShowBase_negative_price (isURL : String → Bool) (d : ShowBase)
    (p : Float64) (hprice : d.Price = some p) (hneg : p < 0) :
    ∃ msg, validator.StructShowBase isURL d = some msg := by
  apply validator.report_of_failed "ShowBase" "Price" "min"
  have hp : ¬ (0 ≤ p) := not_le.mpr hneg
  simp [hprice, validator.firstFailed, hp]

theorem validator.StructShowBase_price_of_passed (isURL : String → Bool) (d : ShowBase)
    (hpass : validator.StructShowBase isURL d = none) :
    d.Price = none ∨ ∃ p, d.Price = some p ∧ 0 ≤ p := by
  cases hprice : d.Price with
  | none => exact Or.inl rfl
  | some p =>
    right
    refine ⟨p, rfl, ?_⟩
    by_contra hneg
    obtain ⟨msg, hmsg⟩ :=
      validator.StructShowBase_negative_price isURL d p hprice (not_le.mp hneg)
    rw [hpass] at hmsg
    cases hmsg

theorem showService.CreateShow_hands_validated (s : showService σ) (showDTO : ShowBase)
    (w : World σ) (m : Show)
    (hm : Call.ShowCreate m ∈ (s.CreateShow showDTO w).2.calls.drop w.calls.length) :
    s.validator showDTO = none := by
  simp only [showService.CreateShow, showService.validateRelationships, World.query,
    World.exec] at hm
  repeat' split at hm
  all_goals simp_all

theorem ShowMapper.ToModel_price (showDTO : ShowBase) :
    (ShowMapper.ToModel showDTO).row.Price = showDTO.Price.getD 0 := by
  unfold ShowMapper.ToModel
  cases showDTO.Duration <;> cases showDTO.Price <;> cases showDTO.IsFeatured <;>
    cases showDTO.IsActive <;> rfl

/-- C14, as the code has it. With the struct validation of the `dto.ShowBase`
tags (`Price` carries `omitempty,min=0`): every show creation request whose
price is present and negative is rejected by `CreateShow` with the error
"Validation failed: ..." and without any repository call. So every show that
`CreateShow` hands to the repository `Create` comes from a request whose price
is absent or not negative, and its stored price is not negative. -/
theorem C14_negative_price_is_rejected (s : showService σ) (isURL : String → Bool)
    (showDTO : ShowBase) (w : World σ) (hvalidator : s.validator = validator.StructShowBase isURL) :
    (∀ p, showDTO.Price = some p → p < 0 →
      ∃ detail, s.CreateShow showDTO w =
        (.error (.New (constants.ErrorValidationFailed ++ ": " ++ detail)), w)) ∧
    (∀ m, Call.ShowCreate m ∈ (s.CreateShow showDTO w).2.calls.drop w.calls.length →
      (showDTO.Price = none ∨ ∃ p, showDTO.Price = some p ∧ 0 ≤ p) ∧ 0 ≤ m.row.Price) := by
  constructor
  · intro p hprice hneg
    obtain ⟨msg, hmsg⟩ := validator.StructShowBase_negative_price isURL showDTO p hprice hneg
    exact ⟨msg, by simp [showService.CreateShow, hvalidator, hmsg]⟩
  · intro m hm
    have hpass := s.CreateShow_hands_validated showDTO w m hm
    rw [hvalidator] at hpass
    have hprice := validator.StructShowBase_price_of_passed isURL showDTO hpass
    refine ⟨hprice, ?_⟩
    rw [(s.CreateShow_hands showDTO w m hm).1, ShowMapper.ToModel_price]
    rcases hprice with h | ⟨p, h, hp⟩
    · rw [h]
      exact le_refl _
    · rw [h]
      exact hp

/-- C14 at a concrete input: a request with price -5 is rejected, and no
repository call is made. -/
theorem C14_negative_price_is_rejected_witness :
    ∃ detail, (showServiceWithTags (fun _ => true)).CreateShow showBasePriceNegative ⟨(), []⟩ =
      (.error (.New (constants.ErrorValidationFailed ++ ": " ++ detail)), ⟨(), []⟩) :=
  (C14_negative_price_is_rejected (showServiceWithTags (fun _ => true)) (fun _ => true)
    showBasePriceNegative ⟨(), []⟩ rfl).1 (-5) rfl (by norm_num)

/-- C14 as stated fails for a price above 10000. A show request that is in
order but for its price of 20000 passes the struct validation, and
`CreateShow` never calls `ValidatePrice`, which alone knows the ceiling of
10000: over repositories in which the theatre and the show type exist, the
request is handed to `Create` with price 20000 and the operation succeeds. -/
theorem C14_counterexample :
    showBasePrice20000.Price = some 20000 ∧ (10000 : Float64) < 20000 ∧
    (∀ (vs : ValidationService), vs.ValidatePrice (some 20000) =
      some (.New ("price seems unreasonably high, got: " ++ vs.formatF 20000))) ∧
    (∀ isURL : String → Bool,
      validator.StructShowBase isURL showBasePrice20000 = none ∧
      ((showServiceWithTags isURL).CreateShow showBasePrice20000 ⟨(), []⟩).1.errorOf = none ∧
      ((showServiceWithTags isURL).CreateShow showBasePrice20000 ⟨(), []⟩).2.calls =
        [.TheatreGetByID 4, .ShowTypeGetByID 5,
          .ShowCreate (ShowMapper.ToModel showBasePrice20000), .ShowGetByID 0] ∧
      (ShowMapper.ToModel showBasePrice20000).row.Price = 20000) :=
  ⟨rfl, by norm_num, fun _ => rfl, fun _ => ⟨rfl, rfl, rfl, rfl⟩⟩

/-! ### Search patterns -/

theorem postgres.likeTokens_plain_then_percent (q : List Char)
    (hplain : ∀ c ∈ q, c ≠ '%' ∧ c ≠ '_' ∧ c ≠ '\\') :
    postgres.likeTokens false (q ++ ['%']) = q.map .literal ++ [.anyRun] := by
  induction q with
  | nil => rfl
  | cons c q ih =>
    have hc := hplain c (List.mem_cons_self _ _)
    have hq : ∀ c ∈ q, c ≠ '%' ∧ c ≠ '_' ∧ c ≠ '\\' :=
      fun x hx => hplain x (List.mem_cons_of_mem _ hx)
    rw [List.cons_append, postgres.likeTokens]
    simp only [Bool.false_eq_true, if_false, if_neg hc.1, if_neg hc.2.1, if_neg hc.2.2]
    rw [ih hq]
    rfl

theorem postgres.matchTokens_anyRun (text : List Char) :
    postgres.matchTokens [.anyRun] text = true := by
  have hmem : ([] : List Char) ∈ text.tails := by
    rw [List.mem_tails]
    exact List.nil_suffix
  rw [postgres.matchTokens, List.any_eq_true]
  exact ⟨[], hmem, rfl⟩

/-- A pattern of literal characters followed by `%` matches exactly the texts
that start with those characters, without regard to case. -/
theorem postgres.matchTokens_literals_then_anyRun (q text : List Char) :
    postgres.matchTokens (q.map .literal ++ [.anyRun]) text = true ↔
      q.map Char.toLower <+: text.map Char.toLower := by
  induction q generalizing text with
  | nil =>
    rw [List.map_nil, List.nil_append, postgres.matchTokens_anyRun]
    simp
  | cons c q ih =>
    cases text with
    | nil => simp [postgres.matchTokens]
    | cons d rest =>
      rw [List.map_cons, List.cons_append, postgres.matchTokens]
      simp only [Bool.and_eq_true, decide_eq_true_eq, List.map_cons, List.cons_prefix_cons]
      rw [ih rest]

theorem List.suffix_of_map_suffix (f : Char → Char) (text part : List Char)
    (h : part <:+ text.map f) : ∃ u, u <:+ text ∧ part = u.map f := by
  obtain ⟨front, hfront⟩ := h
  refine ⟨text.drop front.length, List.drop_suffix _ _, ?_⟩
  rw [List.map_drop, ← hfront, List.drop_left]

/-- The pattern `%q%` of a plain query `q` matches exactly the texts in which
`q` occurs, without regard to case. -/
theorem postgres.ILIKE_plain (q text : String) (hplain : plainQuery q) :
    postgres.ILIKE text ("%" ++ q ++ "%") = true ↔ occursIn q text := by
  have hdata : ("%" ++ q ++ "%").data = '%' :: (q.data ++ ['%']) := by
    simp [String.data_append]
  have htokens : postgres.likeTokens false ('%' :: (q.data ++ ['%'])) =
      .anyRun :: (q.data.map .literal ++ [.anyRun]) := by
    rw [postgres.likeTokens]
    simp only [Bool.false_eq_true, if_false]
    rw [postgres.likeTokens_plain_then_percent q.data hplain]
    rfl
  unfold postgres.ILIKE occursIn postgres.likeChars
  rw [hdata, htokens, postgres.matchTokens, List.any_eq_true]
  constructor
  · rintro ⟨u, hu, hlike⟩
    rw [List.mem_tails] at hu
    rw [postgres.matchTokens_literals_then_anyRun q.data u] at hlike
    rw [List.infix_iff_prefix_suffix]
    exact ⟨_, hlike, hu.map _⟩
  · intro hin
    rw [List.infix_iff_prefix_suffix] at hin
    obtain ⟨part, hpre, hsuf⟩ := hin
    obtain ⟨u, hu, hpart⟩ := List.suffix_of_map_suffix Char.toLower text.data part hsuf
    refine ⟨u, (List.mem_tails _ _).mpr hu, ?_⟩
    rw [postgres.matchTokens_literals_then_anyRun q.data u, ← hpart]
    exact hpre

theorem locationRepository.locationSearch_plain (q : String) (db : DB) (hplain : plainQuery q) :
    ∃ found, locationRepository.Search q db = .ok found ∧
      ∀ row, (∃ l ∈ found, l.row = row) ↔
        (row ∈ db.locations ∧ row.DeletedAt = none ∧
          (occursIn q row.Name ∨ occursIn q row.City ∨ occursIn q row.Country)) := by
  refine ⟨_, rfl, ?_⟩
  intro row
  simp only [List.mem_map, List.mem_filter, decide_eq_true_eq, postgres.ILIKE_plain _ _ hplain]
  constructor
  · rintro ⟨l, ⟨r, ⟨hr, hmatch, hlive⟩, hl⟩, hrow⟩
    rw [← hl] at hrow
    cases hrow
    exact ⟨hr, hlive, hmatch⟩
  · rintro ⟨hr, hlive, hmatch⟩
    exact ⟨_, ⟨row, ⟨hr, hmatch, hlive⟩, rfl⟩, rfl⟩

/-- C20 fails on the code. In `locationRepository.Search` the query is put
between two `%` and handed to `ILIKE` as it is, so `%`, `_` and a backslash in
it act as pattern characters: the query "_" selects the location "Rome" (Rome,
Italy) although "_" occurs in none of the searched fields. For a query without
these three characters `locationRepository.Search` does what the claim says:
it selects exactly the rows without tombstone in one of whose searched fields
the query occurs, without regard to case. `showRepository.Search` selects
nothing for any query: its condition names the column `cast`, a reserved key
word, without quotes, and the query fails to parse; the query "Hamlet" is
answered with that error although the title of the stored show is "Hamlet". -/
theorem C20_wildcard_query_selects_non_matches :
    (locationRepository.Search "_" romeDB = .ok [Location.mk romeRow []] ∧
      romeRow.Name = "Rome" ∧ romeRow.City = "Rome" ∧ romeRow.Country = "Italy" ∧
      ¬ occursIn "_" "Rome" ∧ ¬ occursIn "_" "Italy") ∧
    ((∃ msg, showRepository.Search "Hamlet" hamletDB = .error (.other msg)) ∧
      hamletDB.shows = [hamletRow] ∧ hamletRow.DeletedAt = none ∧
      occursIn "Hamlet" hamletRow.Title) ∧
    (∀ (q : String) (db : DB),
      ∃ msg, showRepository.Search q db = .error (.other msg)) ∧
    (∀ (q : String) (db : DB), plainQuery q →
      ∃ found, locationRepository.Search q db = .ok found ∧
        ∀ row, (∃ l ∈ found, l.row = row) ↔
          (row ∈ db.locations ∧ row.DeletedAt = none ∧
            (occursIn q row.Name ∨ occursIn q row.City ∨ occursIn q row.Country))) := by
  refine ⟨⟨rfl, rfl, rfl, rfl, ?_, ?_⟩, ⟨⟨_, rfl⟩, rfl, rfl, ?_⟩, fun _ _ => ⟨_, rfl⟩, ?_⟩
  · unfold occursIn; decide
  · unfold occursIn; decide
  · unfold occursIn; decide
  · intro q db hplain
    exact locationRepository.locationSearch_plain q db hplain

/-! ### Mappers: defaults, frames and loaded associations -/

/-- C21. For every creation DTO, the `ToModel` mappers set `IsActive` to the
supplied value when `is_active` is present and to true when it is absent (all
five entities), and set `IsFeatured` to the supplied value when `is_featured`
is present and to false when it is absent (Theatre and Show). -/
theorem C21_creation_defaults (locationDTO : LocationBase) (theatreTypeDTO : TheatreTypeBase)
    (showTypeDTO : ShowTypeBase) (theatreDTO : TheatreBase) (showDTO : ShowBase) :
    (LocationMapper.ToModel locationDTO).row.IsActive = locationDTO.IsActive.getD true ∧
    (TheatreTypeMapper.ToModel theatreTypeDTO).row.IsActive =
      theatreTypeDTO.IsActive.getD true ∧
    (ShowTypeMapper.ToModel showTypeDTO).row.IsActive = showTypeDTO.IsActive.getD true ∧
    (TheatreMapper.ToModel theatreDTO).row.IsActive = theatreDTO.IsActive.getD true ∧
    (ShowMapper.ToModel showDTO).row.IsActive = showDTO.IsActive.getD true ∧
    (TheatreMapper.ToModel theatreDTO).row.IsFeatured = theatreDTO.IsFeatured.getD false ∧
    (ShowMapper.ToModel showDTO).row.IsFeatured = showDTO.IsFeatured.getD false := by
  refine ⟨?_, ?_, ?_, ?_, ?_, ?_, ?_⟩
  · cases h : locationDTO.IsActive <;> simp [LocationMapper.ToModel, Location.row, h]
  · cases h : theatreTypeDTO.IsActive <;> simp [TheatreTypeMapper.ToModel, TheatreType.row, h]
  · cases h : showTypeDTO.IsActive <;> simp [ShowTypeMapper.ToModel, ShowType.row, h]
  · cases h : theatreDTO.IsActive <;> cases h2 : theatreDTO.IsFeatured <;>
      cases h3 : theatreDTO.Capacity <;> simp [TheatreMapper.ToModel, Theatre.row, h, h2, h3]
  · cases h : showDTO.IsActive <;> cases h2 : showDTO.IsFeatured <;>
      cases h3 : showDTO.Duration <;> cases h4 : showDTO.Price <;>
      simp [ShowMapper.ToModel, Show.row, h, h2, h3, h4]
  · cases h : theatreDTO.IsActive <;> cases h2 : theatreDTO.IsFeatured <;>
      cases h3 : theatreDTO.Capacity <;> simp [TheatreMapper.ToModel, Theatre.row, h, h2, h3]
  · cases h : showDTO.IsActive <;> cases h2 : showDTO.IsFeatured <;>
      cases h3 : showDTO.Duration <;> cases h4 : showDTO.Price <;>
      simp [ShowMapper.ToModel, Show.row, h, h2, h3, h4]

/-- C22 fails on the code. `LocationMapper.UpdateModel` copies the
latitude and the longitude of the request onto the model whether they are
supplied or not, so for every stored location and every request the location
handed to the repository `Update` carries the request's latitude and
longitude; a request without them clears the stored coordinates. At the
failing input, the stored Rome (41.9, 12.5) updated with a request that only
renames it is saved, and answered, without coordinates. -/
theorem C22_update_overwrites_absent_coordinates :
    (∀ (location : Location) (locationDTO : LocationBase),
      (LocationMapper.UpdateModel location locationDTO).row.Latitude = locationDTO.Latitude ∧
      (LocationMapper.UpdateModel location locationDTO).row.Longitude =
        locationDTO.Longitude) ∧
    (∀ (s : locationService σ) (id : UUID) (locationDTO : LocationBase) (w : World σ)
        (location : Location),
      s.validator locationDTO = none → s.locationRepo.GetByID id w.db = .ok location →
      (s.UpdateLocation id locationDTO w).2.calls =
        w.calls ++ [.LocationGetByID id,
          .LocationUpdate (LocationMapper.UpdateModel location locationDTO)]) ∧
    (romeWithCoordinates.row.Latitude = some (419 / 10) ∧
     romeWithCoordinates.row.Longitude = some (25 / 2) ∧
     romeRenameBase.Latitude = none ∧ romeRenameBase.Longitude = none ∧
     (locationServiceRomeStored.UpdateLocation 1 romeRenameBase { db := (), calls := [] }).2.calls =
       [.LocationGetByID 1,
        .LocationUpdate (LocationMapper.UpdateModel romeWithCoordinates romeRenameBase)] ∧
     (LocationMapper.UpdateModel romeWithCoordinates romeRenameBase).row.Latitude = none ∧
     (LocationMapper.UpdateModel romeWithCoordinates romeRenameBase).row.Longitude = none ∧
     (locationServiceRomeStored.UpdateLocation 1 romeRenameBase { db := (), calls := [] }).1 =
       .ok (LocationMapper.ToDetailsDTO
         (LocationMapper.UpdateModel romeWithCoordinates romeRenameBase))) := by
  refine ⟨?_, ?_, rfl, rfl, rfl, rfl, rfl, rfl, rfl, rfl⟩
  · intro location locationDTO
    cases h : locationDTO.IsActive <;> simp [LocationMapper.UpdateModel, Location.row, h]
  · intro s id locationDTO w location hv hg
    simp only [locationService.UpdateLocation, hv, World.query, World.exec, hg]
    cases (s.locationRepo.Update (LocationMapper.UpdateModel location locationDTO) w.db).1.1 <;>
      simp

/-- C23, as the code has it. Absent and zero are not told apart by the mappers
for price, duration and capacity. For every `ShowBase`,
`ShowMapper.ToModel` gives the same model whether the price is absent or
present with value 0, and likewise for the duration; for every `TheatreBase`,
`TheatreMapper.ToModel` gives the same model whether the capacity is absent or
present with value 0. An absent price, duration or capacity is stored as the
zero value of its column. -/
theorem C23_absent_and_zero_give_one_model (showDTO : ShowBase) (theatreDTO : TheatreBase) :
    ShowMapper.ToModel { showDTO with Price := none } =
      ShowMapper.ToModel { showDTO with Price := some 0 } ∧
    ShowMapper.ToModel { showDTO with Duration := none } =
      ShowMapper.ToModel { showDTO with Duration := some 0 } ∧
    TheatreMapper.ToModel { theatreDTO with Capacity := none } =
      TheatreMapper.ToModel { theatreDTO with Capacity := some 0 } ∧
    (ShowMapper.ToModel { showDTO with Price := none }).row.Price = 0 ∧
    (ShowMapper.ToModel { showDTO with Duration := none }).row.Duration = 0 ∧
    (TheatreMapper.ToModel { theatreDTO with Capacity := none }).row.Capacity = 0 := by
  refine ⟨?_, ?_, ?_, ?_, ?_, ?_⟩
  · cases h : showDTO.IsActive <;> cases h2 : showDTO.IsFeatured <;>
      cases h3 : showDTO.Duration <;> simp [ShowMapper.ToModel, ShowRow.zero, h, h2, h3]
  · cases h : showDTO.IsActive <;> cases h2 : showDTO.IsFeatured <;>
      cases h4 : showDTO.Price <;> simp [ShowMapper.ToModel, ShowRow.zero, h, h2, h4]
  · cases h : theatreDTO.IsActive <;> cases h2 : theatreDTO.IsFeatured <;>
      simp [TheatreMapper.ToModel, TheatreRow.zero, h, h2]
  · cases h : showDTO.IsActive <;> cases h2 : showDTO.IsFeatured <;>
      cases h3 : showDTO.Duration <;>
      simp [ShowMapper.ToModel, ShowRow.zero, Show.row, h, h2, h3]
  · cases h : showDTO.IsActive <;> cases h2 : showDTO.IsFeatured <;>
      cases h4 : showDTO.Price <;> simp [ShowMapper.ToModel, ShowRow.zero, Show.row, h, h2, h4]
  · cases h : theatreDTO.IsActive <;> cases h2 : theatreDTO.IsFeatured <;>
      simp [TheatreMapper.ToModel, TheatreRow.zero, Theatre.row, h, h2]

/-- C23 as stated fails: the two requests `sampleShowBase` with the
price absent and with the price present and 0 differ, and `ShowMapper.ToModel`
gives one and the same model for both, with the price 0. -/
theorem C23_counterexample :
    ({ sampleShowBase with Price := none } : ShowBase) ≠
      { sampleShowBase with Price := some 0 } ∧
    ShowMapper.ToModel { sampleShowBase with Price := none } =
      ShowMapper.ToModel { sampleShowBase with Price := some 0 } ∧
    (ShowMapper.ToModel { sampleShowBase with Price := none }).row.Price = 0 := by
  refine ⟨by decide, rfl, rfl⟩

/-- C25 fails on the code. Each test "if loaded" compares the ID of
the association with itself, so it never holds, and for every theatre and
every show the summary and details DTOs carry the zero value in `Location`,
`TheatreType`, `Theatre` and `ShowType`, whatever is loaded. At the failing
input, the theatre `globeWithRome` has the location Rome (ID 1) loaded and its
DTOs do not carry `LocationMapper.ToSummaryDTO` of it; likewise for the show
`hamletAtGlobe` and its theatre. -/
theorem C25_loaded_associations_are_dropped :
    (∀ theatre : Theatre,
      (TheatreMapper.ToSummaryDTO theatre).Location = LocationSummary.zero ∧
      (TheatreMapper.ToSummaryDTO theatre).TheatreType = TheatreTypeSummary.zero ∧
      (TheatreMapper.ToDetailsDTO theatre).Location = LocationSummary.zero ∧
      (TheatreMapper.ToDetailsDTO theatre).TheatreType = TheatreTypeSummary.zero) ∧
    (∀ theShow : Show,
      (ShowMapper.ToSummaryDTO theShow).Theatre = TheatreSummary.zero ∧
      (ShowMapper.ToSummaryDTO theShow).ShowType = ShowTypeSummary.zero ∧
      (ShowMapper.ToDetailsDTO theShow).Theatre = TheatreSummary.zero ∧
      (ShowMapper.ToDetailsDTO theShow).ShowType = ShowTypeSummary.zero) ∧
    (globeWithRome.Location.row.ID ≠ uuid.Nil ∧
     globeWithRome.TheatreType.row.ID ≠ uuid.Nil ∧
     (TheatreMapper.ToSummaryDTO globeWithRome).Location ≠
       LocationMapper.ToSummaryDTO globeWithRome.Location ∧
     (TheatreMapper.ToDetailsDTO globeWithRome).Location ≠
       LocationMapper.ToSummaryDTO globeWithRome.Location ∧
     (TheatreMapper.ToSummaryDTO globeWithRome).TheatreType ≠
       TheatreTypeMapper.ToSummaryDTO globeWithRome.TheatreType ∧
     (TheatreMapper.ToDetailsDTO globeWithRome).TheatreType ≠
       TheatreTypeMapper.ToSummaryDTO globeWithRome.TheatreType) ∧
    (hamletAtGlobe.Theatre.row.ID ≠ uuid.Nil ∧
     hamletAtGlobe.ShowType.row.ID ≠ uuid.Nil ∧
     (ShowMapper.ToSummaryDTO hamletAtGlobe).Theatre ≠
       TheatreMapper.ToSummaryDTO hamletAtGlobe.Theatre ∧
     (ShowMapper.ToDetailsDTO hamletAtGlobe).Theatre ≠
       TheatreMapper.ToSummaryDTO hamletAtGlobe.Theatre ∧
     (ShowMapper.ToSummaryDTO hamletAtGlobe).ShowType ≠
       ShowTypeMapper.ToSummaryDTO hamletAtGlobe.ShowType ∧
     (ShowMapper.ToDetailsDTO hamletAtGlobe).ShowType ≠
       ShowTypeMapper.ToSummaryDTO hamletAtGlobe.ShowType) := by
  refine ⟨?_, ?_, ?_, ?_⟩
  · intro theatre
    refine ⟨?_, ?_, ?_, ?_⟩ <;>
      simp only [TheatreMapper.ToSummaryDTO, TheatreMapper.ToDetailsDTO, ne_eq, not_true_eq_false,
        if_false] <;> split_ifs <;> rfl
  · intro theShow
    refine ⟨?_, ?_, ?_, ?_⟩ <;>
      simp only [ShowMapper.ToSummaryDTO, ShowMapper.ToDetailsDTO, ne_eq, not_true_eq_false,
        if_false]
  · refine ⟨by decide, by decide, by decide, by decide, by decide, by decide⟩
  · refine ⟨by decide, by decide, by decide, by decide, by decide, by decide⟩

/-- C29. For every theatre model and `TheatreBase`, `TheatreMapper.UpdateModel`
leaves ID, CreatedAt, UpdatedAt, DeletedAt and the loaded Location,
TheatreType and Shows unchanged, and leaves Capacity, IsFeatured and IsActive
unchanged whenever the corresponding DTO field is absent;
`ShowMapper.UpdateModel` does the same for a show (loaded Theatre and
ShowType), with Duration, Price, IsFeatured and IsActive unchanged when
absent. -/
theorem C29_update_model_frame (theatre : Theatre) (theatreDTO : TheatreBase) (theShow : Show)
    (showDTO : ShowBase) :
    ((TheatreMapper.UpdateModel theatre theatreDTO).row.ID = theatre.row.ID ∧
     (TheatreMapper.UpdateModel theatre theatreDTO).row.CreatedAt = theatre.row.CreatedAt ∧
     (TheatreMapper.UpdateModel theatre theatreDTO).row.UpdatedAt = theatre.row.UpdatedAt ∧
     (TheatreMapper.UpdateModel theatre theatreDTO).row.DeletedAt = theatre.row.DeletedAt ∧
     (TheatreMapper.UpdateModel theatre theatreDTO).Location = theatre.Location ∧
     (TheatreMapper.UpdateModel theatre theatreDTO).TheatreType = theatre.TheatreType ∧
     (TheatreMapper.UpdateModel theatre theatreDTO).Shows = theatre.Shows ∧
     (theatreDTO.Capacity = none →
       (TheatreMapper.UpdateModel theatre theatreDTO).row.Capacity = theatre.row.Capacity) ∧
     (theatreDTO.IsFeatured = none →
       (TheatreMapper.UpdateModel theatre theatreDTO).row.IsFeatured =
         theatre.row.IsFeatured) ∧
     (theatreDTO.IsActive = none →
       (TheatreMapper.UpdateModel theatre theatreDTO).row.IsActive = theatre.row.IsActive)) ∧
    ((ShowMapper.UpdateModel theShow showDTO).row.ID = theShow.row.ID ∧
     (ShowMapper.UpdateModel theShow showDTO).row.CreatedAt = theShow.row.CreatedAt ∧
     (ShowMapper.UpdateModel theShow showDTO).row.UpdatedAt = theShow.row.UpdatedAt ∧
     (ShowMapper.UpdateModel theShow showDTO).row.DeletedAt = theShow.row.DeletedAt ∧
     (ShowMapper.UpdateModel theShow showDTO).Theatre = theShow.Theatre ∧
     (ShowMapper.UpdateModel theShow showDTO).ShowType = theShow.ShowType ∧
     (showDTO.Duration = none →
       (ShowMapper.UpdateModel theShow showDTO).row.Duration = theShow.row.Duration) ∧
     (showDTO.Price = none →
       (ShowMapper.UpdateModel theShow showDTO).row.Price = theShow.row.Price) ∧
     (showDTO.IsFeatured = none →
       (ShowMapper.UpdateModel theShow showDTO).row.IsFeatured = theShow.row.IsFeatured) ∧
     (showDTO.IsActive = none →
       (ShowMapper.UpdateModel theShow showDTO).row.IsActive = theShow.row.IsActive)) := by
  constructor
  · cases h : theatreDTO.IsActive <;> cases h2 : theatreDTO.IsFeatured <;>
      cases h3 : theatreDTO.Capacity <;>
      simp [TheatreMapper.UpdateModel, Theatre.row, Theatre.Location, Theatre.TheatreType,
        Theatre.Shows, h, h2, h3]
  · cases h : showDTO.IsActive <;> cases h2 : showDTO.IsFeatured <;>
      cases h3 : showDTO.Duration <;> cases h4 : showDTO.Price <;>
      simp [ShowMapper.UpdateModel, Show.row, Show.Theatre, Show.ShowType, h, h2, h3, h4]

/-- C30. The date check the show service runs agrees with the one of the
validation service: for every pair of optional dates,
`showService.validateShowDates(start, end)` returns an error if and only if
`ValidationService.ValidateDateRange(start, end)` returns an error. -/
theorem C30_show_date_check_agrees (ss : showService σ) (vs : ValidationService)
    (startDate endDate : Option Time) :
    ss.validateShowDates startDate endDate ≠ none ↔
      vs.ValidateDateRange startDate endDate ≠ none := by
  cases startDate <;> cases endDate <;>
    simp only [showService.validateShowDates, ValidationService.ValidateDateRange]
  split_ifs <;> simp

/-! ### The current and the upcoming shows -/

theorem showRepository.rows_of_loaded (db : DB) (rows : List ShowRow) :
    (rows.map (fun r =>
      Show.mk r (db.theatreOfShow r.TheatreID) (db.showTypeOfShow r.ShowTypeID))).map Show.row =
      rows := by
  induction rows with
  | nil => rfl
  | cons r rows ih => simpa [Show.row] using ih

theorem postgres.AND_eq_true (a b : Option Bool) :
    postgres.AND a b = some true ↔ a = some true ∧ b = some true := by
  rcases a with _ | (_ | _) <;> rcases b with _ | (_ | _) <;> simp [postgres.AND]

theorem postgres.OR_eq_true (a b : Option Bool) :
    postgres.OR a b = some true ↔ a = some true ∨ b = some true := by
  rcases a with _ | (_ | _) <;> rcases b with _ | (_ | _) <;> simp [postgres.OR]

theorem postgres.LE_eq_true (a : Option Time) (now : Time) :
    postgres.LE a (some now) = some true ↔ ∃ t, a = some t ∧ t ≤ now := by
  cases a <;> simp [postgres.LE]

theorem postgres.GE_eq_true (a : Option Time) (now : Time) :
    postgres.GE a (some now) = some true ↔ ∃ t, a = some t ∧ t ≥ now := by
  cases a <;> simp [postgres.GE]

theorem postgres.GT_eq_true (a : Option Time) (now : Time) :
    postgres.GT a (some now) = some true ↔ ∃ t, a = some t ∧ t > now := by
  cases a <;> simp [postgres.GT]

theorem postgres.IS_NULL_eq_true {α : Type} (a : Option α) :
    postgres.IS_NULL a = some true ↔ a = none := by
  cases a <;> simp [postgres.IS_NULL]

theorem postgres.EQ_true_eq_true (a : Bool) :
    postgres.EQ a true = some true ↔ a = true := by
  cases a <;> simp [postgres.EQ]

theorem showRepository.mem_currentShows (db : DB) (r : ShowRow) :
    r ∈ selectedRows (showRepository.GetCurrentShows db) ↔
      (r ∈ db.shows ∧ r.DeletedAt = none) ∧ r.IsActive = true ∧
        (∃ startDate, r.StartDate = some startDate ∧ startDate ≤ db.now) ∧
        (r.EndDate = none ∨ ∃ endDate, r.EndDate = some endDate ∧ endDate ≥ db.now) := by
  unfold showRepository.GetCurrentShows selectedRows
  simp only [showRepository.rows_of_loaded, List.mem_filter, decide_eq_true_eq,
    postgres.AND_eq_true, postgres.OR_eq_true, postgres.LE_eq_true, postgres.GE_eq_true,
    postgres.IS_NULL_eq_true, postgres.EQ_true_eq_true]
  tauto

theorem showRepository.mem_upcomingShows (db : DB) (r : ShowRow) :
    r ∈ selectedRows (showRepository.GetUpcomingShows db) ↔
      (r ∈ db.shows ∧ r.DeletedAt = none) ∧ r.IsActive = true ∧
        ∃ startDate, r.StartDate = some startDate ∧ startDate > db.now := by
  unfold showRepository.GetUpcomingShows selectedRows
  simp only [showRepository.rows_of_loaded, List.mem_filter, decide_eq_true_eq,
    postgres.AND_eq_true, postgres.GT_eq_true, postgres.EQ_true_eq_true]
  tauto

/-- C24. For every instant now (the clock of the store) and every non-deleted
show of the store, `GetCurrentShows` selects the show if and only if it is
active, its start date is present and `<= now`, and its end date is absent or
`>= now`; `GetUpcomingShows` selects it if and only if it is active and its
start date is present and `> now`. -/
theorem C24_current_and_upcoming_filters (db : DB) (r : ShowRow) (hmem : r ∈ db.shows)
    (hlive : r.DeletedAt = none) :
    (r ∈ selectedRows (showRepository.GetCurrentShows db) ↔
      r.IsActive = true ∧
        (∃ startDate, r.StartDate = some startDate ∧ startDate ≤ db.now) ∧
        (r.EndDate = none ∨ ∃ endDate, r.EndDate = some endDate ∧ endDate ≥ db.now)) ∧
    (r ∈ selectedRows (showRepository.GetUpcomingShows db) ↔
      r.IsActive = true ∧ ∃ startDate, r.StartDate = some startDate ∧ startDate > db.now) := by
  rw [showRepository.mem_currentShows, showRepository.mem_upcomingShows]
  exact ⟨⟨fun h => h.2, fun h => ⟨⟨hmem, hlive⟩, h⟩⟩, ⟨fun h => h.2, fun h => ⟨⟨hmem, hlive⟩, h⟩⟩⟩

theorem C24_current_and_upcoming_filters_witness :
    (macbethRow ∈ festivalDB.shows ∧ macbethRow.DeletedAt = none) ∧
    ((macbethRow ∈ selectedRows (showRepository.GetCurrentShows festivalDB) ↔
      macbethRow.IsActive = true ∧
        (∃ startDate, macbethRow.StartDate = some startDate ∧ startDate ≤ festivalDB.now) ∧
        (macbethRow.EndDate = none ∨
          ∃ endDate, macbethRow.EndDate = some endDate ∧ endDate ≥ festivalDB.now)) ∧
    (macbethRow ∈ selectedRows (showRepository.GetUpcomingShows festivalDB) ↔
      macbethRow.IsActive = true ∧
        ∃ startDate, macbethRow.StartDate = some startDate ∧ startDate > festivalDB.now)) ∧
    selectedRows (showRepository.GetCurrentShows festivalDB) = [macbethRow] ∧
    selectedRows (showRepository.GetUpcomingShows festivalDB) = [othelloRow] :=
  ⟨⟨by decide, rfl⟩,
    C24_current_and_upcoming_filters festivalDB macbethRow (by decide) rfl, by decide, by decide⟩

/-- C28. For every instant now (the clock of the store), no show is selected
by both `GetCurrentShows` and `GetUpcomingShows`, and a show whose start date
is absent is selected by neither, whatever its active flag and end date. -/
theorem C28_current_and_upcoming_disjoint (db : DB) (r : ShowRow) :
    ¬ (r ∈ selectedRows (showRepository.GetCurrentShows db) ∧
        r ∈ selectedRows (showRepository.GetUpcomingShows db)) ∧
    (r.StartDate = none →
      r ∉ selectedRows (showRepository.GetCurrentShows db) ∧
      r ∉ selectedRows (showRepository.GetUpcomingShows db)) := by
  rw [showRepository.mem_currentShows, showRepository.mem_upcomingShows]
  constructor
  · rintro ⟨⟨-, -, ⟨s, hs, hle⟩, -⟩, ⟨-, -, ⟨s2, hs2, hgt⟩⟩⟩
    rw [hs] at hs2
    cases hs2
    exact absurd hle (not_le.mpr hgt)
  · intro hnone
    constructor
    · rintro ⟨-, -, ⟨s, hs, -⟩, -⟩
      rw [hnone] at hs
      cases hs
    · rintro ⟨-, -, ⟨s, hs, -⟩⟩
      rw [hnone] at hs
      cases hs

/-! ### The pagination clamp of the controllers and of the services -/

theorem contractLimit_range (limit : Int) :
    1 ≤ contractLimit limit ∧ contractLimit limit ≤ 100 := by
  unfold contractLimit
  split_ifs <;> omega

theorem contractOffset_nonneg (offset : Int) : 0 ≤ contractOffset offset := by
  unfold contractOffset
  split_ifs <;> omega

theorem contractLimit_idem (limit : Int) :
    contractLimit (contractLimit limit) = contractLimit limit := by
  unfold contractLimit
  split_ifs <;> omega

theorem contractOffset_idem (offset : Int) :
    contractOffset (contractOffset offset) = contractOffset offset := by
  unfold contractOffset
  split_ifs <;> omega

theorem GetPaginationParams_of_bound {α : Type} (c : gin.Context α) (p : PaginationParams)
    (h : c.ShouldBindQuery
      { Limit := constants.DefaultLimit, Offset := constants.DefaultOffset } = .ok p) :
    GetPaginationParams c =
      { Limit := contractLimit p.Limit, Offset := contractOffset p.Offset } := by
  simp only [GetPaginationParams, h, ← clampedLimit_eq, ← clampedOffset_eq]
  split_ifs <;> rfl

theorem GetPaginationParams_of_error {α : Type} (c : gin.Context α) (err : GoError)
    (h : c.ShouldBindQuery
      { Limit := constants.DefaultLimit, Offset := constants.DefaultOffset } = .error err) :
    GetPaginationParams c =
      { Limit := constants.DefaultLimit, Offset := constants.DefaultOffset } := by
  simp only [GetPaginationParams, h]
  rfl

theorem GetPaginationParams_clamped {α : Type} (c : gin.Context α) :
    contractLimit (GetPaginationParams c).Limit = (GetPaginationParams c).Limit ∧
    contractOffset (GetPaginationParams c).Offset = (GetPaginationParams c).Offset := by
  cases h : c.ShouldBindQuery
      { Limit := constants.DefaultLimit, Offset := constants.DefaultOffset } with
  | error err => rw [GetPaginationParams_of_error c err h]; exact ⟨rfl, rfl⟩
  | ok p =>
    rw [GetPaginationParams_of_bound c p h]
    exact ⟨contractLimit_idem _, contractOffset_idem _⟩

theorem LocationController.GetAllLocations_world {α : Type} (ctrl : LocationController σ)
    (c : gin.Context α) (w : World σ) :
    (ctrl.GetAllLocations c w).2 =
      (ctrl.locationService.GetAllLocations (GetPaginationParams c).Limit
        (GetPaginationParams c).Offset w).2 := by
  simp only [LocationController.GetAllLocations]
  split <;> rfl

theorem TheatreTypeController.GetAllTheatreTypes_world {α : Type}
    (ctrl : TheatreTypeController σ) (c : gin.Context α) (w : World σ) :
    (ctrl.GetAllTheatreTypes c w).2 =
      (ctrl.theatreTypeService.GetAllTheatreTypes (GetPaginationParams c).Limit
        (GetPaginationParams c).Offset w).2 := by
  simp only [TheatreTypeController.GetAllTheatreTypes]
  split <;> rfl

theorem ShowTypeController.GetAllShowTypes_world {α : Type} (ctrl : ShowTypeController σ)
    (c : gin.Context α) (w : World σ) :
    (ctrl.GetAllShowTypes c w).2 =
      (ctrl.showTypeService.GetAllShowTypes (GetPaginationParams c).Limit
        (GetPaginationParams c).Offset w).2 := by
  simp only [ShowTypeController.GetAllShowTypes]
  split <;> rfl

theorem TheatreController.GetAllTheatres_world {α : Type} (ctrl : TheatreController σ)
    (c : gin.Context α) (w : World σ) :
    (ctrl.GetAllTheatres c w).2 =
      (ctrl.theatreService.GetAllTheatres (GetPaginationParams c).Limit
        (GetPaginationParams c).Offset w).2 := by
  simp only [TheatreController.GetAllTheatres]
  split <;> rfl

theorem ShowController.GetAllShows_world {α : Type} (ctrl : ShowController σ)
    (c : gin.Context α) (w : World σ) :
    (ctrl.GetAllShows c w).2 =
      (ctrl.showService.GetAllShows (GetPaginationParams c).Limit
        (GetPaginationParams c).Offset w).2 := by
  simp only [ShowController.GetAllShows]
  split <;> rfl

/-- C27. The pagination clamp is idempotent and range-establishing. For every
integer limit and offset, each listing service calls its repository with a
pair `(limit2, offset2)` such that `1 <= limit2 <= 100` and `offset2 >= 0`,
and run on that pair it runs exactly as on the given one (clamping a clamped
pair changes nothing). For every request, `GetPaginationParams` returns a pair
in that range, returns the same pair again when the query binds to that pair,
and each listing handler (controller clamp, then service clamp) calls the
repository with the pair of `GetPaginationParams`, the same call the service
alone makes on the values the query was bound to. -/
theorem C27_pagination_clamp_idempotent {α : Type} (c : gin.Context α) (limit offset : Int)
    (lc : LocationController σ) (ttc : TheatreTypeController σ) (stc : ShowTypeController σ)
    (tc : TheatreController σ) (sc : ShowController σ) (w : World σ) :
    (∃ limit2 offset2, (1 ≤ limit2 ∧ limit2 ≤ 100 ∧ 0 ≤ offset2) ∧
      ((lc.locationService.GetAllLocations limit offset w).2.calls =
          w.calls ++ [.LocationGetAll limit2 offset2] ∧
       (ttc.theatreTypeService.GetAllTheatreTypes limit offset w).2.calls =
          w.calls ++ [.TheatreTypeGetAll limit2 offset2] ∧
       (stc.showTypeService.GetAllShowTypes limit offset w).2.calls =
          w.calls ++ [.ShowTypeGetAll limit2 offset2] ∧
       (tc.theatreService.GetAllTheatres limit offset w).2.calls =
          w.calls ++ [.TheatreGetAll limit2 offset2] ∧
       (sc.showService.GetAllShows limit offset w).2.calls =
          w.calls ++ [.ShowGetAll limit2 offset2]) ∧
      (lc.locationService.GetAllLocations limit2 offset2 w =
          lc.locationService.GetAllLocations limit offset w ∧
       ttc.theatreTypeService.GetAllTheatreTypes limit2 offset2 w =
          ttc.theatreTypeService.GetAllTheatreTypes limit offset w ∧
       stc.showTypeService.GetAllShowTypes limit2 offset2 w =
          stc.showTypeService.GetAllShowTypes limit offset w ∧
       tc.theatreService.GetAllTheatres limit2 offset2 w =
          tc.theatreService.GetAllTheatres limit offset w ∧
       sc.showService.GetAllShows limit2 offset2 w =
          sc.showService.GetAllShows limit offset w)) ∧
    (1 ≤ (GetPaginationParams c).Limit ∧ (GetPaginationParams c).Limit ≤ 100 ∧
      0 ≤ (GetPaginationParams c).Offset) ∧
    (∀ c2 : gin.Context α,
      c2.ShouldBindQuery
          { Limit := constants.DefaultLimit, Offset := constants.DefaultOffset } =
        .ok (GetPaginationParams c) →
      GetPaginationParams c2 = GetPaginationParams c) ∧
    ((lc.GetAllLocations c w).2.calls =
        w.calls ++ [.LocationGetAll (GetPaginationParams c).Limit (GetPaginationParams c).Offset] ∧
     (ttc.GetAllTheatreTypes c w).2.calls =
        w.calls ++
          [.TheatreTypeGetAll (GetPaginationParams c).Limit (GetPaginationParams c).Offset] ∧
     (stc.GetAllShowTypes c w).2.calls =
        w.calls ++ [.ShowTypeGetAll (GetPaginationParams c).Limit (GetPaginationParams c).Offset] ∧
     (tc.GetAllTheatres c w).2.calls =
        w.calls ++ [.TheatreGetAll (GetPaginationParams c).Limit (GetPaginationParams c).Offset] ∧
     (sc.GetAllShows c w).2.calls =
        w.calls ++ [.ShowGetAll (GetPaginationParams c).Limit (GetPaginationParams c).Offset]) ∧
    (∀ p : PaginationParams,
      c.ShouldBindQuery
          { Limit := constants.DefaultLimit, Offset := constants.DefaultOffset } = .ok p →
      (lc.GetAllLocations c w).2 = (lc.locationService.GetAllLocations p.Limit p.Offset w).2 ∧
      (ttc.GetAllTheatreTypes c w).2 =
        (ttc.theatreTypeService.GetAllTheatreTypes p.Limit p.Offset w).2 ∧
      (stc.GetAllShowTypes c w).2 = (stc.showTypeService.GetAllShowTypes p.Limit p.Offset w).2 ∧
      (tc.GetAllTheatres c w).2 = (tc.theatreService.GetAllTheatres p.Limit p.Offset w).2 ∧
      (sc.GetAllShows c w).2 = (sc.showService.GetAllShows p.Limit p.Offset w).2) := by
  have hc := GetPaginationParams_clamped c
  refine ⟨⟨contractLimit limit, contractOffset offset,
    ⟨(contractLimit_range limit).1, (contractLimit_range limit).2, contractOffset_nonneg offset⟩,
    ?_, ?_⟩, ?_, ?_, ?_, ?_⟩
  · simp only [locationService.GetAllLocations_eq, theatreTypeService.GetAllTheatreTypes_eq,
      showTypeService.GetAllShowTypes_eq, theatreService.GetAllTheatres_eq,
      showService.GetAllShows_eq, and_self]
  · simp only [locationService.GetAllLocations_eq, theatreTypeService.GetAllTheatreTypes_eq,
      showTypeService.GetAllShowTypes_eq, theatreService.GetAllTheatres_eq,
      showService.GetAllShows_eq, contractLimit_idem, contractOffset_idem, and_self]
  · rw [← hc.1, ← hc.2]
    exact ⟨(contractLimit_range _).1, (contractLimit_range _).2, contractOffset_nonneg _⟩
  · intro c2 h2
    rw [GetPaginationParams_of_bound c2 _ h2, hc.1, hc.2]
  · simp only [LocationController.GetAllLocations_world,
      TheatreTypeController.GetAllTheatreTypes_world, ShowTypeController.GetAllShowTypes_world,
      TheatreController.GetAllTheatres_world, ShowController.GetAllShows_world,
      locationService.GetAllLocations_eq, theatreTypeService.GetAllTheatreTypes_eq,
      showTypeService.GetAllShowTypes_eq, theatreService.GetAllTheatres_eq,
      showService.GetAllShows_eq, hc.1, hc.2, and_self]
  · intro p hp
    simp only [LocationController.GetAllLocations_world,
      TheatreTypeController.GetAllTheatreTypes_world, ShowTypeController.GetAllShowTypes_world,
      TheatreController.GetAllTheatres_world, ShowController.GetAllShows_world,
      locationService.GetAllLocations_eq, theatreTypeService.GetAllTheatreTypes_eq,
      showTypeService.GetAllShowTypes_eq, theatreService.GetAllTheatres_eq,
      showService.GetAllShows_eq, GetPaginationParams_of_bound c p hp, contractLimit_idem,
      contractOffset_idem, and_self]

/-! ### Validation and uniqueness errors at the controllers -/

theorem String.append_ne_of_longer (p d c : String) (h : c.length < p.length) : p ++ d ≠ c := by
  intro heq
  have hlen := congrArg String.length heq
  rw [String.length_append] at hlen
  omega

theorem String.append_ne_of_head (p d c : String) (a b : Char) (rest rest2 : List Char)
    (hp : p.data = a :: rest) (hc : c.data = b :: rest2) (hab : a ≠ b) : p ++ d ≠ c := by
  intro heq
  have hdata := congrArg String.data heq
  rw [String.data_append, hp, hc] at hdata
  exact hab (List.cons.inj hdata).1

/-- The text of a validation error or of a uniqueness error made by a service
equals none of the constants a handler compares the error text with. -/
theorem GoError.made_ne_constants (detail : String) (e : GoError)
    (h : e = .New (constants.ErrorValidationFailed ++ ": " ++ detail) ∨
      e = .New (constants.ErrorDuplicateEntry ++ ": " ++ detail)) :
    e.Error ≠ constants.ErrorValidationFailed ∧ e.Error ≠ constants.ErrorDuplicateEntry ∧
    e.Error ≠ constants.ErrorLocationNotFound ∧ e.Error ≠ constants.ErrorTheatreNotFound ∧
    e.Error ≠ constants.ErrorShowNotFound ∧ e.Error ≠ constants.ErrorTheatreTypeNotFound ∧
    e.Error ≠ constants.ErrorShowTypeNotFound := by
  rcases h with h | h <;> subst h <;> simp only [GoError.Error]
  · refine ⟨String.append_ne_of_longer _ _ _ (by decide),
      String.append_ne_of_longer _ _ _ (by decide),
      String.append_ne_of_head _ _ _ 'V' 'L' _ _ rfl rfl (by decide),
      String.append_ne_of_head _ _ _ 'V' 'T' _ _ rfl rfl (by decide),
      String.append_ne_of_head _ _ _ 'V' 'S' _ _ rfl rfl (by decide),
      String.append_ne_of_head _ _ _ 'V' 'T' _ _ rfl rfl (by decide),
      String.append_ne_of_head _ _ _ 'V' 'S' _ _ rfl rfl (by decide)⟩
  · refine ⟨String.append_ne_of_head _ _ _ 'D' 'V' _ _ rfl rfl (by decide),
      String.append_ne_of_longer _ _ _ (by decide),
      String.append_ne_of_head _ _ _ 'D' 'L' _ _ rfl rfl (by decide),
      String.append_ne_of_head _ _ _ 'D' 'T' _ _ rfl rfl (by decide),
      String.append_ne_of_head _ _ _ 'D' 'S' _ _ rfl rfl (by decide),
      String.append_ne_of_head _ _ _ 'D' 'T' _ _ rfl rfl (by decide),
      String.append_ne_of_head _ _ _ 'D' 'S' _ _ rfl rfl (by decide)⟩

theorem LocationController.CreateLocation_answers_500 (ctrl : LocationController σ)
    (c : gin.Context LocationBase) (w : World σ) (dto : LocationBase)
    (detail : String) (e : GoError)
    (hb : c.ShouldBindJSON = .ok dto)
    (he : (ctrl.locationService.CreateLocation dto w).1 = .error e)
    (h : e = .New (constants.ErrorValidationFailed ++ ": " ++ detail) ∨
      e = .New (constants.ErrorDuplicateEntry ++ ": " ++ detail)) :
    (ctrl.CreateLocation c w).1 = InternalServerErrorResponse e := by
  obtain ⟨h1, h2, h3, h4, h5, h6, h7⟩ := GoError.made_ne_constants detail e h
  simp only [LocationController.CreateLocation, hb, he]
  simp [h1, h2, h3, h4, h5, h6, h7]

theorem LocationController.UpdateLocation_answers_500 (ctrl : LocationController σ)
    (c : gin.Context LocationBase) (w : World σ) (id : UUID) (dto : LocationBase)
    (detail : String) (e : GoError)
    (hid : c.ParamID = .ok id) (hb : c.ShouldBindJSON = .ok dto)
    (he : (ctrl.locationService.UpdateLocation id dto w).1 = .error e)
    (h : e = .New (constants.ErrorValidationFailed ++ ": " ++ detail) ∨
      e = .New (constants.ErrorDuplicateEntry ++ ": " ++ detail)) :
    (ctrl.UpdateLocation c w).1 = InternalServerErrorResponse e := by
  obtain ⟨h1, h2, h3, h4, h5, h6, h7⟩ := GoError.made_ne_constants detail e h
  simp only [LocationController.UpdateLocation, hid, hb, he]
  simp [h1, h2, h3, h4, h5, h6, h7]

theorem TheatreTypeController.CreateTheatreType_answers_500 (ctrl : TheatreTypeController σ)
    (c : gin.Context TheatreTypeBase) (w : World σ) (dto : TheatreTypeBase)
    (detail : String) (e : GoError)
    (hb : c.ShouldBindJSON = .ok dto)
    (he : (ctrl.theatreTypeService.CreateTheatreType dto w).1 = .error e)
    (h : e = .New (constants.ErrorValidationFailed ++ ": " ++ detail) ∨
      e = .New (constants.ErrorDuplicateEntry ++ ": " ++ detail)) :
    (ctrl.CreateTheatreType c w).1 = InternalServerErrorResponse e := by
  obtain ⟨h1, h2, h3, h4, h5, h6, h7⟩ := GoError.made_ne_constants detail e h
  simp only [TheatreTypeController.CreateTheatreType, hb, he]
  simp [h1, h2, h3, h4, h5, h6, h7]

theorem TheatreTypeController.UpdateTheatreType_answers_500 (ctrl : TheatreTypeController σ)
    (c : gin.Context TheatreTypeBase) (w : World σ) (id : UUID) (dto : TheatreTypeBase)
    (detail : String) (e : GoError)
    (hid : c.ParamID = .ok id) (hb : c.ShouldBindJSON = .ok dto)
    (he : (ctrl.theatreTypeService.UpdateTheatreType id dto w).1 = .error e)
    (h : e = .New (constants.ErrorValidationFailed ++ ": " ++ detail) ∨
      e = .New (constants.ErrorDuplicateEntry ++ ": " ++ detail)) :
    (ctrl.UpdateTheatreType c w).1 = InternalServerErrorResponse e := by
  obtain ⟨h1, h2, h3, h4, h5, h6, h7⟩ := GoError.made_ne_constants detail e h
  simp only [TheatreTypeController.UpdateTheatreType, hid, hb, he]
  simp [h1, h2, h3, h4, h5, h6, h7]

theorem ShowTypeController.CreateShowType_answers_500 (ctrl : ShowTypeController σ)
    (c : gin.Context ShowTypeBase) (w : World σ) (dto : ShowTypeBase)
    (detail : String) (e : GoError)
    (hb : c.ShouldBindJSON = .ok dto)
    (he : (ctrl.showTypeService.CreateShowType dto w).1 = .error e)
    (h : e = .New (constants.ErrorValidationFailed ++ ": " ++ detail) ∨
      e = .New (constants.ErrorDuplicateEntry ++ ": " ++ detail)) :
    (ctrl.CreateShowType c w).1 = InternalServerErrorResponse e := by
  obtain ⟨h1, h2, h3, h4, h5, h6, h7⟩ := GoError.made_ne_constants detail e h
  simp only [ShowTypeController.CreateShowType, hb, he]
  simp [h1, h2, h3, h4, h5, h6, h7]

theorem ShowTypeController.UpdateShowType_answers_500 (ctrl : ShowTypeController σ)
    (c : gin.Context ShowTypeBase) (w : World σ) (id : UUID) (dto : ShowTypeBase)
    (detail : String) (e : GoError)
    (hid : c.ParamID = .ok id) (hb : c.ShouldBindJSON = .ok dto)
    (he : (ctrl.showTypeService.UpdateShowType id dto w).1 = .error e)
    (h : e = .New (constants.ErrorValidationFailed ++ ": " ++ detail) ∨
      e = .New (constants.ErrorDuplicateEntry ++ ": " ++ detail)) :
    (ctrl.UpdateShowType c w).1 = InternalServerErrorResponse e := by
  obtain ⟨h1, h2, h3, h4, h5, h6, h7⟩ := GoError.made_ne_constants detail e h
  simp only [ShowTypeController.UpdateShowType, hid, hb, he]
  simp [h1, h2, h3, h4, h5, h6, h7]

theorem TheatreController.CreateTheatre_answers_500 (ctrl : TheatreController σ)
    (c : gin.Context TheatreBase) (w : World σ) (dto : TheatreBase) (detail : String) (e : GoError)
    (hb : c.ShouldBindJSON = .ok dto)
    (he : (ctrl.theatreService.CreateTheatre dto w).1 = .error e)
    (h : e = .New (constants.ErrorValidationFailed ++ ": " ++ detail) ∨
      e = .New (constants.ErrorDuplicateEntry ++ ": " ++ detail)) :
    (ctrl.CreateTheatre c w).1 = InternalServerErrorResponse e := by
  obtain ⟨h1, h2, h3, h4, h5, h6, h7⟩ := GoError.made_ne_constants detail e h
  simp only [TheatreController.CreateTheatre, hb, he]
  simp [h1, h2, h3, h4, h5, h6, h7]

theorem TheatreController.UpdateTheatre_answers_500 (ctrl : TheatreController σ)
    (c : gin.Context TheatreBase) (w : World σ) (id : UUID) (dto : TheatreBase)
    (detail : String) (e : GoError)
    (hid : c.ParamID = .ok id) (hb : c.ShouldBindJSON = .ok dto)
    (he : (ctrl.theatreService.UpdateTheatre id dto w).1 = .error e)
    (h : e = .New (constants.ErrorValidationFailed ++ ": " ++ detail) ∨
      e = .New (constants.ErrorDuplicateEntry ++ ": " ++ detail)) :
    (ctrl.UpdateTheatre c w).1 = InternalServerErrorResponse e := by
  obtain ⟨h1, h2, h3, h4, h5, h6, h7⟩ := GoError.made_ne_constants detail e h
  simp only [TheatreController.UpdateTheatre, hid, hb, he]
  simp [h1, h2, h3, h4, h5, h6, h7]

theorem ShowController.CreateShow_answers_500 (ctrl : ShowController σ)
    (c : gin.Context ShowBase) (w : World σ) (dto : ShowBase) (detail : String) (e : GoError)
    (hb : c.ShouldBindJSON = .ok dto)
    (he : (ctrl.showService.CreateShow dto w).1 = .error e)
    (h : e = .New (constants.ErrorValidationFailed ++ ": " ++ detail) ∨
      e = .New (constants.ErrorDuplicateEntry ++ ": " ++ detail)) :
    (ctrl.CreateShow c w).1 = InternalServerErrorResponse e := by
  obtain ⟨h1, h2, h3, h4, h5, h6, h7⟩ := GoError.made_ne_constants detail e h
  simp only [ShowController.CreateShow, hb, he]
  simp [h1, h2, h3, h4, h5, h6, h7]

theorem ShowController.UpdateShow_answers_500 (ctrl : ShowController σ)
    (c : gin.Context ShowBase) (w : World σ) (id : UUID) (dto : ShowBase)
    (detail : String) (e : GoError)
    (hid : c.ParamID = .ok id) (hb : c.ShouldBindJSON = .ok dto)
    (he : (ctrl.showService.UpdateShow id dto w).1 = .error e)
    (h : e = .New (constants.ErrorValidationFailed ++ ": " ++ detail) ∨
      e = .New (constants.ErrorDuplicateEntry ++ ": " ++ detail)) :
    (ctrl.UpdateShow c w).1 = InternalServerErrorResponse e := by
  obtain ⟨h1, h2, h3, h4, h5, h6, h7⟩ := GoError.made_ne_constants detail e h
  simp only [ShowController.UpdateShow, hid, hb, he]
  simp [h1, h2, h3, h4, h5, h6, h7]

/-- C26. Every error a service returns for a struct-validation failure has the
text "Validation failed: <detail>", and every uniqueness error has the text
"Duplicate entry: <detail>", each strictly longer than the bare constant.
Consequently, for every such error, the exact-equality tests of the handlers
against `constants.ErrorValidationFailed` and `constants.ErrorDuplicateEntry`
are false, and each of the ten create and update handlers answers it through
`InternalServerErrorResponse` (HTTP 500), never through the 422 or the 400
branch. (An error of the storage layer that a service hands on unchanged is
not such an error; its text is whatever the storage layer says.) -/
theorem C26_validation_and_duplicate_errors_answer_500 (detail : String) :
    (constants.ErrorValidationFailed.length <
        (constants.ErrorValidationFailed ++ ": " ++ detail).length ∧
     constants.ErrorDuplicateEntry.length <
        (constants.ErrorDuplicateEntry ++ ": " ++ detail).length) ∧
    ((∀ (s : locationService σ) (dto : LocationBase) (w : World σ),
        s.validator dto = some detail →
        (s.CreateLocation dto w).1 =
          .error (.New (constants.ErrorValidationFailed ++ ": " ++ detail))) ∧
     (∀ (s : locationService σ) (id : UUID) (dto : LocationBase) (w : World σ),
        s.validator dto = some detail →
        (s.UpdateLocation id dto w).1 =
          .error (.New (constants.ErrorValidationFailed ++ ": " ++ detail))) ∧
     (∀ (s : theatreTypeService σ) (dto : TheatreTypeBase) (w : World σ),
        s.validator dto = some detail →
        (s.CreateTheatreType dto w).1 =
          .error (.New (constants.ErrorValidationFailed ++ ": " ++ detail))) ∧
     (∀ (s : theatreTypeService σ) (id : UUID) (dto : TheatreTypeBase) (w : World σ),
        s.validator dto = some detail →
        (s.UpdateTheatreType id dto w).1 =
          .error (.New (constants.ErrorValidationFailed ++ ": " ++ detail))) ∧
     (∀ (s : showTypeService σ) (dto : ShowTypeBase) (w : World σ),
        s.validator dto = some detail →
        (s.CreateShowType dto w).1 =
          .error (.New (constants.ErrorValidationFailed ++ ": " ++ detail))) ∧
     (∀ (s : showTypeService σ) (id : UUID) (dto : ShowTypeBase) (w : World σ),
        s.validator dto = some detail →
        (s.UpdateShowType id dto w).1 =
          .error (.New (constants.ErrorValidationFailed ++ ": " ++ detail))) ∧
     (∀ (s : theatreService σ) (dto : TheatreBase) (w : World σ),
        s.validator dto = some detail →
        (s.CreateTheatre dto w).1 =
          .error (.New (constants.ErrorValidationFailed ++ ": " ++ detail))) ∧
     (∀ (s : theatreService σ) (id : UUID) (dto : TheatreBase) (w : World σ),
        s.validator dto = some detail →
        (s.UpdateTheatre id dto w).1 =
          .error (.New (constants.ErrorValidationFailed ++ ": " ++ detail))) ∧
     (∀ (s : showService σ) (dto : ShowBase) (w : World σ),
        s.validator dto = some detail →
        (s.CreateShow dto w).1 =
          .error (.New (constants.ErrorValidationFailed ++ ": " ++ detail))) ∧
     (∀ (s : showService σ) (id : UUID) (dto : ShowBase) (w : World σ),
        s.validator dto = some detail →
        (s.UpdateShow id dto w).1 =
          .error (.New (constants.ErrorValidationFailed ++ ": " ++ detail)))) ∧
    ((∀ (s : theatreTypeService σ) (dto : TheatreTypeBase) (w : World σ)
          (existing : TheatreType),
        s.validator dto = none → s.theatreTypeRepo.GetByName dto.Name w.db = .ok existing →
        (s.CreateTheatreType dto w).1 =
          .error (.New (constants.ErrorDuplicateEntry ++ ": " ++
            "theatre type name already exists"))) ∧
     (∀ (s : theatreTypeService σ) (id : UUID) (dto : TheatreTypeBase) (w : World σ)
          (stored existing : TheatreType),
        s.validator dto = none → s.theatreTypeRepo.GetByID id w.db = .ok stored →
        stored.row.Name ≠ dto.Name → s.theatreTypeRepo.GetByName dto.Name w.db = .ok existing →
        existing.row.ID ≠ id →
        (s.UpdateTheatreType id dto w).1 =
          .error (.New (constants.ErrorDuplicateEntry ++ ": " ++
            "theatre type name already exists"))) ∧
     (∀ (s : showTypeService σ) (dto : ShowTypeBase) (w : World σ) (existing : ShowType),
        s.validator dto = none → s.showTypeRepo.GetByName dto.Name w.db = .ok existing →
        (s.CreateShowType dto w).1 =
          .error (.New (constants.ErrorDuplicateEntry ++ ": " ++
            "show type name already exists"))) ∧
     (∀ (s : showTypeService σ) (id : UUID) (dto : ShowTypeBase) (w : World σ)
          (stored existing : ShowType),
        s.validator dto = none → s.showTypeRepo.GetByID id w.db = .ok stored →
        stored.row.Name ≠ dto.Name → s.showTypeRepo.GetByName dto.Name w.db = .ok existing →
        existing.row.ID ≠ id →
        (s.UpdateShowType id dto w).1 =
          .error (.New (constants.ErrorDuplicateEntry ++ ": " ++
            "show type name already exists")))) ∧
    (∀ e : GoError,
      (e = .New (constants.ErrorValidationFailed ++ ": " ++ detail) ∨
        e = .New (constants.ErrorDuplicateEntry ++ ": " ++ detail)) →
      (e.Error ≠ constants.ErrorValidationFailed ∧ e.Error ≠ constants.ErrorDuplicateEntry) ∧
      ((InternalServerErrorResponse e : Response Unit).statusCode = 500 ∧
       (InternalServerErrorResponse e : Response Unit).body.Error = e.Error) ∧
      (∀ (ctrl : LocationController σ) (c : gin.Context LocationBase) (w : World σ)
          (dto : LocationBase),
        c.ShouldBindJSON = .ok dto →
        (ctrl.locationService.CreateLocation dto w).1 = .error e →
        (ctrl.CreateLocation c w).1 = InternalServerErrorResponse e) ∧
      (∀ (ctrl : LocationController σ) (c : gin.Context LocationBase) (w : World σ)
          (id : UUID) (dto : LocationBase),
        c.ParamID = .ok id → c.ShouldBindJSON = .ok dto →
        (ctrl.locationService.UpdateLocation id dto w).1 = .error e →
        (ctrl.UpdateLocation c w).1 = InternalServerErrorResponse e) ∧
      (∀ (ctrl : TheatreTypeController σ) (c : gin.Context TheatreTypeBase) (w : World σ)
          (dto : TheatreTypeBase),
        c.ShouldBindJSON = .ok dto →
        (ctrl.theatreTypeService.CreateTheatreType dto w).1 = .error e →
        (ctrl.CreateTheatreType c w).1 = InternalServerErrorResponse e) ∧
      (∀ (ctrl : TheatreTypeController σ) (c : gin.Context TheatreTypeBase) (w : World σ)
          (id : UUID) (dto : TheatreTypeBase),
        c.ParamID = .ok id → c.ShouldBindJSON = .ok dto →
        (ctrl.theatreTypeService.UpdateTheatreType id dto w).1 = .error e →
        (ctrl.UpdateTheatreType c w).1 = InternalServerErrorResponse e) ∧
      (∀ (ctrl : ShowTypeController σ) (c : gin.Context ShowTypeBase) (w : World σ)
          (dto : ShowTypeBase),
        c.ShouldBindJSON = .ok dto →
        (ctrl.showTypeService.CreateShowType dto w).1 = .error e →
        (ctrl.CreateShowType c w).1 = InternalServerErrorResponse e) ∧
      (∀ (ctrl : ShowTypeController σ) (c : gin.Context ShowTypeBase) (w : World σ)
          (id : UUID) (dto : ShowTypeBase),
        c.ParamID = .ok id → c.ShouldBindJSON = .ok dto →
        (ctrl.showTypeService.UpdateShowType id dto w).1 = .error e →
        (ctrl.UpdateShowType c w).1 = InternalServerErrorResponse e) ∧
      (∀ (ctrl : TheatreController σ) (c : gin.Context TheatreBase) (w : World σ)
          (dto : TheatreBase),
        c.ShouldBindJSON = .ok dto →
        (ctrl.theatreService.CreateTheatre dto w).1 = .error e →
        (ctrl.CreateTheatre c w).1 = InternalServerErrorResponse e) ∧
      (∀ (ctrl : TheatreController σ) (c : gin.Context TheatreBase) (w : World σ)
          (id : UUID) (dto : TheatreBase),
        c.ParamID = .ok id → c.ShouldBindJSON = .ok dto →
        (ctrl.theatreService.UpdateTheatre id dto w).1 = .error e →
        (ctrl.UpdateTheatre c w).1 = InternalServerErrorResponse e) ∧
      (∀ (ctrl : ShowController σ) (c : gin.Context ShowBase) (w : World σ)
          (dto : ShowBase),
        c.ShouldBindJSON = .ok dto →
        (ctrl.showService.CreateShow dto w).1 = .error e →
        (ctrl.CreateShow c w).1 = InternalServerErrorResponse e) ∧
      (∀ (ctrl : ShowController σ) (c : gin.Context ShowBase) (w : World σ)
          (id : UUID) (dto : ShowBase),
        c.ParamID = .ok id → c.ShouldBindJSON = .ok dto →
        (ctrl.showService.UpdateShow id dto w).1 = .error e →
        (ctrl.UpdateShow c w).1 = InternalServerErrorResponse e)) := by
  refine ⟨⟨?_, ?_⟩, ⟨?_, ?_, ?_, ?_, ?_, ?_, ?_, ?_, ?_, ?_⟩, ⟨?_, ?_, ?_, ?_⟩, ?_⟩
  · simp only [String.length_append]
    have : ": ".length = 2 := rfl
    omega
  · simp only [String.length_append]
    have : ": ".length = 2 := rfl
    omega
  · intro s dto w hv
    simp only [locationService.CreateLocation, hv]
  · intro s id dto w hv
    simp only [locationService.UpdateLocation, hv]
  · intro s dto w hv
    simp only [theatreTypeService.CreateTheatreType, hv]
  · intro s id dto w hv
    simp only [theatreTypeService.UpdateTheatreType, hv]
  · intro s dto w hv
    simp only [showTypeService.CreateShowType, hv]
  · intro s id dto w hv
    simp only [showTypeService.UpdateShowType, hv]
  · intro s dto w hv
    simp only [theatreService.CreateTheatre, hv]
  · intro s id dto w hv
    simp only [theatreService.UpdateTheatre, hv]
  · intro s dto w hv
    simp only [showService.CreateShow, hv]
  · intro s id dto w hv
    simp only [showService.UpdateShow, hv]
  · intro s dto w existing hv hn
    simp only [theatreTypeService.CreateTheatreType, hv, World.query, hn]
    rfl
  · intro s id dto w stored existing hv hg hne hn hid
    simp only [theatreTypeService.UpdateTheatreType, hv, World.query, hg, hn]
    rw [if_pos hne, if_pos hid]
    rfl
  · intro s dto w existing hv hn
    simp only [showTypeService.CreateShowType, hv, World.query, hn]
    rfl
  · intro s id dto w stored existing hv hg hne hn hid
    simp only [showTypeService.UpdateShowType, hv, World.query, hg, hn]
    rw [if_pos hne, if_pos hid]
    rfl
  · intro e h
    refine ⟨⟨(GoError.made_ne_constants detail e h).1, (GoError.made_ne_constants detail e h).2.1⟩,
      ⟨rfl, rfl⟩, ?_, ?_, ?_, ?_, ?_, ?_, ?_, ?_, ?_, ?_⟩
    · intro ctrl c w dto hb he
      exact ctrl.CreateLocation_answers_500 c w dto detail e hb he h
    · intro ctrl c w id dto hid hb he
      exact ctrl.UpdateLocation_answers_500 c w id dto detail e hid hb he h
    · intro ctrl c w dto hb he
      exact ctrl.CreateTheatreType_answers_500 c w dto detail e hb he h
    · intro ctrl c w id dto hid hb he
      exact ctrl.UpdateTheatreType_answers_500 c w id dto detail e hid hb he h
    · intro ctrl c w dto hb he
      exact ctrl.CreateShowType_answers_500 c w dto detail e hb he h
    · intro ctrl c w id dto hid hb he
      exact ctrl.UpdateShowType_answers_500 c w id dto detail e hid hb he h
    · intro ctrl c w dto hb he
      exact ctrl.CreateTheatre_answers_500 c w dto detail e hb he h
    · intro ctrl c w id dto hid hb he
      exact ctrl.UpdateTheatre_answers_500 c w id dto detail e hid hb he h
    · intro ctrl c w dto hb he
      exact ctrl.CreateShow_answers_500 c w dto detail e hb he h
    · intro ctrl c w id dto hid hb he
      exact ctrl.UpdateShow_answers_500 c w id dto detail e hid hb he h

end Properties
